import Mathlib

/-!
# Q.921 data link (libs/ysig/q921.cpp): shallow embedding and properties

The embedding follows `src/libs/ysig/q921.cpp`.

* Octets are natural numbers; a store into a `u_int8_t` is written `% 256`.
* A `DataBlock` is the list of its octets.
* A method that changes the object is a function returning the new object
  (together with the returned value when there is one).
* `yatesig.h` (class declarations, `SignallingTimer`, `SignallingCounter`,
  the `ISDNFrame` static helpers and enumerations) is not part of the
  sources at hand: what the code needs from it is modelled from the
  specification and marked as such.
* Debug output, the data dumper and locking are left out: they do not
  influence any value modelled here.
* What the link hands to its interface and what it calls on Layer 3 is recorded
  in two logs kept with the link. The answer of the interface to a transmission
  and the clock are inputs of every operation (`Env`). Layer 3 is taken not to
  call back into the link from within a call made to it.
-/

set_option autoImplicit false

/-- Octet buffer (`DataBlock`): the list of its bytes. -/
abbrev DataBlock := List Nat

/-! ## Modulo128 -/

namespace Modulo128

/-- `Modulo128::inc`: increment a value, set it to 0 if it is not below 127.
The reference parameter is modelled by returning the new value. -/
def inc (value : Nat) : Nat :=
  if value < 127 then value + 1 else 0

/-- `Modulo128::between`: check if a value is in an interval given by its margins. -/
def between (value low high : Nat) : Bool :=
  if low = high then decide (value = low)
  else if low < high then decide (value ≥ low) && decide (value ≤ high)
  else decide (value ≥ low) || decide (value ≤ high)

/-- `Modulo128::getLow`: lower margin of an interval given by its higher margin
and length (result stored in a `u_int8_t`). -/
def getLow (high len : Nat) : Nat :=
  (if high ≥ len then high - len + 1 else 128 - (len - high)) % 256

end Modulo128

/-! ## ISDNFrame -/

/-- Frame type and error codes (`ISDNFrame::Type`), in the order of the
`ISDNFrame::s_types` table. Every value from `Invalid` on is an error. -/
inductive FrameType where
  | DISC | DM | FRMR | I | REJ | RNR | RR | SABME | UA | UI | XID
  | Invalid
  | ErrUnknownCR | ErrHdrLength | ErrDataLength | ErrRxSeqNo | ErrTxSeqNo
  | ErrInvalidEA | ErrInvalidAddress | ErrUnsupported | ErrInvalidCR
  deriving DecidableEq, Repr, Inhabited

/-- Modelled from the spec: the enumeration values live in `yatesig.h`; the
comparison `t < ISDNFrame::Invalid` used throughout q921.cpp separates the 11
valid frame types from `Invalid` and the error codes (the spec's "one of 11
valid types or an error sentinel"). -/
def FrameType.valid : FrameType → Bool
  | .DISC | .DM | .FRMR | .I | .REJ | .RNR | .RR | .SABME | .UA | .UI | .XID => true
  | _ => false

/-- Frame category (`ISDNFrame::Category`). -/
inductive Category where
  | Data | Supervisory | Unnumbered | Error
  deriving DecidableEq, Repr, Inhabited

/-- Data members of `ISDNFrame`. -/
structure ISDNFrame where
  m_type : FrameType
  m_error : FrameType
  m_category : Category
  m_command : Bool
  m_senderNetwork : Bool
  m_sapi : Nat
  m_tei : Nat
  m_poll : Bool
  m_ns : Nat
  m_nr : Nat
  m_headerLength : Nat
  m_dataLength : Nat
  m_sent : Bool
  m_buffer : DataBlock
  deriving DecidableEq, Repr

namespace ISDNFrame

def Q921FRAME_U : Nat := 0x03
def Q921FRAME_S : Nat := 0x01
def Q921FRAME_U_GET_PF : Nat := 0x10
def Q921FRAME_U_RESET_PF : Nat := 0xef
def Q921FRAME_CR_RR : Nat := 0x01
def Q921FRAME_CR_UI : Nat := 0x03
def Q921FRAME_CR_RNR : Nat := 0x05
def Q921FRAME_CR_REJ : Nat := 0x09
def Q921FRAME_CR_DM : Nat := 0x0f
def Q921FRAME_CR_DISC : Nat := 0x43
def Q921FRAME_CR_FRMR : Nat := 0x87
def Q921FRAME_CR_UA : Nat := 0x63
def Q921FRAME_CR_SABME : Nat := 0x6f
def Q921FRAME_CR_XID : Nat := 0xaf

/-- Modelled from the spec: `ISDNFrame::commandBit` is declared in `yatesig.h`.
Value of the C/R bit of a command: network to user 1, user to network 0. -/
def commandBit (network : Bool) : Bool := network

/-- Modelled from the spec: `ISDNFrame::responseBit` is declared in `yatesig.h`.
Value of the C/R bit of a response: network to user 0, user to network 1. -/
def responseBit (network : Bool) : Bool := !network

/-- Modelled from the spec: `ISDNFrame::isCommand` is declared in `yatesig.h`.
The C/R bit read relative to the role of the sender: a frame from the network
is a command when the bit is set, a frame from the user side when it is clear. -/
def isCommand (cr : Nat) (senderNetwork : Bool) : Bool :=
  if cr ≠ 0 then senderNetwork else !senderNetwork

/-- `setAddress`: the two address octets `buf[0]`, `buf[1]`. -/
def setAddress (cr network : Bool) (sapi tei : Nat) : Nat × Nat :=
  let cr := if cr then commandBit network else responseBit network
  let b0 := (sapi <<< 2) % 256
  let b0 := if cr then b0 ||| 0x02 else b0
  (b0, ((tei <<< 1) ||| 0x01) % 256)

/-- `setControlU`: the control octet `buf[2]` of an U frame. -/
def setControlU (cr : Nat) (pf : Bool) : Nat :=
  if pf then cr ||| Q921FRAME_U_GET_PF else cr

/-- `setControl`: the control octets `buf[2]`, `buf[3]` of an S or I frame. -/
def setControl (cr_ns nr : Nat) (pf : Bool) : Nat × Nat :=
  let b3 := (nr <<< 1) % 256
  (cr_ns, if pf then b3 ||| 0x01 else b3)

/-- `ISDNFrame::ISDNFrame(Type)`: an undefined frame, used by the parser.
`m_senderNetwork` is left uninitialised by the source; it is `false` here. -/
def undefined (type : FrameType) : ISDNFrame :=
  { m_type := type, m_error := type, m_category := .Error, m_command := false,
    m_senderNetwork := false, m_sapi := 0, m_tei := 0, m_poll := false,
    m_ns := 0xFF, m_nr := 0xFF, m_headerLength := 0, m_dataLength := 0,
    m_sent := false, m_buffer := [] }

/-- Control codepoint, header length and category chosen by the `switch` of the
U/S constructor (`Q921_CASE_SET_CRMASK`); `none` is its `default` branch. -/
def crMask : FrameType → Option (Nat × Nat × Category)
  | .SABME => some (Q921FRAME_CR_SABME, 3, .Unnumbered)
  | .DM => some (Q921FRAME_CR_DM, 3, .Unnumbered)
  | .DISC => some (Q921FRAME_CR_DISC, 3, .Unnumbered)
  | .UA => some (Q921FRAME_CR_UA, 3, .Unnumbered)
  | .FRMR => some (Q921FRAME_CR_FRMR, 3, .Unnumbered)
  | .RR => some (Q921FRAME_CR_RR, 4, .Supervisory)
  | .RNR => some (Q921FRAME_CR_RNR, 4, .Supervisory)
  | .REJ => some (Q921FRAME_CR_REJ, 4, .Supervisory)
  | .XID => some (Q921FRAME_CR_XID, 3, .Unnumbered)
  | _ => none

/-- `ISDNFrame::ISDNFrame(Type,bool,bool,u_int8_t,u_int8_t,bool,u_int8_t)`:
create U/S frames SABME/DM/DISC/UA/FRMR/XID/RR/RNR/REJ. -/
def control (type : FrameType) (command senderNetwork : Bool) (sapi tei : Nat)
    (pf : Bool) (nr : Nat) : ISDNFrame :=
  let f : ISDNFrame :=
    { m_type := type, m_error := type, m_category := .Error, m_command := command,
      m_senderNetwork := senderNetwork, m_sapi := sapi, m_tei := tei, m_poll := pf,
      m_ns := 0xFF, m_nr := nr, m_headerLength := 3, m_dataLength := 0,
      m_sent := false, m_buffer := [] }
  let addr := setAddress f.m_command f.m_senderNetwork f.m_sapi f.m_tei
  match crMask type with
  | none => f
  | some (cr, hdrLen, category) =>
    let f := { f with m_headerLength := hdrLen, m_category := category }
    if f.m_headerLength = 3 then
      { f with m_buffer := [addr.1, addr.2, setControlU cr f.m_poll] }
    else
      let c := setControl cr f.m_nr f.m_poll
      { f with m_buffer := [addr.1, addr.2, c.1, c.2] }

/-- `ISDNFrame::ISDNFrame(bool,bool,u_int8_t,u_int8_t,bool,const DataBlock&)`:
create I/UI frames. -/
def data (ack senderNetwork : Bool) (sapi tei : Nat) (pf : Bool)
    (data : DataBlock) : ISDNFrame :=
  let f : ISDNFrame :=
    { m_type := .I, m_error := .I, m_category := .Data, m_command := true,
      m_senderNetwork := senderNetwork, m_sapi := sapi, m_tei := tei, m_poll := pf,
      m_ns := 0, m_nr := 0, m_headerLength := 4, m_dataLength := data.length,
      m_sent := false, m_buffer := [] }
  let f := if !ack then
      { f with m_type := .UI, m_error := .UI, m_headerLength := 3, m_ns := 0xff, m_nr := 0xff }
    else f
  let addr := setAddress f.m_command f.m_senderNetwork f.m_sapi f.m_tei
  if f.m_type = .I then
    let c := setControl ((f.m_ns <<< 1) % 256) ((f.m_nr <<< 1) % 256) f.m_poll
    { f with m_buffer := [addr.1, addr.2, c.1, c.2] ++ data }
  else
    { f with m_buffer := [addr.1, addr.2, setControlU Q921FRAME_CR_UI f.m_poll] ++ data }

/-- `ISDNFrame::update`: update the transmitter send and transmitter receive
values of an I frame. A null pointer argument is `none`. -/
def update (f : ISDNFrame) (ns nr : Option Nat) : ISDNFrame :=
  if f.m_type ≠ .I then f
  else
    let f := match ns with
      | some v => { f with m_ns := v, m_buffer := f.m_buffer.set 2 ((v <<< 1) % 256) }
      | none => f
    match nr with
    | some v =>
      { f with m_nr := v,
               m_buffer := f.m_buffer.set 3 (((v <<< 1) ||| (f.m_buffer.getD 3 0 &&& 0x01)) % 256) }
    | none => f

/-- `ISDNFrame::sent(bool)`: set the transmitted flag. -/
def setSent (f : ISDNFrame) (value : Bool) : ISDNFrame := { f with m_sent := value }

/-- Type and category selected by the U frame `switch` of `parse`
(`Q921_CASE_SETTYPE`); `none` is the `default` branch. -/
def uType (code : Nat) : Option (FrameType × Category) :=
  if code = Q921FRAME_CR_UA then some (.UA, .Unnumbered)
  else if code = Q921FRAME_CR_DM then some (.DM, .Unnumbered)
  else if code = Q921FRAME_CR_DISC then some (.DISC, .Unnumbered)
  else if code = Q921FRAME_CR_SABME then some (.SABME, .Unnumbered)
  else if code = Q921FRAME_CR_UI then some (.UI, .Data)
  else if code = Q921FRAME_CR_FRMR then some (.FRMR, .Unnumbered)
  else if code = Q921FRAME_CR_XID then some (.XID, .Unnumbered)
  else none

/-- Type and category selected by the S frame `switch` of `parse`. -/
def sType (code : Nat) : Option (FrameType × Category) :=
  if code = Q921FRAME_CR_RR then some (.RR, .Supervisory)
  else if code = Q921FRAME_CR_RNR then some (.RNR, .Supervisory)
  else if code = Q921FRAME_CR_REJ then some (.REJ, .Supervisory)
  else none

/-- `ISDNFrame::parse`: parse a received buffer. `receiver` is `none` for a
null receiver and otherwise holds `receiver->network()`. -/
def parse (data : DataBlock) (receiver : Option Bool) : Option ISDNFrame :=
  match receiver with
  | none => none
  | some network =>
    if data.length < 3 then none
    else
      let frame := undefined .Invalid
      let buf := fun (i : Nat) => data.getD i 0
      if (buf 0 &&& 0x01) ≠ 0 || (buf 1 &&& 0x01) = 0 then
        some { frame with m_buffer := data, m_headerLength := data.length,
                          m_error := .ErrInvalidEA }
      else
        let frame := { frame with m_senderNetwork := !network }
        let frame := { frame with
          m_command := isCommand (buf 0 &&& 0x02) frame.m_senderNetwork,
          m_sapi := buf 0 >>> 2, m_tei := buf 1 >>> 1 }
        let type := buf 2 &&& 0x03
        if type ≠ Q921FRAME_U ∧ data.length < 4 then
          some { frame with m_buffer := data, m_headerLength := 3,
                            m_error := .ErrHdrLength }
        else
          let frame :=
            if type = Q921FRAME_U then
              let frame := { frame with
                m_headerLength := 3,
                m_poll := decide ((buf 2 &&& Q921FRAME_U_GET_PF) ≠ 0) }
              match uType (buf 2 &&& Q921FRAME_U_RESET_PF) with
              | some (t, c) => { frame with m_type := t, m_error := t, m_category := c }
              | none => { frame with m_type := .Invalid, m_error := .ErrUnknownCR }
            else if type = Q921FRAME_S then
              let frame := { frame with
                m_headerLength := 4,
                m_poll := decide ((buf 3 &&& 0x01) ≠ 0), m_nr := buf 3 >>> 1 }
              match sType (buf 2) with
              | some (t, c) => { frame with m_type := t, m_error := t, m_category := c }
              | none => { frame with m_type := .Invalid, m_error := .ErrUnknownCR }
            else
              { frame with
                m_type := .I, m_error := .I, m_category := .Data,
                m_headerLength := 4, m_poll := decide ((buf 3 &&& 0x01) ≠ 0),
                m_ns := buf 2 >>> 1, m_nr := buf 3 >>> 1 }
          some { frame with m_buffer := data,
                            m_dataLength := data.length - frame.m_headerLength }

/-- Modelled from the spec: `ISDNFrame::getData` is declared in `yatesig.h`.
The payload of the frame: the bytes of the buffer after the header. -/
def getData (f : ISDNFrame) : DataBlock := f.m_buffer.drop f.m_headerLength

end ISDNFrame

/-! ## SignallingCounter, SignallingTimer -/

/-- Modelled from the spec: `SignallingCounter` is declared in `yatesig.h`. An
occupancy counter bounded by a configurable maximum: `inc` does nothing when the
counter is full, `dec` nothing when it is empty. -/
structure SignallingCounter where
  m_max : Nat
  m_count : Nat
  deriving DecidableEq, Repr

namespace SignallingCounter

def maxVal (c : SignallingCounter) : Nat := c.m_max
def count (c : SignallingCounter) : Nat := c.m_count
def setMaxVal (c : SignallingCounter) (value : Nat) : SignallingCounter := { c with m_max := value }
def empty (c : SignallingCounter) : Bool := decide (c.m_count = 0)
def full (c : SignallingCounter) : Bool := decide (c.m_count = c.maxVal)
def reset (c : SignallingCounter) : SignallingCounter := { c with m_count := 0 }
def inc (c : SignallingCounter) : SignallingCounter :=
  if c.full then c else { c with m_count := c.m_count + 1 }
def dec (c : SignallingCounter) : SignallingCounter :=
  if c.empty then c else { c with m_count := c.m_count - 1 }

end SignallingCounter

/-- Modelled from the spec: `SignallingTimer` is declared in `yatesig.h`. A timer
holds its interval and the time at which it fires; it is running (started) iff
the fire time is not 0, and it has timed out when it is running and its fire
time lies before the given time. Times are in milliseconds. -/
structure SignallingTimer where
  m_interval : Nat
  m_timeout : Nat
  deriving DecidableEq, Repr

namespace SignallingTimer

def interval (t : SignallingTimer) : Nat := t.m_interval
def setInterval (t : SignallingTimer) (value : Nat) : SignallingTimer := { t with m_interval := value }
def start (t : SignallingTimer) (time : Nat) : SignallingTimer :=
  if t.m_interval ≠ 0 then { t with m_timeout := time + t.m_interval } else t
def stop (t : SignallingTimer) : SignallingTimer := { t with m_timeout := 0 }
def started (t : SignallingTimer) : Bool := decide (t.m_timeout > 0)
def timeout (t : SignallingTimer) (time : Nat) : Bool := t.started && decide (t.m_timeout < time)

end SignallingTimer

/-! ## ISDNLayer2 and ISDNQ921 -/

/-- Data link states (`ISDNLayer2::State`, see `ISDNLayer2::m_states`). -/
inductive State where
  | Released | WaitEstablish | Established | WaitRelease
  deriving DecidableEq, Repr, Inhabited

/-- Calls made to the attached Layer 3 through the `ISDNLayer2` methods of the
same names, in the order they are made. -/
inductive UpCall where
  | multipleFrameEstablished (confirmation timeout : Bool)
  | multipleFrameReleased (confirmation timeout : Bool)
  | dataLinkState (cmd value : Bool)
  | idleTimeout
  | receiveData (data : DataBlock) (ack : Bool)
  deriving DecidableEq, Repr

/-- Modelled from the spec: `SignallingInterface::Notification` is declared in
`yatesig.h`; the closed set of hardware notification codes. -/
inductive Notification where
  | LinkUp | LinkDown | HardwareError | TxClockError | RxClockError | AlignError
  | CksumError | TxOversize | RxOversize | TxOverflow | RxOverflow | TxUnderrun
  | RxUnderrun
  deriving DecidableEq, Repr

/-- What a call sees of the world outside the link: the clock
(`Time::msecNow()`) and, for the attempt with a given index (the number of
packets handed to the interface before it), whether
`SignallingReceiver::transmitPacket` reports success. -/
structure Env where
  now : Nat
  transmit : Nat → DataBlock → Bool

/-- Configuration read by the constructors from the `NamedList` parameters.
`t200` and `t203` are the timer intervals in milliseconds as returned by
`SignallingTimer::interval` (declared in `yatesig.h`), which keeps them at or
above the minimum given by the constructor (1000 and 2000). -/
structure Params where
  network : Bool
  detect : Bool
  sapi : Int
  tei : Int
  allowUnack : Bool
  autoRestart : Bool
  maxuserdata : Nat
  t200 : Nat
  t203 : Nat
  maxpendingframes : Nat
  deriving DecidableEq, Repr

/-- Data members of `ISDNLayer2`. -/
structure ISDNLayer2 where
  m_state : State
  m_network : Bool
  m_detectType : Bool
  m_sapi : Nat
  m_tei : Nat
  m_teiAssigned : Bool
  m_allowUnack : Bool
  m_autoRestart : Bool
  m_maxUserData : Nat
  deriving DecidableEq, Repr

/-- Data members of `ISDNQ921` (the dumper and the debug flags left out),
followed by the two observation logs of the model: `txLog`, the packets handed
to `SignallingReceiver::transmitPacket`, and `upLog`, the calls made to Layer 3. -/
structure ISDNQ921 extends ISDNLayer2 where
  m_remoteBusy : Bool
  m_timerRecovery : Bool
  m_rejectSent : Bool
  m_pendingDMSabme : Bool
  m_lastPFBit : Bool
  m_vs : Nat
  m_va : Nat
  m_vr : Nat
  m_retransTimer : SignallingTimer
  m_idleTimer : SignallingTimer
  m_window : SignallingCounter
  m_n200 : SignallingCounter
  m_outFrames : List ISDNFrame
  m_txFrames : Nat
  m_txFailFrames : Nat
  m_rxFrames : Nat
  m_rxRejectedFrames : Nat
  m_rxDroppedFrames : Nat
  m_hwErrors : Nat
  m_errorSend : Bool
  m_errorReceive : Bool
  txLog : List DataBlock
  upLog : List UpCall
  deriving DecidableEq, Repr

/-- `ISDNLayer2::ISDNLayer2`: set the data members from the parameters. -/
def ISDNLayer2.new (params : Params) : ISDNLayer2 :=
  { m_state := .Released,
    m_network := params.network,
    m_detectType := params.detect,
    m_sapi := if params.sapi ≥ 0 ∧ params.sapi ≤ 63 then params.sapi.toNat else 0,
    m_tei := if params.tei ≥ 0 ∧ params.tei ≤ 127 then params.tei.toNat else 0,
    m_teiAssigned := true,
    m_allowUnack := params.allowUnack,
    m_autoRestart := params.autoRestart,
    m_maxUserData := if params.maxuserdata = 0 then 260 else params.maxuserdata }

namespace ISDNQ921

/-- Increment of a 32 bit frame or error counter. -/
def inc32 (n : Nat) : Nat := (n + 1) % 4294967296

/-- `ISDNQ921::ISDNQ921`: the freshly constructed link. The timer intervals are
the configured `t200` and `t203`, the latter adjusted to the data link side. -/
def new (params : Params) : ISDNQ921 :=
  let base := ISDNLayer2.new params
  { base with
    m_remoteBusy := false, m_timerRecovery := false, m_rejectSent := false,
    m_pendingDMSabme := false, m_lastPFBit := false,
    m_vs := 0, m_va := 0, m_vr := 0,
    m_retransTimer := { m_interval := params.t200, m_timeout := 0 },
    m_idleTimer :=
      { m_interval := if base.m_network then params.t203 - 500 else params.t203 + 500,
        m_timeout := 0 },
    m_window := { m_max := if params.maxpendingframes = 0 then 7 else params.maxpendingframes,
                  m_count := 0 },
    m_n200 := { m_max := 3, m_count := 0 },
    m_outFrames := [],
    m_txFrames := 0, m_txFailFrames := 0, m_rxFrames := 0, m_rxRejectedFrames := 0,
    m_rxDroppedFrames := 0, m_hwErrors := 0,
    m_errorSend := false, m_errorReceive := false,
    txLog := [], upLog := [] }

/-- `ISDNLayer2::changeState`: change the data link status while in TEI
ASSIGNED state. -/
def changeState (l : ISDNQ921) (newState : State) : ISDNQ921 :=
  if !l.m_teiAssigned then l
  else if l.m_state = newState then l
  else { l with m_state := newState }

/-- Record a call to Layer 3 (`ISDNLayer2::multipleFrameEstablished`,
`multipleFrameReleased`, `receiveData`). -/
def upcall (l : ISDNQ921) (c : UpCall) : ISDNQ921 := { l with upLog := l.upLog ++ [c] }

/-- `ISDNQ921::timer`: start/stop the idle or retransmission timer. `time = 0`
stands for the defaulted argument, replaced by the current time. In the source
the `else` written under `if (t203)` belongs to the inner `if`. -/
def timer (e : Env) (l : ISDNQ921) (start t203 : Bool) (time : Nat) : ISDNQ921 :=
  if start then
    let l := if l.m_idleTimer.started then { l with m_idleTimer := l.m_idleTimer.stop } else l
    let time := if time = 0 then e.now else time
    { l with m_retransTimer := l.m_retransTimer.start time }
  else
    let l := { l with m_n200 := l.m_n200.reset }
    let l := if l.m_retransTimer.started then
        { l with m_retransTimer := l.m_retransTimer.stop } else l
    if t203 then
      if !l.m_idleTimer.started then
        let time := if time = 0 then e.now else time
        { l with m_idleTimer := l.m_idleTimer.start time }
      else
        if l.m_idleTimer.started then { l with m_idleTimer := l.m_idleTimer.stop } else l
    else l

/-- `ISDNQ921::reset`: reset data. -/
def reset (e : Env) (l : ISDNQ921) : ISDNQ921 :=
  let l := { l with m_remoteBusy := false, m_timerRecovery := false,
                    m_rejectSent := false, m_lastPFBit := false }
  let l := { l with m_n200 := l.m_n200.reset, m_window := l.m_window.reset }
  let l := timer e l false false 0
  { l with m_outFrames := [], m_va := 0, m_vs := 0, m_vr := 0 }

/-- `ISDNQ921::dropFrame`: count a dropped frame. -/
def dropFrame (l : ISDNQ921) : ISDNQ921 :=
  { l with m_rxDroppedFrames := inc32 l.m_rxDroppedFrames }

/-- `ISDNQ921::sendFrame`: send a frame to the remote peer. -/
def sendFrame (e : Env) (l : ISDNQ921) (frame : ISDNFrame) : Bool × ISDNQ921 :=
  if !frame.m_type.valid then (false, l)
  else
    let result := e.transmit l.txLog.length frame.m_buffer
    let l := { l with txLog := l.txLog ++ [frame.m_buffer] }
    if result then
      (true, { l with m_txFrames := inc32 l.m_txFrames, m_errorSend := false })
    else
      (false, { l with m_txFailFrames := inc32 l.m_txFailFrames, m_errorSend := true })

/-- `ISDNQ921::sendUFrame`: send U frames except for UI frames. The `retrans`
flag only marks the temporary frame and is not modelled; the N(R) argument of
the constructor, left to its default by the source, is 0 (it is not serialised
in an U frame). -/
def sendUFrame (e : Env) (l : ISDNQ921) (type : FrameType) (command pf : Bool) :
    Bool × ISDNQ921 :=
  match type with
  | .SABME | .DISC | .DM | .UA | .FRMR =>
    sendFrame e l (ISDNFrame.control type command l.m_network l.m_sapi l.m_tei pf 0)
  | _ => (false, l)

/-- `ISDNQ921::sendSFrame`: send S frames, carrying N(R) = V(R). -/
def sendSFrame (e : Env) (l : ISDNQ921) (type : FrameType) (command pf : Bool) :
    Bool × ISDNQ921 :=
  if !(type = .RR || type = .RNR || type = .REJ) then (false, l)
  else sendFrame e l (ISDNFrame.control type command l.m_network l.m_sapi l.m_tei pf l.m_vr)

/-- Body of the sending loop of `ISDNQ921::sendOutgoingData` over the frames
still to be sent: update N(R) of the frame, start T200 if not started, send the
frame and mark it sent. Returns the frames as left in the queue. -/
def sendLoop (e : Env) (l : ISDNQ921) : List ISDNFrame → List ISDNFrame × ISDNQ921
  | [] => ([], l)
  | frame :: rest =>
    let frame := frame.update none (some l.m_vr)
    let l := if !l.m_retransTimer.started then timer e l true false 0 else l
    let l := (sendFrame e l frame).2
    let frame := frame.setSent true
    let r := sendLoop e l rest
    (frame :: r.1, r.2)

/-- `ISDNQ921::sendOutgoingData`: send (or re-send) enqueued data frames. When
it is not a retransmission the already sent frames at the head are skipped. -/
def sendOutgoingData (e : Env) (l : ISDNQ921) (retrans : Bool) : Bool × ISDNQ921 :=
  if l.m_remoteBusy || l.m_window.empty then (false, l)
  else
    match l.m_outFrames with
    | [] => (false, l)
    | queue =>
      let skipped := if !retrans then queue.takeWhile (fun f => f.m_sent) else []
      let pending := if !retrans then queue.dropWhile (fun f => f.m_sent) else queue
      let r := sendLoop e l pending
      (!pending.isEmpty, { r.2 with m_outFrames := skipped ++ r.1 })

/-- Loop of `ISDNQ921::ackOutgoingFrames`: remove the frames at the head of the
queue up to the one whose N(S) equals `nr`, decrementing the window for each.
Returns `(ack, unack, queue, window)`. -/
def ackLoop (nr : Nat) (ack : Bool) (window : SignallingCounter) :
    List ISDNFrame → Bool × Bool × List ISDNFrame × SignallingCounter
  | [] => (ack, false, [], window)
  | f :: rest =>
    if nr = f.m_ns then (ack, f.m_sent, f :: rest, window)
    else ackLoop nr true window.dec rest

/-- `ISDNQ921::ackOutgoingFrames`: acknowledge pending outgoing frames, remove
the acknowledged frames from the queue, stop or start T200. -/
def ackOutgoingFrames (e : Env) (l : ISDNQ921) (frame : ISDNFrame) : Bool × ISDNQ921 :=
  let r := ackLoop frame.m_nr false l.m_window l.m_outFrames
  let ack := r.1
  let unack := r.2.1
  let l := { l with m_outFrames := r.2.2.1, m_window := r.2.2.2 }
  let l := if !l.m_timerRecovery && ack && !(frame.m_type ≠ .I && l.m_lastPFBit)
    then timer e l false false 0 else l
  let l := if unack && !l.m_retransTimer.started then timer e l true false 0 else l
  (ack, l)

/-- `ISDNQ921::processDataFrame`: receive I/UI frames. Returns whether the data
is to be passed to the upper layer. -/
def processDataFrame (e : Env) (l : ISDNQ921) (frame : ISDNFrame) (ack : Bool) :
    Bool × ISDNQ921 :=
  let reason : Bool :=
    if ack then decide (l.m_state ≠ .Established) else !l.m_allowUnack
  if reason then (false, dropFrame l)
  else if !ack then (true, l)
  else
    let l := { l with m_rejectSent := false, m_remoteBusy := false }
    let l := { l with m_vr := Modulo128.inc frame.m_ns }
    let l := (ackOutgoingFrames e l frame).2
    let l := { l with m_va := frame.m_nr }
    let l :=
      if frame.m_poll then (sendSFrame e l .RR false true).2
      else
        let r := sendOutgoingData e l false
        if !r.1 then (sendSFrame e r.2 .RR false false).2 else r.2
    let l := if !l.m_retransTimer.started then timer e l false true 0 else l
    (true, l)

/-- `ISDNQ921::processSFrame`: process received S frames RR, REJ, RNR. -/
def processSFrame (e : Env) (l : ISDNQ921) (frame : ISDNFrame) : Bool × ISDNQ921 :=
  if l.m_state ≠ .Established then (false, dropFrame l)
  else if frame.m_type = .RR then
    let l := { l with m_remoteBusy := false }
    let l := (ackOutgoingFrames e l frame).2
    let r := sendOutgoingData e l false
    let sent := r.1
    let l := r.2
    let l :=
      if frame.m_poll then
        let l := if !l.m_lastPFBit && frame.m_command
          then (sendSFrame e l .RR false true).2 else l
        if !sent then timer e { l with m_lastPFBit := false } false true 0 else l
      else l
    let l := if !l.m_retransTimer.started && !l.m_idleTimer.started
      then timer e l false true 0 else l
    (false, l)
  else if frame.m_type = .REJ then
    let l := { l with m_remoteBusy := false }
    let l := (ackOutgoingFrames e l frame).2
    let rspPF := !frame.m_command && frame.m_poll
    if !l.m_timerRecovery || (l.m_timerRecovery && rspPF) then
      let l := { l with m_vs := frame.m_nr, m_va := frame.m_nr }
      let l := if !l.m_timerRecovery && frame.m_command && frame.m_poll
        then (sendSFrame e l .RR false true).2 else l
      let l :=
        if !l.m_lastPFBit then
          let r := sendOutgoingData e l true
          timer e r.2 r.1 (!r.1) 0
        else l
      (false, { l with m_timerRecovery := false })
    else
      let l := { l with m_va := frame.m_nr }
      let l := if frame.m_command && frame.m_poll
        then (sendSFrame e l .RR false true).2 else l
      (false, l)
  else if frame.m_type = .RNR then
    let l := { l with m_remoteBusy := true }
    let l := (ackOutgoingFrames e l frame).2
    let l :=
      if frame.m_poll then
        if frame.m_command then (sendSFrame e l .RR false true).2
        else { l with m_timerRecovery := false, m_vs := frame.m_nr }
      else l
    let l := if !l.m_lastPFBit then timer e l true false 0 else l
    (false, l)
  else (false, dropFrame l)

/-- `ISDNQ921::processUFrame`: receive U frames UA, DM, SABME, DISC, FRMR.
Returns `(result, newState, confirmation)` and the link; `newState` and
`confirmation` are the values of the reference parameters, given as they were
on entry where the source does not assign them. -/
def processUFrame (e : Env) (l : ISDNQ921) (frame : ISDNFrame) (newState : State)
    (confirmation : Bool) : (Bool × State × Bool) × ISDNQ921 :=
  let drop := ((false, newState, confirmation), dropFrame l)
  match frame.m_type with
  | .UA =>
    if !(frame.m_poll && (l.m_state = .WaitEstablish || l.m_state = .WaitRelease)) then drop
    else ((true, if l.m_state = .WaitEstablish then .Established else .Released, true), l)
  | .DM =>
    if (l.m_state = .Established || l.m_state = .Released) && !frame.m_poll then
      ((true, .WaitEstablish, confirmation), l)
    else if (l.m_state = .Established || l.m_state = .Released)
        && (l.m_state = .Established && l.m_timerRecovery) then
      ((false, newState, confirmation), { l with m_pendingDMSabme := true })
    else if frame.m_poll then ((true, .Released, true), l)
    else drop
  | .SABME =>
    if l.m_state = .Established || l.m_state = .Released then
      ((true, .Established, false), (sendUFrame e l .UA false frame.m_poll).2)
    else if l.m_state = .WaitEstablish then
      ((false, newState, confirmation), (sendUFrame e l .UA false frame.m_poll).2)
    else ((true, .Released, true), (sendUFrame e l .DM false frame.m_poll).2)
  | .DISC =>
    match l.m_state with
    | .Established => ((true, .Released, false), (sendUFrame e l .UA false frame.m_poll).2)
    | .Released => ((false, newState, confirmation), (sendUFrame e l .DM false frame.m_poll).2)
    | .WaitEstablish => ((true, .Released, true), (sendUFrame e l .DM false frame.m_poll).2)
    | .WaitRelease => ((false, newState, confirmation), (sendUFrame e l .UA false frame.m_poll).2)
  | .FRMR =>
    if l.m_state = .Established then ((true, .WaitEstablish, confirmation), l)
    else drop
  | _ => drop

/-- Checks made by the `for` loop of `ISDNQ921::acceptFrame` on a frame that is
not already invalid: the error set on the frame, or its error unchanged. -/
def acceptCheck (l : ISDNQ921) (frame : ISDNFrame) : FrameType :=
  if frame.m_sapi ≠ l.m_sapi ∨ frame.m_tei ≠ l.m_tei then .ErrInvalidAddress
  else if frame.m_type = .I ∧ frame.m_ns ≠ l.m_vr then .ErrTxSeqNo
  else if ((frame.m_type = .SABME ∨ frame.m_type = .DISC) ∧ frame.m_command = false) ∨
      ((frame.m_type = .UA ∨ frame.m_type = .DM) ∧ frame.m_command = true) then .ErrInvalidCR
  else if frame.m_type = .XID then .ErrUnsupported
  else if frame.m_nr < 128 ∧ Modulo128.between frame.m_nr l.m_va l.m_vs = false then .ErrRxSeqNo
  else if frame.m_dataLength > l.m_maxUserData then .ErrDataLength
  else frame.m_error

/-- `ISDNQ921::acceptFrame`: accept a frame according to Q.921 5.8.5. Returns
`(result, reject)`, the frame with its error set, and the link. -/
def acceptFrame (l : ISDNQ921) (frame : ISDNFrame) : (Bool × Bool) × ISDNFrame × ISDNQ921 :=
  let l := { l with m_rxFrames := inc32 l.m_rxFrames }
  let frame := if frame.m_error.valid then { frame with m_error := acceptCheck l frame } else frame
  if frame.m_error.valid then ((true, false), frame, l)
  else if (frame.m_error = .ErrUnknownCR || frame.m_error = .ErrRxSeqNo ||
      frame.m_error = .ErrDataLength) && l.m_state = .Established then
    ((false, true), frame, { l with m_rxRejectedFrames := inc32 l.m_rxRejectedFrames })
  else ((false, false), frame, dropFrame l)

/-- `ISDNQ921::multipleFrame`: set or release the multiple frame acknowledged mode. -/
def multipleFrame (e : Env) (l : ISDNQ921) (establish force : Bool) : Bool × ISDNQ921 :=
  if l.m_state = .WaitEstablish || l.m_state = .WaitRelease then (false, l)
  else if !force &&
      ((establish && (l.m_state = .Established || l.m_state = .WaitEstablish)) ||
       (!establish && (l.m_state = .Released || l.m_state = .WaitRelease))) then (false, l)
  else if establish then
    let l := reset e l
    let r := sendUFrame e l .SABME true true
    let l := changeState r.2 .WaitEstablish
    (r.1, timer e l true false 0)
  else if l.m_state = .Released then
    (true, upcall l (.multipleFrameReleased true false))
  else
    let l := reset e l
    let r := sendUFrame e l .DISC true true
    let l := changeState r.2 .WaitRelease
    (r.1, timer e l true false 0)

/-- `ISDNQ921::sendData`: send data through the HDLC interface. -/
def sendData (e : Env) (l : ISDNQ921) (data : DataBlock) (ack : Bool) : Bool × ISDNQ921 :=
  if !(data.length ≠ 0 && l.m_teiAssigned) then (false, l)
  else if ack then
    if l.m_state = .Released || l.m_window.full then (false, l)
    else
      let f := ISDNFrame.data true l.m_network l.m_sapi l.m_tei false data
      let f := f.update (some l.m_vs) none
      let l := { l with m_vs := Modulo128.inc l.m_vs }
      let l := { l with m_window := l.m_window.inc }
      let l := { l with m_outFrames := l.m_outFrames ++ [f] }
      (true, (sendOutgoingData e l false).2)
  else if !l.m_allowUnack then (false, l)
  else sendFrame e l (ISDNFrame.data false l.m_network l.m_sapi l.m_tei false data)

/-- `ISDNQ921::cleanup`: send DISC if established, reset data. -/
def cleanup (e : Env) (l : ISDNQ921) : ISDNQ921 :=
  let l := if l.m_state = .Established then (sendUFrame e l .DISC true true).2 else l
  changeState (reset e l) .Released

/-- `ISDNQ921::timerTick`: method called periodically to check timeouts. `when`
is `when.msec()`. -/
def timerTick (e : Env) (l : ISDNQ921) (when : Nat) : ISDNQ921 :=
  if l.m_state = .Released then l
  else if !l.m_retransTimer.started && !l.m_idleTimer.started then
    { timer e l false true when with m_timerRecovery := false }
  else if !l.m_retransTimer.started && !l.m_idleTimer.timeout when then l
  else
    let l := if !l.m_retransTimer.started then timer e l true false when else l
    if !l.m_retransTimer.timeout when then l
    else if l.m_n200.full then
      let l := changeState (reset e l) .Released
      let l := upcall l (.multipleFrameReleased false true)
      if l.m_autoRestart then (multipleFrame e l true false).2 else l
    else if l.m_state = .WaitEstablish || l.m_state = .WaitRelease then
      let t : FrameType := if l.m_state = .WaitEstablish then .SABME else .DISC
      let l := (sendUFrame e l t true true).2
      let l := { l with m_n200 := l.m_n200.inc }
      timer e l true false when
    else
      let l := if !l.m_timerRecovery
        then { l with m_n200 := l.m_n200.reset, m_timerRecovery := true } else l
      let r := sendOutgoingData e l true
      let l := if !r.1
        then { (sendSFrame e r.2 .RR true true).2 with m_lastPFBit := true } else r.2
      let l := { l with m_n200 := l.m_n200.inc }
      timer e l true false when

/-- State change applied at the end of `ISDNQ921::receivedPacket`. -/
def applyState (e : Env) (l : ISDNQ921) (newState : State) (confirmation : Bool) : ISDNQ921 :=
  let l := changeState (reset e l) newState
  match newState with
  | .Established =>
    upcall (timer e l false true 0) (.multipleFrameEstablished confirmation false)
  | .Released => upcall l (.multipleFrameReleased confirmation false)
  | .WaitEstablish => timer e (sendUFrame e l .SABME true true).2 true false 0
  | .WaitRelease => timer e (sendUFrame e l .DISC true true).2 true false 0

/-- `ISDNQ921::receivedPacket`: process a packet received by the interface of
the receiver. Parse the data, validate the received frame and process it. -/
def receivedPacket (e : Env) (l : ISDNQ921) (packet : DataBlock) : Bool × ISDNQ921 :=
  if packet.length = 0 then (false, l)
  else
    match ISDNFrame.parse packet (some l.m_network) with
    | none => (false, { l with m_errorReceive := true })
    | some frame =>
      let l := { l with m_errorReceive := false }
      let a := acceptFrame l frame
      let frame := a.2.1
      let l := a.2.2
      if !a.1.1 then
        if !a.1.2 then
          if frame.m_error = .ErrTxSeqNo then
            if !l.m_rejectSent then
              let l := (sendSFrame e l .REJ true true).2
              (true, { l with m_rejectSent := true, m_lastPFBit := true })
            else (true, (sendSFrame e l .RR false frame.m_poll).2)
          else (true, l)
        else
          let l := changeState (reset e l) .WaitEstablish
          let l := (sendUFrame e l .SABME true true).2
          (true, timer e l true false 0)
      else if frame.m_category = .Data then
        let ack := decide (frame.m_type = .I)
        let r := processDataFrame e l frame ack
        if r.1 then (true, upcall r.2 (.receiveData frame.getData ack)) else (true, r.2)
      else
        let r : (Bool × State × Bool) × ISDNQ921 :=
          if frame.m_category = .Supervisory then
            let s := processSFrame e l frame
            if s.1 then
              let l := { s.2 with m_timerRecovery := false }
              if l.m_pendingDMSabme then
                ((true, .WaitEstablish, false), { l with m_pendingDMSabme := false })
              else ((false, l.m_state, false), l)
            else ((false, s.2.m_state, false), s.2)
          else processUFrame e l frame l.m_state false
        if !r.1.1 then (true, r.2)
        else (true, applyState e r.2 r.1.2.1 r.1.2.2)

/-- `ISDNQ921::notify`: process a notification generated by the attached interface. -/
def notify (e : Env) (l : ISDNQ921) (event : Notification) : Bool × ISDNQ921 :=
  if event = .LinkUp then (true, l)
  else
    let l := { l with m_hwErrors := inc32 l.m_hwErrors }
    if event = .LinkDown then
      let l := changeState (reset e l) .Released
      let l := upcall l (.multipleFrameReleased false false)
      (true, if l.m_autoRestart then (multipleFrame e l true false).2 else l)
    else (true, l)

end ISDNQ921

/-! ## Claimed way of building each frame type -/

namespace ISDNFrame

/-- How a frame of each valid type is built for transmission: an I frame by the
data constructor followed by `update` of N(S) and N(R), an UI frame by the data
constructor, an S frame by the U/S constructor with the N(R) argument, any other
frame by the U/S constructor with N(R) = 0xFF (not applicable). -/
def build (t : FrameType) (command senderNetwork : Bool) (sapi tei : Nat) (pf : Bool)
    (ns nr : Nat) (payload : DataBlock) : ISDNFrame :=
  match t with
  | .I => (data true senderNetwork sapi tei pf payload).update (some ns) (some nr)
  | .UI => data false senderNetwork sapi tei pf payload
  | .RR | .RNR | .REJ => control t command senderNetwork sapi tei pf nr
  | _ => control t command senderNetwork sapi tei pf 0xFF

end ISDNFrame


/-! ## SS7Route (router.cpp) -/

/-- Modelled from the spec: `SS7Route` is declared in `yatesig.h`, `ObjList` and
`GenPointer` in `yateclass.h`. The route holds the packed point code of its
destination and the list `m_networks` of `L3Pointer` objects, given here as the
sequence of the network pointers they hold in list order (a network is named by
a number, a null pointer is `none`). `ObjList::insert` puts the new object at
the position it is called on, before the object that was there, `append` adds
it at the tail and `remove(obj,false)` takes the object out of the list. -/
structure SS7Route where
  m_packed : Nat
  m_networks : List (Option Nat)
  deriving DecidableEq, Repr

namespace SS7Route

/-- The value `(unsigned int)-1` by which a network reports that it has no
route to the destination. -/
def noRoute : Nat := 4294967295

/-- Loop of `SS7Route::detach`: remove the first pointer equal to `network`. -/
def detachLoop (network : Nat) : List (Option Nat) → List (Option Nat)
  | [] => []
  | p :: rest => if p = some network then rest else p :: detachLoop network rest

/-- `SS7Route::detach`: remove a network from the list without deleting it.
Returns whether the list holds a network afterwards. -/
def detach (r : SS7Route) (network : Option Nat) : Bool × SS7Route :=
  match network with
  | none => (!r.m_networks.isEmpty, r)
  | some n =>
    let r := { r with m_networks := detachLoop n r.m_networks }
    (!r.m_networks.isEmpty, r)

/-- Loop of `SS7Route::attach` followed by its final `append`: insert before the
first network whose priority is not below `priority`, null pointers skipped, or
at the tail. `prio` is `getRoutePriority(type,m_packed)` of each network. -/
def insertLoop (prio : Nat → Nat) (priority network : Nat) :
    List (Option Nat) → List (Option Nat)
  | [] => [some network]
  | none :: rest => none :: insertLoop prio priority network rest
  | some q :: rest =>
    if priority ≤ prio q then some network :: some q :: rest
    else some q :: insertLoop prio priority network rest

/-- `SS7Route::attach`: attach a network to use for this destination or change
its priority. `getRoutePriority network type packed` is the priority the
network reports through `SS7Layer3::getRoutePriority`. -/
def attach (getRoutePriority : Nat → Nat → Nat → Nat) (r : SS7Route) (network : Option Nat)
    (type : Nat) : SS7Route :=
  match network with
  | none => r
  | some n =>
    let priority := getRoutePriority n type r.m_packed
    if priority = noRoute then r
    else
      let r := (detach r (some n)).2
      if priority = 0 then { r with m_networks := some n :: r.m_networks }
      else
        { r with m_networks :=
            insertLoop (fun q => getRoutePriority q type r.m_packed) priority n r.m_networks }

/-- Loop of `SS7Route::transmitMSU`. `send k n` is the value returned by
`transmitMSU` of network `n` when `k` networks were tried before it; `calls`
are the networks tried so far. -/
def transmitLoop (send : Nat → Nat → Int) (calls : List Nat) :
    List (Option Nat) → Int × List Nat
  | [] => (-1, calls)
  | none :: rest => transmitLoop send calls rest
  | some n :: rest =>
    if send calls.length n ≠ -1 then (send calls.length n, calls ++ [n])
    else transmitLoop send (calls ++ [n]) rest

/-- `SS7Route::transmitMSU`: try to transmit a MSU through one of the attached
networks. Returns the result and the networks tried, in the order tried. -/
def transmitMSU (send : Nat → Nat → Int) (r : SS7Route) : Int × List Nat :=
  transmitLoop send [] r.m_networks

end SS7Route

/-! ## SignallingEngine, SignallingComponent (engine.cpp) -/

/-- Data members of `SignallingComponent`: its name and the back-reference to
the engine that owns it (an engine is named by a number). -/
structure SignallingComponent where
  m_name : String
  m_engine : Option Nat
  deriving DecidableEq, Repr

/-- Data members of `SignallingEngine`: the list of its components (a component
is named by a number) and the flag looked at by the tick loop. Modelled from
the spec: `ObjList` is declared in `yateclass.h`; the list is the sequence of
its objects, a position in it is an index, `append` adds at the tail and
`remove` takes out the first occurrence, the later objects moving up. -/
structure SignallingEngine where
  m_components : List Nat
  m_listChanged : Bool
  deriving DecidableEq, Repr

/-- The components and engines in existence. -/
structure SigWorld where
  components : Nat → SignallingComponent
  engines : Nat → SignallingEngine

namespace SigWorld

/-- Assignment to `m_engine` of a component. -/
def setEngine (w : SigWorld) (c : Nat) (e : Option Nat) : SigWorld :=
  { w with components := fun i => if i = c then { w.components i with m_engine := e }
                                  else w.components i }

/-- Assignment to `m_components` of an engine. -/
def setComponents (w : SigWorld) (E : Nat) (l : List Nat) : SigWorld :=
  { w with engines := fun i => if i = E then { w.engines i with m_components := l }
                               else w.engines i }

/-- Assignment to `m_listChanged` of an engine. -/
def setListChanged (w : SigWorld) (E : Nat) (b : Bool) : SigWorld :=
  { w with engines := fun i => if i = E then { w.engines i with m_listChanged := b }
                               else w.engines i }

end SigWorld

namespace SignallingEngine

/-- `SignallingEngine::remove(SignallingComponent*)`. The nested
`component->detach()` runs after `m_engine` was set to 0 and so does nothing. -/
def remove (w : SigWorld) (E : Nat) (component : Option Nat) : SigWorld :=
  match component with
  | none => w
  | some c =>
    if (w.components c).m_engine ≠ some E then w
    else
      let w := w.setEngine c none
      w.setComponents E ((w.engines E).m_components.erase c)

end SignallingEngine

namespace SignallingComponent

/-- `SignallingComponent::detach`. -/
def detach (w : SigWorld) (c : Nat) : SigWorld :=
  match (w.components c).m_engine with
  | some E => (SignallingEngine.remove w E (some c)).setEngine c none
  | none => w

end SignallingComponent

namespace SignallingEngine

/-- `SignallingEngine::SignallingEngine`: no components, `m_listChanged(true)`. -/
def new : SignallingEngine := { m_components := [], m_listChanged := true }

/-- `SignallingEngine::insert`. -/
def insert (w : SigWorld) (E : Nat) (component : Option Nat) : SigWorld :=
  match component with
  | none => w
  | some c =>
    if (w.components c).m_engine = some E then w
    else
      let w := SignallingComponent.detach w c
      let w := w.setEngine c (some E)
      w.setComponents E ((w.engines E).m_components ++ [c])

/-- `SignallingEngine::find(const String&)`: the first component of the list
with the given name. -/
def find (w : SigWorld) (E : Nat) (name : String) : Option Nat :=
  (w.engines E).m_components.find? (fun c => (w.components c).m_name = name)

/-- `SignallingEngine::remove(const String&)`. The component is deleted by
`m_components.remove(component)`; its destructor calls `detach()`, which finds
`m_engine` null. -/
def removeName (w : SigWorld) (E : Nat) (name : String) : Bool × SigWorld :=
  if name = "" then (false, w)
  else
    match find w E name with
    | none => (false, w)
    | some c =>
      let w := w.setEngine c none
      (true, w.setComponents E ((w.engines E).m_components.erase c))

/-- Loop of `SignallingEngine::timerTick` from position `i` of the list.
`tick c` is what `timerTick` of component `c` does to the engines and
components; `ticked` are the components ticked so far. The loop ends when the
position is past the end of the list or `m_listChanged` is set; `none` when the
given number of steps did not suffice. -/
def tickLoop (tick : Nat → SigWorld → SigWorld) (E : Nat) :
    Nat → Nat → SigWorld → List Nat → Option (SigWorld × List Nat)
  | 0, _, _, _ => none
  | fuel + 1, i, w, ticked =>
    match (w.engines E).m_components.get? i with
    | none => some (w, ticked)
    | some c =>
      let w := tick c w
      if (w.engines E).m_listChanged then some (w, ticked ++ [c])
      else tickLoop tick E fuel (i + 1) w (ticked ++ [c])

/-- `SignallingEngine::timerTick`: one pass over the components. -/
def timerTick (tick : Nat → SigWorld → SigWorld) (w : SigWorld) (E : Nat) (fuel : Nat) :
    Option (SigWorld × List Nat) :=
  tickLoop tick E fuel 0 (w.setListChanged E false) []

end SignallingEngine

/-! ## ISDNQ921Pasive -/

/-- Data members of `ISDNQ921Pasive` (the dumper and the debug flags left out),
followed by the log of the calls made to Layer 3. -/
structure ISDNQ921Pasive extends ISDNLayer2 where
  m_checkLinkSide : Bool
  m_idleTimer : SignallingTimer
  m_lastFrame : Nat
  m_rxFrames : Nat
  m_rxRejectedFrames : Nat
  m_rxDroppedFrames : Nat
  m_hwErrors : Nat
  m_errorReceive : Bool
  upLog : List UpCall
  deriving DecidableEq, Repr

namespace ISDNQ921Pasive

/-- `ISDNQ921Pasive::ISDNQ921Pasive`: the freshly constructed passive link.
`idletimeout` is the interval of the idle timer as returned by
`SignallingTimer::interval`; the timer is started at the current time. -/
def new (params : Params) (idletimeout : Nat) (e : Env) : ISDNQ921Pasive :=
  let base := ISDNLayer2.new params
  { base with
    m_checkLinkSide := base.m_detectType,
    m_idleTimer := ({ m_interval := idletimeout, m_timeout := 0 } : SignallingTimer).start e.now,
    m_lastFrame := 255,
    m_rxFrames := 0, m_rxRejectedFrames := 0, m_rxDroppedFrames := 0, m_hwErrors := 0,
    m_errorReceive := false,
    upLog := [] }

/-- `ISDNQ921Pasive::dropFrame`: count a dropped frame. -/
def dropFrame (l : ISDNQ921Pasive) : ISDNQ921Pasive :=
  { l with m_rxDroppedFrames := ISDNQ921.inc32 l.m_rxDroppedFrames }

/-- `ISDNLayer2::changeType`: change the interface type. -/
def changeType (l : ISDNQ921Pasive) : ISDNQ921Pasive := { l with m_network := !l.m_network }

/-- `ISDNQ921Pasive::acceptFrame`: filter received frames. Returns the result,
`cmd` and `value` (false where the source leaves them unassigned) and the link.
`Q921_PASIVE_NOCHECK_PF` is defined by the source, so a frame without the P/F
bit is not dropped for that. -/
def acceptFrame (l : ISDNQ921Pasive) (frame : ISDNFrame) :
    (Bool × Bool × Bool) × ISDNQ921Pasive :=
  let l := { l with m_rxFrames := ISDNQ921.inc32 l.m_rxFrames }
  if !frame.m_error.valid then ((false, false, false), dropFrame l)
  else if frame.m_sapi ≠ l.m_sapi ∨ frame.m_tei ≠ l.m_tei then
    ((false, false, false), dropFrame l)
  else if frame.m_category = .Data then ((true, false, false), l)
  else
    let cmd : Bool := frame.m_type = .SABME || frame.m_type = .DISC
    let response : Bool := frame.m_type = .UA || frame.m_type = .DM
    let conflict : Bool :=
      l.m_checkLinkSide && ((cmd && !frame.m_command) || (response && frame.m_command))
    if conflict && !l.m_detectType then ((false, cmd, false), dropFrame l)
    else
      let l := if conflict then changeType { l with m_checkLinkSide := false } else l
      if cmd || response then
        let l := { l with m_checkLinkSide := l.m_detectType }
        let value : Bool := if cmd then frame.m_type = .SABME else frame.m_type = .UA
        ((true, cmd, value), l)
      else if frame.m_type.valid then ((false, cmd, false), l)
      else ((false, cmd, false), dropFrame l)

/-- `ISDNQ921Pasive::receivedPacket`: process a packet received by the
interface of the receiver. -/
def receivedPacket (e : Env) (l : ISDNQ921Pasive) (packet : DataBlock) :
    Bool × ISDNQ921Pasive :=
  if packet.length = 0 then (false, l)
  else
    match ISDNFrame.parse packet (some l.m_network) with
    | none => (false, { l with m_errorReceive := true })
    | some frame =>
      let l := { l with m_errorReceive := false }
      let l := { l with m_idleTimer := l.m_idleTimer.start e.now }
      let a := acceptFrame l frame
      let l := a.2
      if a.1.1 then
        if frame.m_category = .Data then
          if l.m_lastFrame ≠ frame.m_ns then
            let l := { l with m_lastFrame := frame.m_ns }
            (true, { l with upLog := l.upLog ++
              [.receiveData frame.getData (decide (frame.m_type = .I))] })
          else (true, l)
        else (true, { l with upLog := l.upLog ++ [.dataLinkState a.1.2.1 a.1.2.2] })
      else (true, l)

end ISDNQ921Pasive


/-! ## Auxiliary definitions used to state the properties -/

/-- Category of each valid frame type, as assigned by the constructors and by
`ISDNFrame::parse`. -/
def FrameType.category : FrameType → Category
  | .I | .UI => .Data
  | .RR | .RNR | .REJ => .Supervisory
  | .DISC | .DM | .FRMR | .SABME | .UA | .XID => .Unnumbered
  | _ => .Error

namespace ISDNQ921

/-- Frame as left in the queue by the sending loop of `sendOutgoingData`:
N(R) refreshed to V(R), marked sent. -/
def sentFrame (vr : Nat) (f : ISDNFrame) : ISDNFrame := (f.update none (some vr)).setSent true

/-- Queue left by `sendOutgoingData`. -/
def queueAfterSend (l : ISDNQ921) (retrans : Bool) : List ISDNFrame :=
  if l.m_remoteBusy || l.m_window.empty then l.m_outFrames
  else if retrans then l.m_outFrames.map (sentFrame l.m_vr)
  else l.m_outFrames.takeWhile (fun f => f.m_sent) ++
    (l.m_outFrames.dropWhile (fun f => f.m_sent)).map (sentFrame l.m_vr)

/-- The members that neither a transmission nor a timer operation touches are
equal in both links (all but the timers, the N200 counter, the transmit
counters, the send error flag and the transmit log). -/
def sameButTx (l r : ISDNQ921) : Prop :=
  r.toISDNLayer2 = l.toISDNLayer2 ∧ r.m_remoteBusy = l.m_remoteBusy ∧
  r.m_timerRecovery = l.m_timerRecovery ∧ r.m_rejectSent = l.m_rejectSent ∧
  r.m_pendingDMSabme = l.m_pendingDMSabme ∧ r.m_lastPFBit = l.m_lastPFBit ∧
  r.m_vs = l.m_vs ∧ r.m_va = l.m_va ∧ r.m_vr = l.m_vr ∧ r.m_window = l.m_window ∧
  r.m_outFrames = l.m_outFrames ∧ r.m_rxFrames = l.m_rxFrames ∧
  r.m_rxRejectedFrames = l.m_rxRejectedFrames ∧ r.m_rxDroppedFrames = l.m_rxDroppedFrames ∧
  r.m_hwErrors = l.m_hwErrors ∧ r.m_errorReceive = l.m_errorReceive ∧ r.upLog = l.upLog

/-- Sequencing core of the link: the `ISDNLayer2` members, V(S), V(A), V(R),
the window counter and the N(S) of the queued frames in queue order. -/
def core (l : ISDNQ921) : ISDNLayer2 × Nat × Nat × Nat × SignallingCounter × List Nat :=
  (l.toISDNLayer2, l.m_vs, l.m_va, l.m_vr, l.m_window, l.m_outFrames.map (fun f => f.m_ns))

/-- Consecutive `sendData(data, ack = true)` calls, each with its own view of the
outside world: the results in call order and the link after the last call. -/
def sendAll (l : ISDNQ921) : List (Env × DataBlock) → List Bool × ISDNQ921
  | [] => ([], l)
  | c :: rest =>
    let r := sendData c.1 l c.2 true
    let s := sendAll r.2 rest
    (r.1 :: s.1, s.2)

/-- Default configuration of a link on the user side with SAPI 0 and TEI 0. -/
def defaultParams : Params :=
  { network := false, detect := false, sapi := 0, tei := 0, allowUnack := false,
    autoRestart := true, maxuserdata := 260, t200 := 1000, t203 := 10000,
    maxpendingframes := 7 }

/-- The default configuration with a window of 128 frames. -/
def wideParams : Params := { defaultParams with maxpendingframes := 128 }

/-- An outside world in which every transmission succeeds, at time 5000 ms. -/
def quietEnv : Env := { now := 5000, transmit := fun _ _ => true }

/-- Link of Scenario 1: freshly constructed, `multipleFrame(true,false)`, then
the UA response with F=1 of the network side (octets 00 01 73) received. -/
def establishedLink (p : Params) : ISDNQ921 :=
  (receivedPacket quietEnv (multipleFrame quietEnv (new p) true false).2 [0x00, 0x01, 0x73]).2

/-- Calls sending the one byte payloads 1, 2, ..., n in the quiet world. -/
def payloads (n : Nat) : List (Env × DataBlock) :=
  (List.range n).map (fun i => (quietEnv, [i + 1]))

/-- Consecutive `timerTick` calls, each with its own view of the outside world
and its own time `when.msec()`: the link after the last call. -/
def tickAll (l : ISDNQ921) : List (Env × Nat) → ISDNQ921
  | [] => l
  | c :: rest => tickAll (timerTick c.1 l c.2) rest

/-- Every tick of the list finds T200 expired: the first comes later than
`fire`, the time at which T200 fires, each following one later than
`interval` after the tick before it, which restarted T200. -/
def expiring (fire interval : Nat) : List (Env × Nat) → Bool
  | [] => true
  | c :: rest => decide (fire < c.2) && expiring (c.2 + interval) interval rest

/-- Time at which T200 fires after the ticks of the list, each of which
restarted it: `fire` when there was none. -/
def fireTime (fire interval : Nat) : List (Env × Nat) → Nat
  | [] => fire
  | c :: rest => fireTime (c.2 + interval) interval rest

/-- An outside world in which every transmission succeeds, at the given time. -/
def quietAt (time : Nat) : Env := { now := time, transmit := fun _ _ => true }

/-- The default configuration with automatic re-establishment switched off. -/
def noRestartParams : Params := { defaultParams with autoRestart := false }

/-- An Established link in the timer-recovery condition: on the link of
Scenario 1 the idle timer T203 expires (tick at 16000 ms, which starts T200)
and then T200 expires with nothing to retransmit (tick at 18000 ms), so the
link polls its peer with an RR command carrying P=1. -/
def recoveringLink : ISDNQ921 :=
  tickAll (establishedLink defaultParams) [(quietAt 16000, 16000), (quietAt 18000, 18000)]

/-- Answer to a SABME or DISC command as the table of the specification gives
it, by frame type and link state: the type of the response, the final state
and the call made on Layer 3, if any. -/
def specResponseTable : FrameType → State → FrameType × State × Option UpCall
  | .SABME, .Established => (.UA, .Established, some (.multipleFrameEstablished false false))
  | .SABME, .Released => (.UA, .Established, some (.multipleFrameEstablished false false))
  | .SABME, .WaitEstablish => (.UA, .WaitEstablish, none)
  | .SABME, .WaitRelease => (.DM, .Released, some (.multipleFrameReleased true false))
  | .DISC, .Established => (.UA, .Released, some (.multipleFrameReleased false false))
  | .DISC, .Released => (.DM, .Released, none)
  | .DISC, .WaitEstablish => (.DM, .Released, some (.multipleFrameReleased true false))
  | .DISC, .WaitRelease => (.UA, .WaitRelease, none)
  | t, s => (t, s, none)

end ISDNQ921

namespace ISDNQ921

/-- At most one of the retransmission timer T200 and the idle timer T203 is
running. -/
def timersExclusive (l : ISDNQ921) : Bool :=
  !(l.m_retransTimer.started && l.m_idleTimer.started)

/-- The calls made on a link from outside: by Layer 3, by the interface and by
the engine. -/
inductive LinkCall where
  | multipleFrame (e : Env) (establish force : Bool)
  | sendData (e : Env) (data : DataBlock) (ack : Bool)
  | receivedPacket (e : Env) (packet : DataBlock)
  | timerTick (e : Env) (when : Nat)
  | notify (e : Env) (event : Notification)
  | cleanup (e : Env)

/-- The link after one call. -/
def LinkCall.apply (l : ISDNQ921) : LinkCall → ISDNQ921
  | .multipleFrame e establish force => (ISDNQ921.multipleFrame e l establish force).2
  | .sendData e data ack => (ISDNQ921.sendData e l data ack).2
  | .receivedPacket e packet => (ISDNQ921.receivedPacket e l packet).2
  | .timerTick e when => ISDNQ921.timerTick e l when
  | .notify e event => (ISDNQ921.notify e l event).2
  | .cleanup e => ISDNQ921.cleanup e l

/-- The link after a sequence of calls. -/
def runCalls (l : ISDNQ921) (calls : List LinkCall) : ISDNQ921 :=
  calls.foldl LinkCall.apply l

end ISDNQ921

namespace ISDNQ921

/-- Link of Scenario 2 after its first acknowledgment: on the link of
Scenario 1 seven `sendData` calls fill the window (frames N(S) = 0..6) and the
RR response with N(R) = 1 (octets 00 01 01 02) acknowledges the first frame. -/
def ackedOnceLink : ISDNQ921 :=
  (receivedPacket quietEnv (sendAll (establishedLink defaultParams) (payloads 7)).2
    [0x00, 0x01, 0x01, 0x02]).2

/-- Link of Scenario 1 after three `sendData` calls (frames N(S) = 0, 1, 2) and
the REJ response with N(R) = 1 and F = 0 (octets 00 01 09 02). -/
def rejectedLink : ISDNQ921 :=
  (receivedPacket quietEnv (sendAll (establishedLink defaultParams) (payloads 3)).2
    [0x00, 0x01, 0x09, 0x02]).2

end ISDNQ921

/-- A call on a route. -/
inductive RouteCall where
  | attach (network : Option Nat)
  | detach (network : Option Nat)
  deriving DecidableEq, Repr

namespace SS7Route

/-- The route after one call, all calls made for the same point code type. -/
def applyCall (getRoutePriority : Nat → Nat → Nat → Nat) (type : Nat) (r : SS7Route) :
    RouteCall → SS7Route
  | .attach network => attach getRoutePriority r network type
  | .detach network => (detach r network).2

/-- The route after a sequence of calls. -/
def runCalls (getRoutePriority : Nat → Nat → Nat → Nat) (type : Nat) (r : SS7Route)
    (calls : List RouteCall) : SS7Route :=
  calls.foldl (applyCall getRoutePriority type) r

/-- Whether network `n` counts as attached after a call, given whether it did
before: attached by `attach`, not attached after `detach`. -/
def attachedStep (n : Nat) (b : Bool) : RouteCall → Bool
  | .attach (some m) => if m = n then true else b
  | .detach (some m) => if m = n then false else b
  | _ => b

/-- Whether network `n` is attached after a sequence of calls on a new route:
the last call naming it is an `attach`. -/
def attachedAfter (calls : List RouteCall) (n : Nat) : Bool :=
  calls.foldl (attachedStep n) false

/-- The networks of the list, null pointers left out. -/
def networks (r : SS7Route) : List Nat := r.m_networks.reduceOption

end SS7Route

/-- A call on the engines and components. -/
inductive EngineCall where
  | insert (E : Nat) (component : Option Nat)
  | remove (E : Nat) (component : Option Nat)
  | removeName (E : Nat) (name : String)
  | detach (c : Nat)

namespace SigWorld

/-- The engines and components after one call. -/
def applyCall (w : SigWorld) : EngineCall → SigWorld
  | .insert E c => SignallingEngine.insert w E c
  | .remove E c => SignallingEngine.remove w E c
  | .removeName E name => (SignallingEngine.removeName w E name).2
  | .detach c => SignallingComponent.detach w c

/-- The engines and components after a sequence of calls. -/
def runCalls (w : SigWorld) (calls : List EngineCall) : SigWorld :=
  calls.foldl applyCall w

/-- Newly constructed engines and components: no component is owned. -/
def initial : SigWorld :=
  { components := fun _ => { m_name := "", m_engine := none },
    engines := fun _ => SignallingEngine.new }

/-- Membership invariant: a component is in the list of engine `E` iff its
back-reference is `E`, and no list holds a component twice. -/
def consistent (w : SigWorld) : Prop :=
  (∀ c E, c ∈ (w.engines E).m_components ↔ (w.components c).m_engine = some E) ∧
  (∀ E, (w.engines E).m_components.Nodup)

/-- Engine 0 with the components 1 and 2 inserted in that order. -/
def twoComponents : SigWorld :=
  SignallingEngine.insert (SignallingEngine.insert initial 0 (some 1)) 0 (some 2)

/-- A tick handler that registers a new component: `timerTick` of component 1
inserts component 3 in engine 0, the other components do nothing. -/
def insertingTick (c : Nat) (w : SigWorld) : SigWorld :=
  if c = 1 then SignallingEngine.insert w 0 (some 3) else w

end SigWorld

namespace SS7Route

/-- Priorities of Scenario 5: network 1 reports 5, network 2 reports 1, every
other network 3. -/
def scenarioPriority (network _type _packed : Nat) : Nat :=
  if network = 1 then 5 else if network = 2 then 1 else 3

end SS7Route

/-! # Properties -/

/-! ## Octet lemmas -/

theorem octet0_bits : ∀ s < 64, ∀ c : Bool,
    ((if c then (s <<< 2) % 256 ||| 2 else (s <<< 2) % 256) &&& 1 = 0) ∧
    ((if c then (s <<< 2) % 256 ||| 2 else (s <<< 2) % 256) >>> 2 = s) ∧
    (((if c then (s <<< 2) % 256 ||| 2 else (s <<< 2) % 256) &&& 2 = 0) ↔ c = false) := by
  decide

theorem octet1_bits : ∀ t < 128,
    (((t <<< 1) ||| 1) % 256) &&& 1 = 1 ∧ (((t <<< 1) ||| 1) % 256) >>> 1 = t := by
  decide

theorem seq_octet_bits : ∀ n < 128, ∀ p : Bool,
    ((n <<< 1) % 256) &&& 3 ≠ 3 ∧ ((n <<< 1) % 256) &&& 3 ≠ 1 ∧
    ((n <<< 1) % 256) >>> 1 = n ∧
    ((if p then (n <<< 1) % 256 ||| 1 else (n <<< 1) % 256) >>> 1 = n) ∧
    (((if p then (n <<< 1) % 256 ||| 1 else (n <<< 1) % 256) &&& 1 = 0) ↔ p = false) ∧
    (((n <<< 1) ||| ((if p then 0 ||| 1 else 0) &&& 1)) % 256) >>> 1 = n ∧
    ((((n <<< 1) ||| ((if p then 0 ||| 1 else 0) &&& 1)) % 256) &&& 1 = 0 ↔ p = false) := by
  decide

/-! ## Modulo128 -/

/-- C5: `Modulo128::inc` is the successor modulo 128 on 0..127 (127 wraps to 0,
every other value increases by exactly 1), and its result lies in 0..127 for
every 8 bit input. -/
theorem Modulo128.inc_succ_mod128 (n : Nat) (h : n < 128) :
    Modulo128.inc n = (n + 1) % 128 ∧
    Modulo128.inc n = (if n = 127 then 0 else n + 1) ∧
    ∀ m : Fin 256, Modulo128.inc m.val < 128 := by
  refine ⟨?_, ?_, ?_⟩
  · unfold Modulo128.inc; split <;> omega
  · unfold Modulo128.inc; split <;> split <;> omega
  · intro m; unfold Modulo128.inc; split <;> omega

theorem Modulo128.inc_succ_mod128_witness :
    127 < 128 ∧ (Modulo128.inc 127 = (127 + 1) % 128 ∧
      Modulo128.inc 127 = (if 127 = 127 then 0 else 127 + 1) ∧
      ∀ m : Fin 256, Modulo128.inc m.val < 128) :=
  ⟨by decide, Modulo128.inc_succ_mod128 127 (by decide)⟩

/-- C4: `Modulo128::between` is membership in the cyclic interval from `low` to
`high`: for values in 0..127 it holds iff `low ≤ value ≤ high` when
`low ≤ high`, iff `value ≥ low` or `value ≤ high` when `low > high`, and
equivalently iff `(value - low) mod 128 ≤ (high - low) mod 128`. -/
theorem Modulo128.between_cyclic (value low high : Nat)
    (hv : value < 128) (hl : low < 128) (hh : high < 128) :
    (Modulo128.between value low high = true ↔
      (if low ≤ high then low ≤ value ∧ value ≤ high else value ≥ low ∨ value ≤ high)) ∧
    (Modulo128.between value low high = true ↔
      ((value : Int) - low) % 128 ≤ ((high : Int) - low) % 128) := by
  unfold Modulo128.between
  constructor
  · split_ifs <;> simp <;> omega
  · split_ifs <;> simp <;> omega

theorem Modulo128.between_cyclic_witness :
    (3 < 128 ∧ 120 < 128 ∧ 5 < 128) ∧
    ((Modulo128.between 3 120 5 = true ↔
      (if 120 ≤ 5 then 120 ≤ 3 ∧ 3 ≤ 5 else 3 ≥ 120 ∨ 3 ≤ 5)) ∧
    (Modulo128.between 3 120 5 = true ↔
      (((3 : Nat) : Int) - (120 : Nat)) % 128 ≤ (((5 : Nat) : Int) - (120 : Nat)) % 128)) :=
  ⟨by decide, Modulo128.between_cyclic 3 120 5 (by decide) (by decide) (by decide)⟩

/-! ## Parsing a buffer with a well-formed address field -/

theorem ISDNFrame.parse_U (b0 b1 b2 : Nat) (rest : DataBlock) (network : Bool)
    (t : FrameType) (c : Category)
    (h0 : b0 % 2 = 0) (h1 : b1 % 2 = 1) (h2 : b2 &&& 3 = 3)
    (hU : ISDNFrame.uType (b2 &&& 0xef) = some (t, c)) :
    ISDNFrame.parse (b0 :: b1 :: b2 :: rest) (some network) =
      some { m_type := t, m_error := t, m_category := c,
             m_command := ISDNFrame.isCommand (b0 &&& 2) (!network),
             m_senderNetwork := !network, m_sapi := b0 >>> 2, m_tei := b1 >>> 1,
             m_poll := decide ((b2 &&& 0x10) ≠ 0), m_ns := 0xFF, m_nr := 0xFF,
             m_headerLength := 3, m_dataLength := rest.length, m_sent := false,
             m_buffer := b0 :: b1 :: b2 :: rest } := by
  have hlen : ¬ (rest.length + 1 + 1 + 1 + 1 < 4) := by omega
  simp [ISDNFrame.parse, ISDNFrame.undefined, ISDNFrame.Q921FRAME_U, ISDNFrame.Q921FRAME_S,
    ISDNFrame.Q921FRAME_U_GET_PF, ISDNFrame.Q921FRAME_U_RESET_PF, h0, h1, hlen, h2, hU]

theorem ISDNFrame.parse_S (b0 b1 b2 b3 : Nat) (rest : DataBlock) (network : Bool)
    (t : FrameType) (c : Category)
    (h0 : b0 % 2 = 0) (h1 : b1 % 2 = 1) (h2 : b2 &&& 3 = 1)
    (hS : ISDNFrame.sType b2 = some (t, c)) :
    ISDNFrame.parse (b0 :: b1 :: b2 :: b3 :: rest) (some network) =
      some { m_type := t, m_error := t, m_category := c,
             m_command := ISDNFrame.isCommand (b0 &&& 2) (!network),
             m_senderNetwork := !network, m_sapi := b0 >>> 2, m_tei := b1 >>> 1,
             m_poll := decide ((b3 &&& 1) ≠ 0), m_ns := 0xFF, m_nr := b3 >>> 1,
             m_headerLength := 4, m_dataLength := rest.length, m_sent := false,
             m_buffer := b0 :: b1 :: b2 :: b3 :: rest } := by
  have hlen : ¬ (rest.length + 1 + 1 + 1 + 1 < 4) := by omega
  simp [ISDNFrame.parse, ISDNFrame.undefined, ISDNFrame.Q921FRAME_U, ISDNFrame.Q921FRAME_S,
    ISDNFrame.Q921FRAME_U_GET_PF, ISDNFrame.Q921FRAME_U_RESET_PF, h0, h1, hlen, h2, hS]

theorem ISDNFrame.parse_I (b0 b1 b2 b3 : Nat) (rest : DataBlock) (network : Bool)
    (h0 : b0 % 2 = 0) (h1 : b1 % 2 = 1) (h2 : b2 &&& 3 ≠ 3) (h2s : b2 &&& 3 ≠ 1) :
    ISDNFrame.parse (b0 :: b1 :: b2 :: b3 :: rest) (some network) =
      some { m_type := .I, m_error := .I, m_category := .Data,
             m_command := ISDNFrame.isCommand (b0 &&& 2) (!network),
             m_senderNetwork := !network, m_sapi := b0 >>> 2, m_tei := b1 >>> 1,
             m_poll := decide ((b3 &&& 1) ≠ 0), m_ns := b2 >>> 1, m_nr := b3 >>> 1,
             m_headerLength := 4, m_dataLength := rest.length, m_sent := false,
             m_buffer := b0 :: b1 :: b2 :: b3 :: rest } := by
  have hlen : ¬ (rest.length + 1 + 1 + 1 + 1 < 4) := by omega
  simp [ISDNFrame.parse, ISDNFrame.undefined, ISDNFrame.Q921FRAME_U, ISDNFrame.Q921FRAME_S,
    ISDNFrame.Q921FRAME_U_GET_PF, ISDNFrame.Q921FRAME_U_RESET_PF, h0, h1, hlen, h2, h2s]

/-! ## Address octets -/

theorem ISDNFrame.setAddress_fst (c n : Bool) (sapi tei : Nat) (h : sapi < 64) :
    (ISDNFrame.setAddress c n sapi tei).1 % 2 = 0 ∧
    (ISDNFrame.setAddress c n sapi tei).1 >>> 2 = sapi ∧
    ISDNFrame.isCommand ((ISDNFrame.setAddress c n sapi tei).1 &&& 2) n = c := by
  have h0 := octet0_bits sapi h
  have ht := h0 true
  have hf := h0 false
  simp only [Nat.and_one_is_mod, if_true, Bool.false_eq_true, if_false] at ht hf
  cases c <;> cases n <;>
    simp [ISDNFrame.setAddress, ISDNFrame.commandBit, ISDNFrame.responseBit,
      ISDNFrame.isCommand, ht, hf]

theorem ISDNFrame.setAddress_snd (c n : Bool) (sapi tei : Nat) (h : tei < 128) :
    (ISDNFrame.setAddress c n sapi tei).2 % 2 = 1 ∧
    (ISDNFrame.setAddress c n sapi tei).2 >>> 1 = tei := by
  have h1 := octet1_bits tei h
  simp only [Nat.and_one_is_mod] at h1
  simpa [ISDNFrame.setAddress] using h1

/-! ## Control octets -/

theorem ISDNFrame.setControl_snd (cr nr : Nat) (pf : Bool) (h : nr < 128) :
    (ISDNFrame.setControl cr nr pf).1 = cr ∧
    (ISDNFrame.setControl cr nr pf).2 >>> 1 = nr ∧
    decide ((ISDNFrame.setControl cr nr pf).2 % 2 = 1) = pf := by
  have h3 := seq_octet_bits nr h pf
  simp only [Nat.and_one_is_mod] at h3
  obtain ⟨-, -, -, h4, h5, -, -⟩ := h3
  cases pf <;> simp_all [ISDNFrame.setControl]

theorem ISDNFrame.update_octets (b0 b1 b2 b3 ns nr : Nat) (rest : DataBlock) (pf : Bool)
    (hns : ns < 128) (hnr : nr < 128) (hp : decide (b3 % 2 = 1) = pf) :
    ∃ c2 c3, ([b0, b1, b2, b3] ++ rest).set 2 ((ns <<< 1) % 256) = b0 :: b1 :: c2 :: b3 :: rest ∧
      (b0 :: b1 :: c2 :: b3 :: rest).set 3 (((nr <<< 1) ||| (b3 &&& 0x01)) % 256) =
        b0 :: b1 :: c2 :: c3 :: rest ∧
      c2 = (ns <<< 1) % 256 ∧ c2 &&& 3 ≠ 3 ∧ c2 &&& 3 ≠ 1 ∧ c2 >>> 1 = ns ∧
      c3 = (((nr <<< 1) ||| (b3 &&& 0x01)) % 256) ∧
      c3 >>> 1 = nr ∧ decide (c3 % 2 = 1) = pf := by
  refine ⟨(ns <<< 1) % 256, ((nr <<< 1) ||| (b3 &&& 0x01)) % 256, rfl, rfl, rfl, ?_⟩
  have h2 := seq_octet_bits ns hns false
  have h3 := seq_octet_bits nr hnr
  refine ⟨h2.1, h2.2.1, h2.2.2.1, rfl, ?_⟩
  rcases Nat.mod_two_eq_zero_or_one b3 with hb | hb
  · have := h3 false
    simp only [Nat.and_one_is_mod] at this ⊢
    simp_all
  · have := h3 true
    simp only [Nat.and_one_is_mod] at this ⊢
    simp_all

/-- Parsing the buffer of a frame made by the U/S constructor, at a receiver of
the opposite role, gives back the frame; `nr` is the N(R) of an S frame and
0xFF (not applicable) for an U frame. -/
theorem ISDNFrame.parse_control (t : FrameType) (command senderNetwork : Bool)
    (sapi tei : Nat) (pf : Bool) (nr : Nat)
    (ht : (ISDNFrame.crMask t).isSome = true) (hsapi : sapi < 64) (htei : tei < 128)
    (hnr : nr < 128) :
    ISDNFrame.parse (ISDNFrame.control t command senderNetwork sapi tei pf
        (if t = .RR ∨ t = .RNR ∨ t = .REJ then nr else 0xFF)).m_buffer (some (!senderNetwork)) =
      some (ISDNFrame.control t command senderNetwork sapi tei pf
        (if t = .RR ∨ t = .RNR ∨ t = .REJ then nr else 0xFF)) := by
  have a0 := fun c => ISDNFrame.setAddress_fst c senderNetwork sapi tei hsapi
  have a1 := fun c => ISDNFrame.setAddress_snd c senderNetwork sapi tei htei
  have c3 := ISDNFrame.setControl_snd
  cases t <;> simp [ISDNFrame.crMask] at ht
  case DISC =>
    simp only [ISDNFrame.control, ISDNFrame.crMask, if_true]
    rw [ISDNFrame.parse_U _ _ _ _ _ .DISC .Unnumbered (a0 _).1 (a1 _).1
      (by cases pf <;> decide) (by cases pf <;> decide)]
    simp [(a0 _).2.1, (a0 _).2.2, (a1 _).2]
    cases pf <;> decide
  case DM =>
    simp only [ISDNFrame.control, ISDNFrame.crMask, if_true]
    rw [ISDNFrame.parse_U _ _ _ _ _ .DM .Unnumbered (a0 _).1 (a1 _).1
      (by cases pf <;> decide) (by cases pf <;> decide)]
    simp [(a0 _).2.1, (a0 _).2.2, (a1 _).2]
    cases pf <;> decide
  case FRMR =>
    simp only [ISDNFrame.control, ISDNFrame.crMask, if_true]
    rw [ISDNFrame.parse_U _ _ _ _ _ .FRMR .Unnumbered (a0 _).1 (a1 _).1
      (by cases pf <;> decide) (by cases pf <;> decide)]
    simp [(a0 _).2.1, (a0 _).2.2, (a1 _).2]
    cases pf <;> decide
  case SABME =>
    simp only [ISDNFrame.control, ISDNFrame.crMask, if_true]
    rw [ISDNFrame.parse_U _ _ _ _ _ .SABME .Unnumbered (a0 _).1 (a1 _).1
      (by cases pf <;> decide) (by cases pf <;> decide)]
    simp [(a0 _).2.1, (a0 _).2.2, (a1 _).2]
    cases pf <;> decide
  case UA =>
    simp only [ISDNFrame.control, ISDNFrame.crMask, if_true]
    rw [ISDNFrame.parse_U _ _ _ _ _ .UA .Unnumbered (a0 _).1 (a1 _).1
      (by cases pf <;> decide) (by cases pf <;> decide)]
    simp [(a0 _).2.1, (a0 _).2.2, (a1 _).2]
    cases pf <;> decide
  case XID =>
    simp only [ISDNFrame.control, ISDNFrame.crMask, if_true]
    rw [ISDNFrame.parse_U _ _ _ _ _ .XID .Unnumbered (a0 _).1 (a1 _).1
      (by cases pf <;> decide) (by cases pf <;> decide)]
    simp [(a0 _).2.1, (a0 _).2.2, (a1 _).2]
    cases pf <;> decide
  case REJ =>
    have hc := c3 ISDNFrame.Q921FRAME_CR_REJ nr pf hnr
    simp only [ISDNFrame.control, ISDNFrame.crMask, true_or, or_true, if_true]
    rw [if_neg (by decide)]
    rw [ISDNFrame.parse_S _ _ _ _ _ _ .REJ .Supervisory (a0 _).1 (a1 _).1
      (by rw [hc.1]; decide) (by rw [hc.1]; decide)]
    simp [(a0 _).2.1, (a0 _).2.2, (a1 _).2, hc.2.1, hc.2.2]
  case RNR =>
    have hc := c3 ISDNFrame.Q921FRAME_CR_RNR nr pf hnr
    simp only [ISDNFrame.control, ISDNFrame.crMask, true_or, or_true, if_true]
    rw [if_neg (by decide)]
    rw [ISDNFrame.parse_S _ _ _ _ _ _ .RNR .Supervisory (a0 _).1 (a1 _).1
      (by rw [hc.1]; decide) (by rw [hc.1]; decide)]
    simp [(a0 _).2.1, (a0 _).2.2, (a1 _).2, hc.2.1, hc.2.2]
  case RR =>
    have hc := c3 ISDNFrame.Q921FRAME_CR_RR nr pf hnr
    simp only [ISDNFrame.control, ISDNFrame.crMask, true_or, or_true, if_true]
    rw [if_neg (by decide)]
    rw [ISDNFrame.parse_S _ _ _ _ _ _ .RR .Supervisory (a0 _).1 (a1 _).1
      (by rw [hc.1]; decide) (by rw [hc.1]; decide)]
    simp [(a0 _).2.1, (a0 _).2.2, (a1 _).2, hc.2.1, hc.2.2]

/-- C1: frame codec round trip. For each of the 11 valid frame types, built with
sapi in 0..63, tei in 0..127 and sequence numbers in 0..127, parsing the buffer
of the built frame at a receiver of the opposite role returns exactly the built
frame: error-free, with the same type, category, command flag, sapi, tei,
N(S), N(R), poll bit and payload. -/
theorem ISDNFrame.build_parse_roundtrip (t : FrameType) (command senderNetwork : Bool)
    (sapi tei : Nat) (pf : Bool) (ns nr : Nat) (payload : DataBlock)
    (ht : t.valid = true) (hsapi : sapi < 64) (htei : tei < 128)
    (hns : ns < 128) (hnr : nr < 128) :
    ISDNFrame.parse (ISDNFrame.build t command senderNetwork sapi tei pf ns nr payload).m_buffer
        (some (!senderNetwork)) =
      some (ISDNFrame.build t command senderNetwork sapi tei pf ns nr payload) ∧
    (ISDNFrame.build t command senderNetwork sapi tei pf ns nr payload) =
      { m_type := t, m_error := t,
        m_category := (if t = .I ∨ t = .UI then Category.Data
          else if t = .RR ∨ t = .RNR ∨ t = .REJ then Category.Supervisory
          else Category.Unnumbered),
        m_command := (if t = .I ∨ t = .UI then true else command),
        m_senderNetwork := senderNetwork,
        m_sapi := sapi, m_tei := tei, m_poll := pf,
        m_ns := (if t = .I then ns else 0xFF),
        m_nr := (if t = .I ∨ t = .RR ∨ t = .RNR ∨ t = .REJ then nr else 0xFF),
        m_headerLength := (if t = .I ∨ t = .RR ∨ t = .RNR ∨ t = .REJ then 4 else 3),
        m_dataLength := (if t = .I ∨ t = .UI then payload.length else 0),
        m_sent := false,
        m_buffer := (ISDNFrame.build t command senderNetwork sapi tei pf ns nr payload).m_buffer } ∧
    (ISDNFrame.build t command senderNetwork sapi tei pf ns nr payload).getData =
      (if t = .I ∨ t = .UI then payload else []) := by
  have a0 := fun c => ISDNFrame.setAddress_fst c senderNetwork sapi tei hsapi
  have a1 := fun c => ISDNFrame.setAddress_snd c senderNetwork sapi tei htei
  have c3 := ISDNFrame.setControl_snd
  have hctl := fun (t : FrameType) (h : (ISDNFrame.crMask t).isSome = true) =>
    ISDNFrame.parse_control t command senderNetwork sapi tei pf nr h hsapi htei hnr
  cases t <;> simp [FrameType.valid] at ht
  case DISC => exact ⟨hctl .DISC rfl, rfl, rfl⟩
  case DM => exact ⟨hctl .DM rfl, rfl, rfl⟩
  case FRMR => exact ⟨hctl .FRMR rfl, rfl, rfl⟩
  case SABME => exact ⟨hctl .SABME rfl, rfl, rfl⟩
  case UA => exact ⟨hctl .UA rfl, rfl, rfl⟩
  case XID => exact ⟨hctl .XID rfl, rfl, rfl⟩
  case REJ => exact ⟨hctl .REJ rfl, rfl, rfl⟩
  case RNR => exact ⟨hctl .RNR rfl, rfl, rfl⟩
  case RR => exact ⟨hctl .RR rfl, rfl, rfl⟩
  case UI =>
    simp only [ISDNFrame.build, ISDNFrame.data]
    simp only [Bool.not_false, if_true, reduceCtorEq, if_false, List.cons_append, List.nil_append]
    rw [ISDNFrame.parse_U _ _ _ _ _ .UI .Data (a0 _).1 (a1 _).1
      (by cases pf <;> decide) (by cases pf <;> decide)]
    simp [(a0 _).2.1, (a0 _).2.2, (a1 _).2, ISDNFrame.getData]
    cases pf <;> decide
  case I =>
    have hc := c3 ((0 <<< 1) % 256) ((0 <<< 1) % 256) pf (by decide)
    obtain ⟨c2, c3, -, -, ec2, h2, h2s, hns2, ec3, hnr3, hp3⟩ :=
      ISDNFrame.update_octets (ISDNFrame.setAddress true senderNetwork sapi tei).1
        (ISDNFrame.setAddress true senderNetwork sapi tei).2
        (ISDNFrame.setControl ((0 <<< 1) % 256) ((0 <<< 1) % 256) pf).1
        (ISDNFrame.setControl ((0 <<< 1) % 256) ((0 <<< 1) % 256) pf).2
        ns nr payload pf hns hnr hc.2.2
    simp only [ISDNFrame.build, ISDNFrame.data, ISDNFrame.update]
    simp only [Bool.not_true, Bool.false_eq_true, if_false, if_true, ne_eq, not_true_eq_false,
      List.cons_append, List.nil_append]
    simp only [List.set, List.getD_cons_succ, List.getD_cons_zero]
    rw [← ec2, ← ec3]
    rw [ISDNFrame.parse_I _ _ _ _ _ _ (a0 _).1 (a1 _).1 h2 h2s]
    simp [(a0 _).2.1, (a0 _).2.2, (a1 _).2, ISDNFrame.getData, hns2, hnr3, hp3]

theorem ISDNFrame.build_parse_roundtrip_witness :
    ISDNFrame.parse (ISDNFrame.build .I true true 5 7 true 127 4 [1, 2]).m_buffer (some (!true)) =
      some (ISDNFrame.build .I true true 5 7 true 127 4 [1, 2]) :=
  (ISDNFrame.build_parse_roundtrip .I true true 5 7 true 127 4 [1, 2] rfl
    (by decide) (by decide) (by decide) (by decide)).1

/-! ## Classification of the control octet -/

set_option maxRecDepth 100000 in
theorem control_octet_class : ∀ c < 256,
    c &&& 3 = c % 4 ∧
    (c % 4 = 3 → (((ISDNFrame.uType (c &&& 0xef)).isNone = true ↔
        (c - 16 * (c / 16 % 2)) ∉ [0x6f, 0x0f, 0x43, 0x63, 0x87, 0x03, 0xaf]) ∧
      (ISDNFrame.uType (c &&& 0xef)).all (fun p => p.1.valid) = true)) ∧
    (c % 4 = 1 → (((ISDNFrame.sType c).isNone = true ↔ c ∉ [0x01, 0x05, 0x09]) ∧
      (ISDNFrame.sType c).all (fun p => p.1.valid) = true)) := by
  decide

theorem FrameType.valid_ne_error (t : FrameType) (h : t.valid = true) :
    t ≠ .ErrInvalidEA ∧ t ≠ .ErrHdrLength ∧ t ≠ .ErrUnknownCR := by
  cases t <;> simp [FrameType.valid] at h ⊢

/-- C2: error classification of `ISDNFrame::parse`. No frame is returned iff the
buffer has fewer than 3 bytes or there is no receiver. Otherwise the error of
the returned frame is ErrInvalidEA iff bit 0 of octet 0 is 1 or bit 0 of octet 1
is 0; else ErrHdrLength iff the low two bits of octet 2 are not 11 and the
buffer has exactly 3 bytes; else ErrUnknownCR iff it is an U frame whose octet 2
with bit 4 cleared is none of the 7 known codepoints, or an S frame whose
octet 2 is none of RR, RNR, REJ; in every remaining case the frame is error-free
with a valid type. -/
theorem ISDNFrame.parse_error_classification (data : DataBlock) (receiver : Option Bool)
    (hoct : ∀ b ∈ data, b < 256) :
    (ISDNFrame.parse data receiver = none ↔ (data.length < 3 ∨ receiver = none)) ∧
    ∀ f, ISDNFrame.parse data receiver = some f →
      (f.m_error = .ErrInvalidEA ↔ (data.getD 0 0 % 2 = 1 ∨ data.getD 1 0 % 2 = 0)) ∧
      (¬ (data.getD 0 0 % 2 = 1 ∨ data.getD 1 0 % 2 = 0) →
        ((f.m_error = .ErrHdrLength ↔ (data.getD 2 0 % 4 ≠ 3 ∧ data.length = 3)) ∧
         (¬ (data.getD 2 0 % 4 ≠ 3 ∧ data.length = 3) →
          ((f.m_error = .ErrUnknownCR ↔
              ((data.getD 2 0 % 4 = 3 ∧
                  (data.getD 2 0 - 16 * (data.getD 2 0 / 16 % 2)) ∉
                    [0x6f, 0x0f, 0x43, 0x63, 0x87, 0x03, 0xaf]) ∨
               (data.getD 2 0 % 4 = 1 ∧ data.getD 2 0 ∉ [0x01, 0x05, 0x09]))) ∧
           (¬ ((data.getD 2 0 % 4 = 3 ∧
                  (data.getD 2 0 - 16 * (data.getD 2 0 / 16 % 2)) ∉
                    [0x6f, 0x0f, 0x43, 0x63, 0x87, 0x03, 0xaf]) ∨
               (data.getD 2 0 % 4 = 1 ∧ data.getD 2 0 ∉ [0x01, 0x05, 0x09])) →
            f.m_error.valid = true ∧ f.m_type = f.m_error))))) := by
  cases receiver with
  | none => simp [ISDNFrame.parse]
  | some network =>
    match data, hoct with
    | [], _ => simp [ISDNFrame.parse]
    | [_], _ => simp [ISDNFrame.parse]
    | [_, _], _ => simp [ISDNFrame.parse]
    | b0 :: b1 :: b2 :: rest, hoct =>
      have hb2 : b2 < 256 := hoct b2 (by simp)
      obtain ⟨h3, hU, hS⟩ := control_octet_class b2 hb2
      have hlen : ¬ (rest.length + 1 + 1 + 1 < 3) := by omega
      refine ⟨?_, ?_⟩
      · simp only [ISDNFrame.parse, List.length_cons, if_neg hlen]
        split_ifs <;> simp
      intro f hf
      simp only [List.getD_cons_zero, List.getD_cons_succ, List.length_cons]
      simp only [ISDNFrame.parse, List.length_cons, if_neg hlen, List.getD_cons_zero,
        List.getD_cons_succ, ISDNFrame.Q921FRAME_U, ISDNFrame.Q921FRAME_S,
        ISDNFrame.Q921FRAME_U_RESET_PF, h3, Nat.and_one_is_mod, ISDNFrame.undefined] at hf
      by_cases hea : b0 % 2 = 1 ∨ b1 % 2 = 0
      · have hea2 : (decide (b0 % 2 ≠ 0) || decide (b1 % 2 = 0)) = true := by
          rcases hea with h | h <;> simp [h]
        rw [if_pos hea2] at hf
        cases hf
        simp [hea]
      · have hea2 : ¬ ((decide (b0 % 2 ≠ 0) || decide (b1 % 2 = 0)) = true) := by
          simp only [Bool.or_eq_true, decide_eq_true_eq]
          omega
        rw [if_neg hea2] at hf
        by_cases hhl : b2 % 4 ≠ 3 ∧ rest.length + 1 + 1 + 1 = 3
        · rw [if_pos ⟨hhl.1, by omega⟩] at hf
          cases hf
          simp [hea, hhl]
        · have hhl2 : ¬ (b2 % 4 ≠ 3 ∧ rest.length + 1 + 1 + 1 < 4) := by omega
          rw [if_neg hhl2] at hf
          by_cases h4 : b2 % 4 = 3
          · obtain ⟨hUn, hUv⟩ := hU h4
            simp only [if_pos h4] at hf
            cases hu : ISDNFrame.uType (b2 &&& 239) with
            | none =>
              simp only [hu] at hf hUn
              cases hf
              have hUn2 := hUn.mp rfl
              simp [hea, hhl, h4, hUn2]
            | some p =>
              obtain ⟨t, c⟩ := p
              simp only [hu, Option.isNone_some, Bool.false_eq_true, false_iff, not_not,
                Option.all_some] at hf hUn hUv
              cases hf
              have hne := FrameType.valid_ne_error t hUv
              simp [hea, hhl, h4, hUn, hUv, hne.1, hne.2.1, hne.2.2]
          · simp only [if_neg h4] at hf
            have hrest : rest ≠ [] := by
              intro hnil
              apply hhl
              simp [hnil, h4]
            by_cases h1 : b2 % 4 = 1
            · obtain ⟨hSn, hSv⟩ := hS h1
              simp only [if_pos h1] at hf
              cases hs : ISDNFrame.sType b2 with
              | none =>
                simp only [hs] at hf hSn
                cases hf
                have hSn2 := hSn.mp rfl
                simp [hea, hhl, h4, h1, hSn2, hrest]
              | some p =>
                obtain ⟨t, c⟩ := p
                simp only [hs, Option.isNone_some, Bool.false_eq_true, false_iff, not_not,
                  Option.all_some] at hf hSn hSv
                cases hf
                have hne := FrameType.valid_ne_error t hSv
                simp [hea, hhl, h4, h1, hSn, hSv, hne.1, hne.2.1, hne.2.2, hrest]
            · simp only [if_neg h1] at hf
              cases hf
              simp [hea, hhl, h4, h1, FrameType.valid, hrest]

theorem ISDNFrame.parse_error_classification_witness :
    (∀ b ∈ [0, 1, 0x7f], b < 256) ∧
    (ISDNFrame.parse [0, 1, 0x7f] (some true) = none ↔
      (([0, 1, 0x7f] : DataBlock).length < 3 ∨ (some true : Option Bool) = none)) :=
  ⟨by decide, (ISDNFrame.parse_error_classification [0, 1, 0x7f] (some true) (by decide)).1⟩

/-! ## Update of the sequence numbers of an I frame -/

theorem ISDNFrame.update_I (f : ISDNFrame) (b0 b1 b2 b3 : Nat) (rest : DataBlock)
    (ns nr : Option Nat) (hI : f.m_type = .I) (hb : f.m_buffer = b0 :: b1 :: b2 :: b3 :: rest) :
    f.update ns nr =
      { f with m_ns := ns.getD f.m_ns, m_nr := nr.getD f.m_nr,
               m_buffer := b0 :: b1 :: ns.elim b2 (fun v => (v <<< 1) % 256) ::
                 nr.elim b3 (fun v => ((v <<< 1) ||| (b3 &&& 0x01)) % 256) :: rest } := by
  cases f
  simp only at hI hb
  subst hI hb
  cases ns <;> cases nr <;> simp [ISDNFrame.update, List.set]

theorem seq_octet_update : ∀ n < 128,
    n <<< 1 % 256 = n <<< 1 ∧
    (n <<< 1 ||| (0 &&& 1)) % 256 = n <<< 1 ||| 0 ∧
    (n <<< 1 ||| (1 &&& 1)) % 256 = n <<< 1 ||| 1 ∧
    (n <<< 1 ||| 0) &&& 1 = 0 &&& 1 ∧
    (n <<< 1 ||| 1) &&& 1 = 1 &&& 1 := by
  decide

theorem seq_octet_parse : ∀ n < 128, ∀ p < 2,
    (n <<< 1) &&& 3 ≠ 3 ∧ (n <<< 1) &&& 3 ≠ 1 ∧ (n <<< 1) >>> 1 = n ∧
    ((n <<< 1) ||| p) >>> 1 = n ∧ ((n <<< 1) ||| p) % 2 = p := by
  decide

/-- C3: `ISDNFrame::update` preserves everything but the sequence fields. For an
I frame built with P/F bit `pf` (and already numbered `ns0`, `nr0`, which are 0
for a frame fresh from the constructor), after `update(ns, nr)`, either of which
may be omitted, octet 2 is N(S) shifted left by one, octet 3 is N(R) shifted
left by one with the P/F bit in bit 0, the address octets, the payload and the
length of the buffer are unchanged, and parsing the buffer yields those N(S),
N(R) and poll bit; `update` on a frame of any other type changes nothing. -/
theorem ISDNFrame.update_sequence_fields (senderNetwork pf : Bool) (sapi tei ns0 nr0 : Nat)
    (payload : DataBlock) (ns nr : Option Nat) (g : ISDNFrame)
    (hsapi : sapi < 64) (htei : tei < 128) (hns0 : ns0 < 128) (hnr0 : nr0 < 128)
    (hns : ns.getD 0 < 128) (hnr : nr.getD 0 < 128) (hg : g.m_type ≠ .I) :
    (((ISDNFrame.data true senderNetwork sapi tei pf payload).update
        (some ns0) (some nr0)).update ns nr).m_buffer =
      (ISDNFrame.data true senderNetwork sapi tei pf payload).m_buffer.take 2 ++
        [ns.getD ns0 <<< 1, (nr.getD nr0 <<< 1) ||| (if pf then 1 else 0)] ++ payload ∧
    (∃ p, ISDNFrame.parse (((ISDNFrame.data true senderNetwork sapi tei pf payload).update
        (some ns0) (some nr0)).update ns nr).m_buffer (some (!senderNetwork)) = some p ∧
      p.m_type = .I ∧ p.m_error = .I ∧ p.m_sapi = sapi ∧ p.m_tei = tei ∧
      p.m_ns = ns.getD ns0 ∧ p.m_nr = nr.getD nr0 ∧ p.m_poll = pf ∧ p.getData = payload) ∧
    (ISDNFrame.data true senderNetwork sapi tei pf payload).update (some 0) (some 0) =
      ISDNFrame.data true senderNetwork sapi tei pf payload ∧
    g.update ns nr = g := by
  have a0 := ISDNFrame.setAddress_fst true senderNetwork sapi tei hsapi
  have a1 := ISDNFrame.setAddress_snd true senderNetwork sapi tei htei
  have hf0 : ISDNFrame.data true senderNetwork sapi tei pf payload =
      { m_type := .I, m_error := .I, m_category := .Data, m_command := true,
        m_senderNetwork := senderNetwork, m_sapi := sapi, m_tei := tei, m_poll := pf,
        m_ns := 0, m_nr := 0, m_headerLength := 4, m_dataLength := payload.length,
        m_sent := false,
        m_buffer := (ISDNFrame.setAddress true senderNetwork sapi tei).1 ::
          (ISDNFrame.setAddress true senderNetwork sapi tei).2 :: 0 ::
          (if pf then 1 else 0) :: payload } := by
    cases pf <;> simp [ISDNFrame.data, ISDNFrame.setControl]
  have hbuf : (((ISDNFrame.data true senderNetwork sapi tei pf payload).update
        (some ns0) (some nr0)).update ns nr).m_buffer =
      (ISDNFrame.data true senderNetwork sapi tei pf payload).m_buffer.take 2 ++
        [ns.getD ns0 <<< 1, (nr.getD nr0 <<< 1) ||| (if pf then 1 else 0)] ++ payload := by
    rw [hf0, ISDNFrame.update_I _ _ _ _ _ _ _ _ rfl rfl, ISDNFrame.update_I _ _ _ _ _ _ _ _ rfl rfl]
    cases ns <;> cases nr <;> cases pf <;>
      simp only [Option.elim, Option.getD, List.take, List.cons_append, List.nil_append,
        if_true, if_false, Bool.false_eq_true]
    all_goals simp only [List.set, List.getD_cons_succ, List.getD_cons_zero]
    all_goals simp only [Option.getD] at hns hnr
    all_goals simp only [(seq_octet_update _ hns0).1, (seq_octet_update _ hnr0).2.1,
      (seq_octet_update _ hnr0).2.2.1, (seq_octet_update _ hnr0).2.2.2.1,
      (seq_octet_update _ hnr0).2.2.2.2, (seq_octet_update _ hns).1, (seq_octet_update _ hnr).2.1,
      (seq_octet_update _ hnr).2.2.1]
  refine ⟨hbuf, ?_, ?_, ?_⟩
  · have hNs : ns.getD ns0 < 128 := by cases ns <;> simpa using (by assumption)
    have hNr : nr.getD nr0 < 128 := by cases nr <;> simpa using (by assumption)
    have hp : (if pf then 1 else 0) < 2 := by cases pf <;> decide
    have k2 := seq_octet_parse _ hNs _ hp
    have k3 := seq_octet_parse _ hNr _ hp
    rw [hbuf, hf0]
    simp only [List.take, List.cons_append, List.nil_append]
    rw [ISDNFrame.parse_I _ _ _ _ _ _ a0.1 a1.1 k2.1 k2.2.1]
    refine ⟨_, rfl, rfl, rfl, ?_, ?_, ?_, ?_, ?_, ?_⟩
    · exact a0.2.1
    · exact a1.2
    · exact k2.2.2.1
    · exact k3.2.2.2.1
    · simp only [Nat.and_one_is_mod, k3.2.2.2.2]
      cases pf <;> simp
    · simp [ISDNFrame.getData]
  · rw [hf0, ISDNFrame.update_I _ _ _ _ _ _ _ _ rfl rfl]
    cases pf <;> rfl
  · simp [ISDNFrame.update, hg]

theorem ISDNFrame.update_sequence_fields_witness :
    (((ISDNFrame.data true false 0 0 true [9]).update (some 0) (some 0)).update
        (some 5) none).m_buffer =
      (ISDNFrame.data true false 0 0 true [9]).m_buffer.take 2 ++
        [(some 5 : Option Nat).getD 0 <<< 1,
          ((none : Option Nat).getD 0 <<< 1) ||| (if true then 1 else 0)] ++ [9] :=
  (ISDNFrame.update_sequence_fields false true 0 0 0 0 [9] (some 5) none
    (ISDNFrame.undefined .Invalid) (by decide) (by decide) (by decide) (by decide)
    (by decide) (by decide) (by decide)).1

/-! # The data link state machine -/

set_option maxRecDepth 1000000

/-! ## Facts about parsed frames -/

theorem ISDNFrame.uType_facts (code : Nat) (t : FrameType) (c : Category)
    (h : ISDNFrame.uType code = some (t, c)) :
    t.valid = true ∧ c = t.category ∧ t ≠ .I ∧ t ≠ .RR ∧ t ≠ .RNR ∧ t ≠ .REJ := by
  unfold ISDNFrame.uType at h
  split_ifs at h <;> simp at h <;> obtain ⟨rfl, rfl⟩ := h <;> simp [FrameType.valid, FrameType.category]

theorem ISDNFrame.sType_facts (code : Nat) (t : FrameType) (c : Category)
    (h : ISDNFrame.sType code = some (t, c)) :
    t.valid = true ∧ c = t.category ∧ (t = .RR ∨ t = .RNR ∨ t = .REJ) := by
  unfold ISDNFrame.sType at h
  split_ifs at h <;> simp at h <;> obtain ⟨rfl, rfl⟩ := h <;> simp [FrameType.valid, FrameType.category]

theorem ISDNFrame.parse_some_facts (data : DataBlock) (r : Option Bool) (f : ISDNFrame)
    (h : ISDNFrame.parse data r = some f) :
    data.length ≠ 0 ∧
    (f.m_type.valid = true →
      f.m_error = f.m_type ∧ f.m_category = f.m_type.category ∧
      (f.m_type ≠ .I → f.m_ns = 0xFF) ∧
      (f.m_type ≠ .I → f.m_type ≠ .RR → f.m_type ≠ .RNR → f.m_type ≠ .REJ → f.m_nr = 0xFF)) := by
  cases r with
  | none => simp [ISDNFrame.parse] at h
  | some network =>
    match data with
    | [] => simp [ISDNFrame.parse] at h
    | [_] => simp [ISDNFrame.parse] at h
    | [_, _] => simp [ISDNFrame.parse] at h
    | b0 :: b1 :: b2 :: rest =>
      refine ⟨by simp, ?_⟩
      have hlen : ¬ (rest.length + 1 + 1 + 1 < 3) := by omega
      simp only [ISDNFrame.parse, List.length_cons, if_neg hlen, ISDNFrame.undefined] at h
      split_ifs at h
      · cases h; simp [FrameType.valid]
      · cases h; simp [FrameType.valid]
      · cases hu : ISDNFrame.uType ((b0 :: b1 :: b2 :: rest).getD 2 0 &&& ISDNFrame.Q921FRAME_U_RESET_PF) with
        | none => simp only [hu] at h; cases h; simp [FrameType.valid]
        | some p =>
          obtain ⟨t, c⟩ := p
          obtain ⟨hv, hc, h1, h2, h3, h4⟩ := ISDNFrame.uType_facts _ _ _ hu
          simp only [hu] at h; cases h; simp [hc]
      · cases hu : ISDNFrame.sType ((b0 :: b1 :: b2 :: rest).getD 2 0) with
        | none => simp only [hu] at h; cases h; simp [FrameType.valid]
        | some p =>
          obtain ⟨t, c⟩ := p
          obtain ⟨hv, hc, h1⟩ := ISDNFrame.sType_facts _ _ _ hu
          simp only [hu] at h; cases h
          rcases h1 with rfl | rfl | rfl <;> simp [hc]
      · cases h; simp [FrameType.valid, FrameType.category]

/-! ## Transmissions and timers -/

namespace ISDNQ921

theorem sendFrame_valid (e : Env) (l : ISDNQ921) (frame : ISDNFrame)
    (h : frame.m_type.valid = true) :
    sendFrame e l frame =
      (e.transmit l.txLog.length frame.m_buffer,
       { l with
         txLog := l.txLog ++ [frame.m_buffer],
         m_txFrames := if e.transmit l.txLog.length frame.m_buffer then inc32 l.m_txFrames
           else l.m_txFrames,
         m_txFailFrames := if e.transmit l.txLog.length frame.m_buffer then l.m_txFailFrames
           else inc32 l.m_txFailFrames,
         m_errorSend := !e.transmit l.txLog.length frame.m_buffer }) := by
  unfold sendFrame
  simp only [h, Bool.not_true, Bool.false_eq_true, if_false]
  cases e.transmit l.txLog.length frame.m_buffer <;> simp

theorem SignallingTimer_stop_if (t : SignallingTimer) :
    (if t.started = true then t.stop else t) = t.stop := by
  cases t with
  | mk i o =>
    by_cases h : o > 0
    · simp [SignallingTimer.started, SignallingTimer.stop, h]
    · have : o = 0 := by omega
      simp [SignallingTimer.started, SignallingTimer.stop, this]

theorem timer_start (e : Env) (l : ISDNQ921) (t203 : Bool) (time : Nat) :
    timer e l true t203 time =
      { l with m_idleTimer := l.m_idleTimer.stop,
               m_retransTimer := l.m_retransTimer.start (if time = 0 then e.now else time) } := by
  unfold timer
  by_cases h : l.m_idleTimer.started = true
  · simp [h]
  · have h2 := SignallingTimer_stop_if l.m_idleTimer
    simp only [h, if_false] at h2
    simp [h, ← h2]

theorem timer_stop (e : Env) (l : ISDNQ921) (time : Nat) :
    timer e l false false time =
      { l with m_n200 := l.m_n200.reset, m_retransTimer := l.m_retransTimer.stop } := by
  unfold timer
  by_cases h : l.m_retransTimer.started = true
  · simp [h]
  · have h2 := SignallingTimer_stop_if l.m_retransTimer
    simp only [h, if_false] at h2
    simp [h, ← h2]

theorem timer_idle (e : Env) (l : ISDNQ921) (time : Nat) :
    timer e l false true time =
      { l with m_n200 := l.m_n200.reset, m_retransTimer := l.m_retransTimer.stop,
               m_idleTimer := if l.m_idleTimer.started = true then l.m_idleTimer.stop
                 else l.m_idleTimer.start (if time = 0 then e.now else time) } := by
  unfold timer
  by_cases h : l.m_retransTimer.started = true <;> by_cases h3 : l.m_idleTimer.started = true
  · simp [h, h3]
  · simp [h, h3]
  · have h2 := SignallingTimer_stop_if l.m_retransTimer
    simp only [h, if_false] at h2
    simp [h, h3, ← h2]
  · have h2 := SignallingTimer_stop_if l.m_retransTimer
    simp only [h, if_false] at h2
    simp [h, h3, ← h2]

theorem reset_eq (e : Env) (l : ISDNQ921) :
    reset e l =
      { l with m_remoteBusy := false, m_timerRecovery := false, m_rejectSent := false,
               m_lastPFBit := false, m_n200 := l.m_n200.reset, m_window := l.m_window.reset,
               m_retransTimer := l.m_retransTimer.stop,
               m_outFrames := [], m_va := 0, m_vs := 0, m_vr := 0 } := by
  unfold reset
  simp [timer_stop, SignallingCounter.reset]

theorem sameButTx_refl (l : ISDNQ921) : sameButTx l l := by simp [sameButTx]

theorem sameButTx_trans {a b c : ISDNQ921} (h1 : sameButTx a b) (h2 : sameButTx b c) :
    sameButTx a c := by
  simp only [sameButTx] at *
  simp_all

theorem sendFrame_same (e : Env) (l : ISDNQ921) (f : ISDNFrame) :
    sameButTx l (sendFrame e l f).2 := by
  unfold sendFrame
  dsimp only
  split_ifs <;> simp [sameButTx]

theorem timer_same_start (e : Env) (l : ISDNQ921) (t203 : Bool) (time : Nat) :
    sameButTx l (timer e l true t203 time) := by
  unfold timer
  simp only [if_true]
  split_ifs <;> simp [sameButTx]

theorem sendLoop_fst (e : Env) (l : ISDNQ921) (fs : List ISDNFrame) :
    (sendLoop e l fs).1 = fs.map (sentFrame l.m_vr) ∧ sameButTx l (sendLoop e l fs).2 := by
  induction fs generalizing l with
  | nil => simp [sendLoop, sameButTx_refl]
  | cons f rest ih =>
    simp only [sendLoop, List.map_cons]
    have hA : sameButTx l (if (!l.m_retransTimer.started) = true then timer e l true false 0 else l) := by
      split_ifs
      · exact timer_same_start e l false 0
      · exact sameButTx_refl l
    have hB := sendFrame_same e (if (!l.m_retransTimer.started) = true then timer e l true false 0 else l)
      (f.update none (some l.m_vr))
    have hAB := sameButTx_trans hA hB
    obtain ⟨ih1, ih2⟩ := ih (sendFrame e (if (!l.m_retransTimer.started) = true then timer e l true false 0 else l)
      (f.update none (some l.m_vr))).2
    refine ⟨?_, sameButTx_trans hAB ih2⟩
    rw [ih1, hAB.2.2.2.2.2.2.2.2.1]
    rfl

theorem sendOutgoingData_spec (e : Env) (l : ISDNQ921) (retrans : Bool) :
    sameButTx { l with m_outFrames := queueAfterSend l retrans } (sendOutgoingData e l retrans).2 := by
  unfold sendOutgoingData queueAfterSend
  by_cases hb : (l.m_remoteBusy || l.m_window.empty) = true
  · simp only [hb, if_true]
    exact sameButTx_refl _
  · simp only [hb, if_false]
    cases hq : l.m_outFrames with
    | nil =>
      cases retrans <;> simp [sameButTx, hq]
    | cons f rest =>
      simp only
      cases retrans
      · obtain ⟨h1, h2⟩ := sendLoop_fst e l (List.dropWhile (fun f => f.m_sent) (f :: rest))
        simp only [sameButTx] at h2 ⊢
        simp [h1, h2]
      · obtain ⟨h1, h2⟩ := sendLoop_fst e l (f :: rest)
        simp only [sameButTx] at h2 ⊢
        simp [h1, h2]

theorem sentFrame_ns (vr : Nat) (f : ISDNFrame) : (sentFrame vr f).m_ns = f.m_ns := by
  unfold sentFrame ISDNFrame.setSent ISDNFrame.update
  split_ifs <;> simp

theorem map_ns_queueAfterSend (l : ISDNQ921) (retrans : Bool) :
    (queueAfterSend l retrans).map (fun f => f.m_ns) = l.m_outFrames.map (fun f => f.m_ns) := by
  unfold queueAfterSend
  split_ifs
  · rfl
  · simp [Function.comp_def, sentFrame_ns]
  · rw [List.map_append, List.map_map]
    simp only [Function.comp_def, sentFrame_ns]
    rw [← List.map_append, List.takeWhile_append_dropWhile]

theorem takeWhile_append_unsent (q : List ISDNFrame) (f : ISDNFrame) (h : f.m_sent = false) :
    (q ++ [f]).takeWhile (fun f => f.m_sent) = q.takeWhile (fun f => f.m_sent) ∧
    (q ++ [f]).dropWhile (fun f => f.m_sent) = q.dropWhile (fun f => f.m_sent) ++ [f] := by
  induction q with
  | nil => simp [List.takeWhile, List.dropWhile, h]
  | cons g rest ih =>
    cases hg : g.m_sent <;> simp [List.takeWhile, List.dropWhile, hg, ih]

end ISDNQ921

namespace ISDNQ921

/-- Outcome of `sendData` in acknowledged mode. -/
theorem sendData_run (e : Env) (l : ISDNQ921) (data : DataBlock) :
    sendData e l data true =
      if data = [] ∨ l.m_teiAssigned = false ∨ l.m_state = .Released ∨
          l.m_window.m_count = l.m_window.m_max then (false, l)
      else
        (true, (sendOutgoingData e
          { l with m_vs := Modulo128.inc l.m_vs, m_window := l.m_window.inc,
                   m_outFrames := l.m_outFrames ++
                     [(ISDNFrame.data true l.m_network l.m_sapi l.m_tei false data).update
                       (some l.m_vs) none] } false).2) := by
  simp only [sendData]
  by_cases hd : data = []
  · simp [hd]
  · by_cases ht : l.m_teiAssigned = false
    · simp [hd, ht]
    · by_cases hs : l.m_state = .Released
      · simp [hd, ht, hs]
      · by_cases hc : l.m_window.m_count = l.m_window.m_max
        · simp [hd, ht, hs, hc, SignallingCounter.full, SignallingCounter.maxVal]
        · simp [hd, ht, hs, hc, SignallingCounter.full, SignallingCounter.maxVal]

theorem timer_same (e : Env) (l : ISDNQ921) (start t203 : Bool) (time : Nat) :
    sameButTx l (timer e l start t203 time) := by
  cases start
  · cases t203
    · rw [timer_stop]; simp [sameButTx]
    · rw [timer_idle]; simp [sameButTx]
  · rw [timer_start]; simp [sameButTx]

theorem sendSFrame_same (e : Env) (l : ISDNQ921) (t : FrameType) (c p : Bool) :
    sameButTx l (sendSFrame e l t c p).2 := by
  unfold sendSFrame
  split_ifs
  · exact sameButTx_refl l
  · exact sendFrame_same e l _

theorem core_of_same {l r : ISDNQ921} (h : sameButTx l r) : core r = core l := by
  simp only [sameButTx] at h
  simp [core, h]

theorem core_sendOutgoingData (e : Env) (l : ISDNQ921) (retrans : Bool) :
    core (sendOutgoingData e l retrans).2 = core l := by
  have h := core_of_same (sendOutgoingData_spec e l retrans)
  rw [h]
  simp [core, map_ns_queueAfterSend]

/-- Effect of an accepted `sendData` on the sequencing core. -/
theorem core_sendData (e : Env) (l : ISDNQ921) (data : DataBlock)
    (hd : data ≠ []) (ht : l.m_teiAssigned = true) (hs : l.m_state ≠ .Released)
    (hc : l.m_window.m_count ≠ l.m_window.m_max) :
    (sendData e l data true).1 = true ∧
    core (sendData e l data true).2 =
      (l.toISDNLayer2, Modulo128.inc l.m_vs, l.m_va, l.m_vr,
        { m_max := l.m_window.m_max, m_count := l.m_window.m_count + 1 },
        l.m_outFrames.map (fun f => f.m_ns) ++ [l.m_vs]) := by
  rw [sendData_run]
  have hrej : ¬ (data = [] ∨ l.m_teiAssigned = false ∨ l.m_state = .Released ∨
      l.m_window.m_count = l.m_window.m_max) := by
    simp [hd, ht, hs, hc]
  rw [if_neg hrej]
  refine ⟨rfl, ?_⟩
  rw [core_sendOutgoingData]
  simp [core, SignallingCounter.inc, SignallingCounter.full, SignallingCounter.maxVal, hc,
    ISDNFrame.update, ISDNFrame.data]

/-- A rejected `sendData` changes nothing. -/
theorem sendData_full (e : Env) (l : ISDNQ921) (data : DataBlock)
    (hc : l.m_window.m_count = l.m_window.m_max) :
    sendData e l data true = (false, l) := by
  rw [sendData_run, if_pos (Or.inr (Or.inr (Or.inr hc)))]

end ISDNQ921

namespace ISDNQ921

/-- A frame that passes every check of `acceptFrame` is accepted unchanged. -/
theorem acceptFrame_ok (l : ISDNQ921) (f : ISDNFrame)
    (herr : f.m_error = f.m_type) (hvalid : f.m_type.valid = true)
    (hsapi : f.m_sapi = l.m_sapi) (htei : f.m_tei = l.m_tei)
    (hseq : f.m_type = .I → f.m_ns = l.m_vr)
    (hcr : ¬ (((f.m_type = .SABME ∨ f.m_type = .DISC) ∧ f.m_command = false) ∨
      ((f.m_type = .UA ∨ f.m_type = .DM) ∧ f.m_command = true)))
    (hxid : f.m_type ≠ .XID)
    (hnr : f.m_nr < 128 → Modulo128.between f.m_nr l.m_va l.m_vs = true)
    (hlen : f.m_dataLength ≤ l.m_maxUserData) :
    acceptFrame l f = ((true, false), f, { l with m_rxFrames := inc32 l.m_rxFrames }) := by
  have hd : ¬ (l.m_maxUserData < f.m_dataLength) := by omega
  have hnr2 : ¬ (f.m_nr < 128 ∧ Modulo128.between f.m_nr l.m_va l.m_vs = false) := by
    intro h
    have := hnr h.1
    rw [h.2] at this
    cases this
  have hseq2 : ¬ (f.m_type = .I ∧ f.m_ns ≠ l.m_vr) := fun h => h.2 (hseq h.1)
  have hchk : acceptCheck { l with m_rxFrames := inc32 l.m_rxFrames } f = f.m_type := by
    unfold acceptCheck
    rw [if_neg (by simp [hsapi, htei]), if_neg hseq2, if_neg hcr, if_neg hxid, if_neg hnr2,
      if_neg (by simpa using hd), herr]
  unfold acceptFrame
  simp only [herr, hvalid, if_true, hchk]
  cases f
  simp_all

/-- The acknowledging loop on a queue whose first frame is not the one named by
N(R) and whose second frame, if any, is: exactly the first frame is removed. -/
theorem ackLoop_one (nr : Nat) (w : SignallingCounter) (q : List ISDNFrame) (a : Nat)
    (rest : List Nat)
    (hq : q.map (fun f => f.m_ns) = a :: rest) (ha : nr ≠ a)
    (hrest : rest = [] ∨ rest.head? = some nr) :
    (ackLoop nr false w q).1 = true ∧
    ((ackLoop nr false w q).2.2.1).map (fun f => f.m_ns) = rest ∧
    (ackLoop nr false w q).2.2.2 = w.dec := by
  match q, hq with
  | f :: fs, hq =>
    simp only [List.map_cons, List.cons.injEq] at hq
    obtain ⟨hf, hfs⟩ := hq
    have h1 : ¬ nr = f.m_ns := by rw [hf]; exact ha
    simp only [ackLoop, if_neg h1]
    match fs, hfs with
    | [], hfs => simp [ackLoop, ← hfs]
    | g :: gs, hfs =>
      simp only [List.map_cons] at hfs
      have hg : nr = g.m_ns := by
        rcases hrest with h | h
        · rw [h] at hfs; cases hfs
        · rw [← hfs] at h
          simpa using h.symm
      simp [ackLoop, hg, ← hfs]

theorem core_ackOutgoingFrames (e : Env) (l : ISDNQ921) (f : ISDNFrame) :
    core (ackOutgoingFrames e l f).2 =
      (l.toISDNLayer2, l.m_vs, l.m_va, l.m_vr,
        (ackLoop f.m_nr false l.m_window l.m_outFrames).2.2.2,
        ((ackLoop f.m_nr false l.m_window l.m_outFrames).2.2.1).map (fun f => f.m_ns)) := by
  unfold ackOutgoingFrames
  dsimp only
  split_ifs <;> (try simp only [core_of_same (timer_same _ _ _ _ _)]) <;> simp [core]

theorem core_sendSFrame (e : Env) (l : ISDNQ921) (t : FrameType) (c p : Bool) :
    core (sendSFrame e l t c p).2 = core l := core_of_same (sendSFrame_same e l t c p)

theorem core_timer (e : Env) (l : ISDNQ921) (a b : Bool) (t : Nat) :
    core (timer e l a b t) = core l := core_of_same (timer_same e l a b t)

/-- An RR frame processed in Established state only acknowledges: the core
changes by the acknowledging loop alone, V(A) included. -/
theorem core_processSFrame_RR (e : Env) (l : ISDNQ921) (f : ISDNFrame)
    (hst : l.m_state = .Established) (hRR : f.m_type = .RR) :
    (processSFrame e l f).1 = false ∧
    core (processSFrame e l f).2 =
      (l.toISDNLayer2, l.m_vs, l.m_va, l.m_vr,
        (ackLoop f.m_nr false l.m_window l.m_outFrames).2.2.2,
        ((ackLoop f.m_nr false l.m_window l.m_outFrames).2.2.1).map (fun f => f.m_ns)) := by
  unfold processSFrame
  simp only [hst, ne_eq, not_true_eq_false, if_false, hRR, if_true, true_and]
  have hack := core_ackOutgoingFrames e { l with m_remoteBusy := false } f
  split_ifs <;>
    (try simp only [core_timer, core_sendSFrame, core_sendOutgoingData, hack]) <;>
    first
      | rfl
      | (rw [show ∀ m : ISDNQ921, core { m with m_lastPFBit := false } = core m from fun _ => rfl]
         simp only [core_timer, core_sendSFrame, core_sendOutgoingData, hack])

end ISDNQ921

/-! ## Sending data -/

namespace ISDNQ921

/-- C8: `sendData` in acknowledged mode. It returns false, leaving the link
unchanged, iff the data is empty, the TEI is not assigned, the state is Released
or the window is full. Otherwise it returns true whatever the interface answers,
appends to the outgoing queue exactly one I frame carrying the data with N(S)
equal to the previous V(S) and P/F = 0 (left as built when the peer is busy,
else transmitted with N(R) = V(R) and marked sent), sets V(S) to
(V(S)+1) mod 128 and raises the window occupancy by 1. -/
theorem sendData_acknowledged (e : Env) (l : ISDNQ921) (data : DataBlock) (hvs : l.m_vs < 128) :
    let rejected := data = [] ∨ l.m_teiAssigned = false ∨ l.m_state = .Released ∨
      l.m_window.m_count = l.m_window.m_max
    let frame := (ISDNFrame.data true l.m_network l.m_sapi l.m_tei false data).update
      (some l.m_vs) none
    let r := sendData e l data true
    (r.1 = false ↔ rejected) ∧
    (rejected → r.2 = l) ∧
    (¬ rejected →
      r.1 = true ∧
      r.2.m_vs = (l.m_vs + 1) % 128 ∧
      r.2.m_window.m_count = l.m_window.m_count + 1 ∧
      r.2.m_window.m_max = l.m_window.m_max ∧
      r.2.m_outFrames =
        (if l.m_remoteBusy then l.m_outFrames ++ [frame]
         else l.m_outFrames.takeWhile (fun f => f.m_sent) ++
           (l.m_outFrames.dropWhile (fun f => f.m_sent) ++ [frame]).map (sentFrame l.m_vr)) ∧
      r.2.m_outFrames.length = l.m_outFrames.length + 1 ∧
      r.2.m_outFrames.map (fun f => f.m_ns) = l.m_outFrames.map (fun f => f.m_ns) ++ [l.m_vs] ∧
      r.2.toISDNLayer2 = l.toISDNLayer2 ∧ r.2.m_va = l.m_va ∧ r.2.m_vr = l.m_vr ∧
      r.2.upLog = l.upLog) ∧
    (frame.m_type = .I ∧ frame.m_ns = l.m_vs ∧ frame.m_poll = false ∧ frame.getData = data ∧
      frame.m_buffer.getD 2 0 = l.m_vs <<< 1 ∧ frame.m_sent = false ∧
      (sentFrame l.m_vr frame).m_type = .I ∧ (sentFrame l.m_vr frame).m_ns = l.m_vs ∧
      (sentFrame l.m_vr frame).m_poll = false ∧ (sentFrame l.m_vr frame).getData = data ∧
      (sentFrame l.m_vr frame).m_buffer.getD 2 0 = l.m_vs <<< 1) := by
  intro rejected frame r
  have hframe : frame =
      { m_type := .I, m_error := .I, m_category := .Data, m_command := true,
        m_senderNetwork := l.m_network, m_sapi := l.m_sapi, m_tei := l.m_tei, m_poll := false,
        m_ns := l.m_vs, m_nr := 0, m_headerLength := 4, m_dataLength := data.length,
        m_sent := false,
        m_buffer := (ISDNFrame.setAddress true l.m_network l.m_sapi l.m_tei).1 ::
          (ISDNFrame.setAddress true l.m_network l.m_sapi l.m_tei).2 ::
          (l.m_vs <<< 1) % 256 :: 0 :: data } := by
    simp [frame, ISDNFrame.data, ISDNFrame.update, ISDNFrame.setControl, List.set]
  have hshift : (l.m_vs <<< 1) % 256 = l.m_vs <<< 1 := (seq_octet_update _ hvs).1
  have hinc : Modulo128.inc l.m_vs = (l.m_vs + 1) % 128 := by
    unfold Modulo128.inc
    split_ifs <;> omega
  have hrun : r = if rejected then (false, l) else
      (true, (sendOutgoingData e
        { l with m_vs := Modulo128.inc l.m_vs, m_window := l.m_window.inc,
                 m_outFrames := l.m_outFrames ++ [frame] } false).2) := sendData_run e l data
  refine ⟨?_, ?_, ?_, ?_⟩
  · rw [hrun]
    split_ifs with h <;> simp [h]
  · intro h
    rw [hrun, if_pos h]
  · intro h
    have hc : ¬ l.m_window.m_count = l.m_window.m_max := fun hc => h (Or.inr (Or.inr (Or.inr hc)))
    have hspec := sendOutgoingData_spec e
      { l with m_vs := Modulo128.inc l.m_vs, m_window := l.m_window.inc,
               m_outFrames := l.m_outFrames ++ [frame] } false
    have hsent : frame.m_sent = false := by rw [hframe]
    have hq : queueAfterSend
        { l with m_vs := Modulo128.inc l.m_vs, m_window := l.m_window.inc,
                 m_outFrames := l.m_outFrames ++ [frame] } false =
        (if l.m_remoteBusy then l.m_outFrames ++ [frame]
         else l.m_outFrames.takeWhile (fun f => f.m_sent) ++
           (l.m_outFrames.dropWhile (fun f => f.m_sent) ++ [frame]).map (sentFrame l.m_vr)) := by
      have hne : (l.m_window.inc).empty = false := by
        simp [SignallingCounter.inc, SignallingCounter.full, SignallingCounter.empty,
          SignallingCounter.maxVal, hc]
      simp only [queueAfterSend, hne, Bool.or_false, (takeWhile_append_unsent _ _ hsent).1,
        (takeWhile_append_unsent _ _ hsent).2]
      cases l.m_remoteBusy <;> simp
    rw [hq] at hspec
    rw [hrun, if_neg h]
    simp only [sameButTx] at hspec
    obtain ⟨h1, h2, h3, h4, h5, h6, h7, h8, h9, h10, h11, h12, h13, h14, h15, h16, h17⟩ := hspec
    refine ⟨rfl, ?_, ?_, ?_, ?_, ?_, ?_, ?_, ?_, ?_, ?_⟩
    · rw [h7]; exact hinc
    · rw [h10]; simp [SignallingCounter.inc, SignallingCounter.full, SignallingCounter.maxVal, hc]
    · rw [h10]; simp [SignallingCounter.inc, SignallingCounter.full, SignallingCounter.maxVal, hc]
    · rw [h11]
    · rw [h11]
      split_ifs
      · simp
      · simp only [List.length_append, List.length_map, List.length_cons, List.length_nil]
        have := congrArg List.length (List.takeWhile_append_dropWhile (fun f => f.m_sent) l.m_outFrames)
        simp only [List.length_append] at this
        omega
    · rw [h11]
      have hns : frame.m_ns = l.m_vs := by rw [hframe]
      split_ifs
      · simp [hns]
      · rw [List.map_append, List.map_map, List.map_append]
        simp only [Function.comp_def, sentFrame_ns, List.map_cons, List.map_nil, hns]
        rw [← List.append_assoc, ← List.map_append, List.takeWhile_append_dropWhile]
    · rw [h1]
    · rw [h8]
    · rw [h9]
    · rw [h17]
  · rw [hframe]
    simp [sentFrame, ISDNFrame.update, ISDNFrame.setSent, ISDNFrame.getData, List.set, hshift]

theorem sendData_acknowledged_witness :
    (establishedLink defaultParams).m_vs < 128 ∧
    (sendData quietEnv (establishedLink defaultParams) [1] true).1 = true :=
  ⟨by decide,
   ((sendData_acknowledged quietEnv (establishedLink defaultParams) [1] (by decide)).2.2.1
     (by decide)).1⟩

end ISDNQ921

/-! ## Establishment -/

namespace ISDNQ921

/-- C9: establishment (Scenario 1), for either link role and any sapi/tei. On a
link in Released state `multipleFrame(true,false)` hands exactly one packet to
the interface, which the peer parses as a SABME command with P=1, starts T200
(T203 stopped) and moves the link to WaitEstablish without calling Layer 3; a
correctly addressed UA response with F=1 received then moves the link to
Established with V(S)=V(A)=V(R)=0, transmits nothing, and Layer 3 receives
exactly one `multipleFrameEstablished(true,false)`. -/
theorem establish_then_UA (e1 e2 : Env) (l : ISDNQ921) (packet : DataBlock) (f : ISDNFrame)
    (hst : l.m_state = .Released) (hassigned : l.m_teiAssigned = true)
    (ht200 : l.m_retransTimer.m_interval ≠ 0)
    (hs : l.m_sapi < 64) (ht : l.m_tei < 128)
    (hparse : ISDNFrame.parse packet (some l.m_network) = some f)
    (hUA : f.m_type = .UA) (hresp : f.m_command = false) (hpoll : f.m_poll = true)
    (hsapi : f.m_sapi = l.m_sapi) (htei : f.m_tei = l.m_tei)
    (hdata : f.m_dataLength ≤ l.m_maxUserData) :
    let sabme := ISDNFrame.control .SABME true l.m_network l.m_sapi l.m_tei true 0xFF
    let l1 := (multipleFrame e1 l true false).2
    let l2 := (receivedPacket e2 l1 packet).2
    (multipleFrame e1 l true false).1 = e1.transmit l.txLog.length sabme.m_buffer ∧
    l1.txLog = l.txLog ++ [sabme.m_buffer] ∧
    ISDNFrame.parse sabme.m_buffer (some (!l.m_network)) = some sabme ∧
    l1.m_state = .WaitEstablish ∧
    l1.m_retransTimer.started = true ∧ l1.m_idleTimer.started = false ∧
    l1.upLog = l.upLog ∧
    l2.m_state = .Established ∧ l2.m_vs = 0 ∧ l2.m_va = 0 ∧ l2.m_vr = 0 ∧
    l2.upLog = l.upLog ++ [.multipleFrameEstablished true false] ∧
    l2.txLog = l1.txLog := by
  obtain ⟨hlen, hfacts⟩ := ISDNFrame.parse_some_facts _ _ _ hparse
  obtain ⟨herr, hcat, hns, hnr⟩ := hfacts (by rw [hUA]; rfl)
  rw [hUA] at herr hcat
  have hnr2 : f.m_nr = 0xFF := hnr (by simp [hUA]) (by simp [hUA]) (by simp [hUA]) (by simp [hUA])
  intro sabme l1 l2
  have hsab : sabme.m_buffer =
      (ISDNFrame.control .SABME true l.m_network l.m_sapi l.m_tei true 0).m_buffer := rfl
  have hstart : ∀ t : Nat, (l.m_retransTimer.stop.start t).started = true := by
    intro t
    simp [SignallingTimer.start, SignallingTimer.stop, SignallingTimer.started, ht200]
    omega
  have hl1 : l1 = { l with
      m_state := .WaitEstablish,
      m_remoteBusy := false, m_timerRecovery := false, m_rejectSent := false,
      m_lastPFBit := false, m_n200 := l.m_n200.reset, m_window := l.m_window.reset,
      m_retransTimer := l.m_retransTimer.stop.start (if 0 = 0 then e1.now else 0),
      m_idleTimer := l.m_idleTimer.stop,
      m_outFrames := [], m_va := 0, m_vs := 0, m_vr := 0,
      txLog := l.txLog ++ [sabme.m_buffer],
      m_txFrames := if e1.transmit l.txLog.length sabme.m_buffer then inc32 l.m_txFrames
        else l.m_txFrames,
      m_txFailFrames := if e1.transmit l.txLog.length sabme.m_buffer then l.m_txFailFrames
        else inc32 l.m_txFailFrames,
      m_errorSend := !e1.transmit l.txLog.length sabme.m_buffer } := by
    simp only [l1, multipleFrame, hst]
    simp [sendUFrame, sendFrame_valid, FrameType.valid, ISDNFrame.control, ISDNFrame.crMask,
      changeState, reset_eq, timer_start, hassigned, hsab, hst]
  have hacc : ∀ m : ISDNQ921, m.m_sapi = l.m_sapi → m.m_tei = l.m_tei →
      m.m_maxUserData = l.m_maxUserData →
      acceptFrame m f = ((true, false), f, { m with m_rxFrames := inc32 m.m_rxFrames }) := by
    intro m h1 h2 h3
    have hd : ¬ (l.m_maxUserData < f.m_dataLength) := by omega
    simp [acceptFrame, acceptCheck, herr, hUA, hsapi, htei, h1, h2, h3, FrameType.valid, hresp,
      hnr2, hd]
    cases f
    simp_all
  refine ⟨?_, ?_, ?_, ?_, ?_, ?_, ?_, ?_⟩
  · simp [multipleFrame, hst, sendUFrame, sendFrame_valid, FrameType.valid, ISDNFrame.control,
      ISDNFrame.crMask, reset_eq, timer_start, sabme]
  · rw [hl1]
  · exact ISDNFrame.parse_control .SABME true l.m_network l.m_sapi l.m_tei true 0 rfl hs ht
      (by decide)
  · rw [hl1]
  · rw [hl1]
    exact hstart _
  · rw [hl1]
    simp [SignallingTimer.stop, SignallingTimer.started]
  · rw [hl1]
  · have hl2 : l2 = (receivedPacket e2 l1 packet).2 := rfl
    rw [hl2, hl1]
    unfold receivedPacket
    simp only [hlen, if_false, hparse]
    rw [hacc]
    rotate_left
    · rfl
    · rfl
    · rfl
    simp [hcat, FrameType.category, processUFrame, hUA, hpoll, applyState, reset_eq, changeState,
      hassigned, timer_idle, upcall]

theorem establish_then_UA_witness :
    (receivedPacket quietEnv (multipleFrame quietEnv (new defaultParams) true false).2
      [0x00, 0x01, 0x73]).2.m_state = .Established :=
  (establish_then_UA quietEnv quietEnv (new defaultParams) [0x00, 0x01, 0x73]
    (ISDNFrame.control .UA false true 0 0 true 0xFF)
    (by decide) (by decide) (by decide) (by decide) (by decide) (by decide) (by decide)
    (by decide) (by decide) (by decide) (by decide) (by decide)).2.2.2.2.2.2.2.1

end ISDNQ921

/-! ## Out-of-sequence I frames -/

namespace ISDNQ921

/-- C10: out-of-sequence I frames (Scenario 3). When a link (Established or
not) receives a correctly addressed I frame whose N(S) differs from V(R), it
hands exactly one packet to the interface: a REJ command with P=1 carrying
N(R)=V(R) if no reject is pending, an RR response with F equal to the P bit of
the frame and N(R)=V(R) if one is; the reject is pending afterwards, so every
further such frame is answered with RR. In both cases nothing else changes but
the receive and transmit counters and error flags: V(R), V(S), V(A), the
outgoing queue, the state and the calls made to Layer 3 are as before. -/
theorem out_of_sequence_I (e : Env) (l : ISDNQ921) (packet : DataBlock) (f : ISDNFrame)
    (hparse : ISDNFrame.parse packet (some l.m_network) = some f)
    (hI : f.m_type = .I) (hsapi : f.m_sapi = l.m_sapi) (htei : f.m_tei = l.m_tei)
    (hns : f.m_ns ≠ l.m_vr)
    (hs : l.m_sapi < 64) (ht : l.m_tei < 128) (hvr : l.m_vr < 128) :
    let reply := if l.m_rejectSent
      then ISDNFrame.control .RR false l.m_network l.m_sapi l.m_tei f.m_poll l.m_vr
      else ISDNFrame.control .REJ true l.m_network l.m_sapi l.m_tei true l.m_vr
    let ok := e.transmit l.txLog.length reply.m_buffer
    receivedPacket e l packet =
      (true, { l with
        m_errorReceive := false,
        m_rxFrames := inc32 l.m_rxFrames,
        m_rxDroppedFrames := inc32 l.m_rxDroppedFrames,
        txLog := l.txLog ++ [reply.m_buffer],
        m_txFrames := if ok then inc32 l.m_txFrames else l.m_txFrames,
        m_txFailFrames := if ok then l.m_txFailFrames else inc32 l.m_txFailFrames,
        m_errorSend := !ok,
        m_rejectSent := true,
        m_lastPFBit := if l.m_rejectSent then l.m_lastPFBit else true }) ∧
    ISDNFrame.parse reply.m_buffer (some (!l.m_network)) = some reply ∧
    reply.m_type = (if l.m_rejectSent then .RR else .REJ) ∧ reply.m_nr = l.m_vr := by
  obtain ⟨hlen, herr⟩ := ISDNFrame.parse_some_facts _ _ _ hparse
  have herr2 : f.m_error = .I := by rw [(herr (by rw [hI]; rfl)).1, hI]
  intro reply ok
  refine ⟨?_, ?_, ?_, ?_⟩
  · have hacc : acceptFrame { l with m_errorReceive := false } f =
        ((false, false), { f with m_error := .ErrTxSeqNo },
          dropFrame { l with m_errorReceive := false, m_rxFrames := inc32 l.m_rxFrames }) := by
      simp [acceptFrame, acceptCheck, herr2, hI, hsapi, htei, hns, FrameType.valid]
    unfold receivedPacket
    simp only [hlen, if_false, hparse, hacc]
    cases hr : l.m_rejectSent
    · simp [reply, ok, hr, sendSFrame, dropFrame, sendFrame_valid,
        show (ISDNFrame.control .REJ true l.m_network l.m_sapi l.m_tei true l.m_vr).m_type.valid
          = true from rfl]
    · simp [reply, ok, hr, sendSFrame, dropFrame, sendFrame_valid,
        show (ISDNFrame.control .RR false l.m_network l.m_sapi l.m_tei f.m_poll l.m_vr).m_type.valid
          = true from rfl]
  · cases hr : l.m_rejectSent
    · simpa [reply, hr] using
        ISDNFrame.parse_control .REJ true l.m_network l.m_sapi l.m_tei true l.m_vr rfl hs ht hvr
    · simpa [reply, hr] using
        ISDNFrame.parse_control .RR false l.m_network l.m_sapi l.m_tei f.m_poll l.m_vr rfl hs ht hvr
  · cases hr : l.m_rejectSent <;> simp [reply, hr] <;> rfl
  · cases hr : l.m_rejectSent <;> simp [reply, hr] <;> rfl

theorem out_of_sequence_I_witness :
    (receivedPacket quietEnv (establishedLink defaultParams) [0x02, 0x01, 0x0a, 0x00, 0x09]).2.txLog =
      (establishedLink defaultParams).txLog ++ [[0x00, 0x01, 0x09, 0x01]] :=
  congrArg (fun r => r.2.txLog)
    (out_of_sequence_I quietEnv (establishedLink defaultParams) [0x02, 0x01, 0x0a, 0x00, 0x09]
      (ISDNFrame.build .I true true 0 0 false 5 0 [9])
      (by decide) (by decide) (by decide) (by decide) (by decide) (by decide) (by decide)
      (by decide)).1

end ISDNQ921

/-! ## The window -/

namespace ISDNQ921

/-- Filling the window: `n` accepted `sendData` calls from a link whose window
holds `k` frames, with room for all of them. -/
theorem sendAll_fill (calls : List (Env × DataBlock)) :
    ∀ (l : ISDNQ921), (∀ c ∈ calls, c.2 ≠ []) → l.m_teiAssigned = true →
      l.m_state = .Established → l.m_vs < 128 →
      l.m_window.m_count + calls.length ≤ l.m_window.m_max →
      (sendAll l calls).1 = List.replicate calls.length true ∧
      core (sendAll l calls).2 =
        (l.toISDNLayer2, (l.m_vs + calls.length) % 128, l.m_va, l.m_vr,
          { m_max := l.m_window.m_max, m_count := l.m_window.m_count + calls.length },
          l.m_outFrames.map (fun f => f.m_ns) ++
            (List.range calls.length).map (fun i => (l.m_vs + i) % 128)) := by
  induction calls with
  | nil =>
    intro l _ _ _ hvs _
    simp [sendAll, core, Nat.mod_eq_of_lt hvs]
  | cons c rest ih =>
    intro l hne ht hs hvs hroom
    simp only [List.length_cons] at hroom
    have hc : l.m_window.m_count ≠ l.m_window.m_max := by omega
    obtain ⟨h1, h2⟩ := core_sendData c.1 l c.2 (hne c (by simp)) ht (by rw [hs]; decide) hc
    simp only [core, Prod.mk.injEq] at h2
    obtain ⟨hL2, hvs2, hva2, hvr2, hw2, hq2⟩ := h2
    have hinc : Modulo128.inc l.m_vs = (l.m_vs + 1) % 128 := by
      unfold Modulo128.inc
      split_ifs <;> omega
    have ht2 : (sendData c.1 l c.2 true).2.m_teiAssigned = true := by
      have := congrArg ISDNLayer2.m_teiAssigned hL2
      exact this.trans ht
    have hs2 : (sendData c.1 l c.2 true).2.m_state = .Established := by
      have := congrArg ISDNLayer2.m_state hL2
      exact this.trans hs
    have hvs3 : (sendData c.1 l c.2 true).2.m_vs < 128 := by
      rw [hvs2, hinc]; omega
    have hroom2 : (sendData c.1 l c.2 true).2.m_window.m_count + rest.length ≤
        (sendData c.1 l c.2 true).2.m_window.m_max := by
      rw [hw2]; simp only; omega
    obtain ⟨i1, i2⟩ := ih (sendData c.1 l c.2 true).2 (fun c hc => hne c (by simp [hc]))
      ht2 hs2 hvs3 hroom2
    simp only [sendAll, List.length_cons, List.replicate_succ]
    refine ⟨by rw [h1, i1], ?_⟩
    rw [i2, hL2, hvs2, hva2, hvr2, hw2, hq2, hinc]
    simp only [Prod.mk.injEq, true_and, SignallingCounter.mk.injEq]
    refine ⟨by omega, by omega, ?_⟩
    rw [List.range_succ_eq_map, List.map_cons, List.map_map, List.append_assoc]
    simp only [List.singleton_append, List.cons.injEq, List.append_cancel_left_eq, Nat.add_zero]
    refine ⟨(Nat.mod_eq_of_lt hvs).symm, ?_⟩
    apply List.map_congr_left
    intro i _
    simp only [Function.comp_apply]
    omega

/-- An accepted RR received in Established state changes the sequencing core by
the acknowledging loop alone. -/
theorem core_receivedPacket_RR (e : Env) (l : ISDNQ921) (packet : DataBlock) (f : ISDNFrame)
    (hst : l.m_state = .Established)
    (hparse : ISDNFrame.parse packet (some l.m_network) = some f)
    (hRR : f.m_type = .RR) (hsapi : f.m_sapi = l.m_sapi) (htei : f.m_tei = l.m_tei)
    (hnr : Modulo128.between f.m_nr l.m_va l.m_vs = true)
    (hdata : f.m_dataLength ≤ l.m_maxUserData) :
    core (receivedPacket e l packet).2 =
      (l.toISDNLayer2, l.m_vs, l.m_va, l.m_vr,
        (ackLoop f.m_nr false l.m_window l.m_outFrames).2.2.2,
        ((ackLoop f.m_nr false l.m_window l.m_outFrames).2.2.1).map (fun f => f.m_ns)) := by
  obtain ⟨hlen, hfacts⟩ := ISDNFrame.parse_some_facts _ _ _ hparse
  obtain ⟨herr, hcat, -, -⟩ := hfacts (by rw [hRR]; rfl)
  have hacc := acceptFrame_ok { l with m_errorReceive := false } f herr (by rw [hRR]; rfl)
    hsapi htei (by simp [hRR]) (by simp [hRR]) (by simp [hRR]) (fun _ => hnr) hdata
  have hproc := core_processSFrame_RR e
    { l with m_errorReceive := false, m_rxFrames := inc32 l.m_rxFrames } f hst hRR
  unfold receivedPacket
  simp only [hlen, if_false, hparse, hacc, hcat, hRR, FrameType.category]
  simp only [Bool.not_true, Bool.false_eq_true, if_false, reduceCtorEq, if_true, hproc.1,
    Bool.not_false]
  exact hproc.2

theorem between_next (v w : Nat) (hv : v < 128) (hw : w % 128 ≠ 0) :
    Modulo128.between ((v + 1) % 128) v ((v + w) % 128) = true := by
  unfold Modulo128.between
  split_ifs with h1 h2
  · omega
  · simp only [ge_iff_le, Bool.and_eq_true, decide_eq_true_eq]
    omega
  · simp only [ge_iff_le, Bool.or_eq_true, decide_eq_true_eq]
    omega

/-- C7 as stated fails at two concrete inputs. With a window of 128 on the
link of Scenario 1, after 128 accepted `sendData` calls V(S) has wrapped to
V(A) = 0, so the RR with N(R) = V(A)+1 = 1 (octets 00 01 01 02) is rejected for
its N(R) and the link is reset: it is in WaitEstablish with an empty window, and
the next two `sendData` calls both return true. With the default window of 7,
after one window of frames has been sent and acknowledged by an RR with
N(R) = 7 the queue is empty again while V(A) is still 0; after 7 more
`sendData` calls the RR with N(R) = V(A)+1 = 1 empties the whole window, not one
slot. -/
theorem window_release_counterexample :
    ((sendAll (establishedLink wideParams) (payloads 128)).1 = List.replicate 128 true ∧
     (sendData quietEnv (sendAll (establishedLink wideParams) (payloads 128)).2 [129] true).1
       = false ∧
     (sendAll (establishedLink wideParams) (payloads 128)).2.m_va = 0 ∧
     (receivedPacket quietEnv (sendAll (establishedLink wideParams) (payloads 128)).2
       [0x00, 0x01, 0x01, 0x02]).2.m_state = .WaitEstablish ∧
     (receivedPacket quietEnv (sendAll (establishedLink wideParams) (payloads 128)).2
       [0x00, 0x01, 0x01, 0x02]).2.m_window.m_count = 0 ∧
     (sendAll (receivedPacket quietEnv (sendAll (establishedLink wideParams) (payloads 128)).2
       [0x00, 0x01, 0x01, 0x02]).2 (payloads 2)).1 = [true, true]) ∧
    ((receivedPacket quietEnv (sendAll (establishedLink defaultParams) (payloads 7)).2
       [0x00, 0x01, 0x01, 0x0e]).2.m_outFrames = [] ∧
     (receivedPacket quietEnv (sendAll (establishedLink defaultParams) (payloads 7)).2
       [0x00, 0x01, 0x01, 0x0e]).2.m_state = .Established ∧
     (receivedPacket quietEnv (sendAll (establishedLink defaultParams) (payloads 7)).2
       [0x00, 0x01, 0x01, 0x0e]).2.m_va = 0 ∧
     (sendAll (receivedPacket quietEnv (sendAll (establishedLink defaultParams) (payloads 7)).2
       [0x00, 0x01, 0x01, 0x0e]).2 (payloads 8)).1 =
         [true, true, true, true, true, true, true, false] ∧
     (receivedPacket quietEnv
       (sendAll (receivedPacket quietEnv (sendAll (establishedLink defaultParams) (payloads 7)).2
         [0x00, 0x01, 0x01, 0x0e]).2 (payloads 7)).2
       [0x00, 0x01, 0x01, 0x02]).2.m_window.m_count = 0 ∧
     (sendAll (receivedPacket quietEnv
       (sendAll (receivedPacket quietEnv (sendAll (establishedLink defaultParams) (payloads 7)).2
         [0x00, 0x01, 0x01, 0x0e]).2 (payloads 7)).2
       [0x00, 0x01, 0x01, 0x02]).2 (payloads 2)).1 = [true, true]) := by
  decide

/-- C7 (amended): window fill and release (Scenario 2) for every window size W
that is not a multiple of 128. On an Established link with nothing outstanding
(empty outgoing queue, window occupancy 0, V(S) = V(A)) and window max W, W
consecutive `sendData(non-empty data, ack=true)` calls each return true and fill
the window, the (W+1)-th returns false and changes nothing; after the link then
receives a correctly addressed RR with N(R) = (V(A)+1) mod 128 exactly one slot
is freed (the oldest frame leaves the queue, the state stays Established), so
the next `sendData` returns true and the one after it returns false. -/
theorem window_fill_and_release (l : ISDNQ921) (calls : List (Env × DataBlock))
    (e1 e2 e3 e4 : Env) (d1 d3 d4 rr : DataBlock) (f : ISDNFrame)
    (hst : l.m_state = .Established) (ht : l.m_teiAssigned = true)
    (hq : l.m_outFrames = []) (hcount : l.m_window.m_count = 0)
    (hW : l.m_window.m_max % 128 ≠ 0) (hva : l.m_va = l.m_vs) (hvs : l.m_vs < 128)
    (hcalls : calls.length = l.m_window.m_max) (hne : ∀ c ∈ calls, c.2 ≠ [])
    (hd3 : d3 ≠ [])
    (hparse : ISDNFrame.parse rr (some l.m_network) = some f)
    (hRR : f.m_type = .RR) (hsapi : f.m_sapi = l.m_sapi) (htei : f.m_tei = l.m_tei)
    (hnr : f.m_nr = (l.m_va + 1) % 128) (hdata : f.m_dataLength ≤ l.m_maxUserData) :
    (sendAll l calls).1 = List.replicate l.m_window.m_max true ∧
    (sendAll l calls).2.m_window.m_count = l.m_window.m_max ∧
    sendData e1 (sendAll l calls).2 d1 true = (false, (sendAll l calls).2) ∧
    (receivedPacket e2 (sendAll l calls).2 rr).2.m_window.m_count = l.m_window.m_max - 1 ∧
    (receivedPacket e2 (sendAll l calls).2 rr).2.m_window.m_max = l.m_window.m_max ∧
    (receivedPacket e2 (sendAll l calls).2 rr).2.m_outFrames.map (fun f => f.m_ns) =
      ((sendAll l calls).2.m_outFrames.map (fun f => f.m_ns)).tail ∧
    (receivedPacket e2 (sendAll l calls).2 rr).2.m_state = .Established ∧
    (sendData e3 (receivedPacket e2 (sendAll l calls).2 rr).2 d3 true).1 = true ∧
    (sendData e4 (sendData e3 (receivedPacket e2 (sendAll l calls).2 rr).2 d3 true).2
      d4 true).1 = false := by
  obtain ⟨hres, hfill⟩ := sendAll_fill calls l hne ht hst hvs (by omega)
  rw [hcalls, hcount, hq] at hfill
  simp only [core, Prod.mk.injEq, List.map_nil, List.nil_append, Nat.zero_add] at hfill
  obtain ⟨fL2, fvs, fva, fvr, fw, fq⟩ := hfill
  have hWpos : 0 < l.m_window.m_max := by omega
  have fst : (sendAll l calls).2.m_state = .Established :=
    (congrArg ISDNLayer2.m_state fL2).trans hst
  have fnet : (sendAll l calls).2.m_network = l.m_network := congrArg ISDNLayer2.m_network fL2
  have fsapi : (sendAll l calls).2.m_sapi = l.m_sapi := congrArg ISDNLayer2.m_sapi fL2
  have ftei : (sendAll l calls).2.m_tei = l.m_tei := congrArg ISDNLayer2.m_tei fL2
  have fmax : (sendAll l calls).2.m_maxUserData = l.m_maxUserData :=
    congrArg ISDNLayer2.m_maxUserData fL2
  have hbetween : Modulo128.between f.m_nr (sendAll l calls).2.m_va (sendAll l calls).2.m_vs
      = true := by
    rw [hnr, fva, fvs, hva]
    exact between_next _ _ hvs hW
  have hrr := core_receivedPacket_RR e2 (sendAll l calls).2 rr f fst (by rw [fnet]; exact hparse)
    hRR (by rw [fsapi]; exact hsapi) (by rw [ftei]; exact htei) hbetween
    (by rw [fmax]; exact hdata)
  have hrange : List.range l.m_window.m_max =
      0 :: (List.range (l.m_window.m_max - 1)).map Nat.succ := by
    have : l.m_window.m_max = (l.m_window.m_max - 1) + 1 := by omega
    rw [this, List.range_succ_eq_map]
    simp
  have fq2 : (sendAll l calls).2.m_outFrames.map (fun f => f.m_ns) =
      l.m_vs % 128 :: (List.range (l.m_window.m_max - 1)).map (fun i => (l.m_vs + (i + 1)) % 128) := by
    rw [fq, hrange, List.map_cons, List.map_map]
    rfl
  have hone := ackLoop_one f.m_nr (sendAll l calls).2.m_window (sendAll l calls).2.m_outFrames
    _ _ fq2 (by rw [hnr, hva]; omega) (by
      rcases Nat.eq_zero_or_pos (l.m_window.m_max - 1) with h0 | hpos
      · left; rw [h0]; rfl
      · right
        have : l.m_window.m_max - 1 = (l.m_window.m_max - 1 - 1) + 1 := by omega
        rw [this, List.range_succ_eq_map, hnr, hva]
        simp)
  rw [hone.2.1, hone.2.2, fw] at hrr
  simp only [core, Prod.mk.injEq] at hrr
  obtain ⟨rL2, rvs, rva, rvr, rw2, rq⟩ := hrr
  have rst : (receivedPacket e2 (sendAll l calls).2 rr).2.m_state = .Established :=
    (congrArg ISDNLayer2.m_state rL2).trans fst
  have rtei : (receivedPacket e2 (sendAll l calls).2 rr).2.m_teiAssigned = true :=
    ((congrArg ISDNLayer2.m_teiAssigned rL2).trans (congrArg ISDNLayer2.m_teiAssigned fL2)).trans ht
  have hdec : ({ m_max := l.m_window.m_max, m_count := l.m_window.m_max } : SignallingCounter).dec =
      { m_max := l.m_window.m_max, m_count := l.m_window.m_max - 1 } := by
    simp [SignallingCounter.dec, SignallingCounter.empty]
    omega
  rw [hdec] at rw2
  have hc3 : (receivedPacket e2 (sendAll l calls).2 rr).2.m_window.m_count ≠
      (receivedPacket e2 (sendAll l calls).2 rr).2.m_window.m_max := by
    rw [rw2]; simp only; omega
  obtain ⟨s1, s2⟩ := core_sendData e3 _ d3 hd3 rtei (by rw [rst]; decide) hc3
  simp only [core, Prod.mk.injEq] at s2
  obtain ⟨-, -, -, -, sw, -⟩ := s2
  refine ⟨by rw [hres, hcalls], by rw [fw], ?_, by rw [rw2], by rw [rw2], ?_, rst, s1, ?_⟩
  · exact sendData_full e1 _ d1 (by rw [fw])
  · rw [rq, fq2]; rfl
  · rw [sendData_full e4 _ d4 (by rw [sw, rw2]; simp only; omega)]

theorem window_fill_and_release_witness :
    (sendAll (establishedLink defaultParams) (payloads 7)).1 = List.replicate 7 true ∧
    (receivedPacket quietEnv (sendAll (establishedLink defaultParams) (payloads 7)).2
      [0x00, 0x01, 0x01, 0x02]).2.m_window.m_count = 7 - 1 :=
  have h := window_fill_and_release (establishedLink defaultParams) (payloads 7)
    quietEnv quietEnv quietEnv quietEnv [8] [9] [10] [0x00, 0x01, 0x01, 0x02]
    (ISDNFrame.control .RR false true 0 0 false 1)
    (by decide) (by decide) (by decide) (by decide) (by decide) (by decide) (by decide)
    (by decide) (by decide) (by decide) (by decide) (by decide) (by decide) (by decide)
    (by decide) (by decide)
  ⟨h.1, h.2.2.2.1⟩

/-- C6 fails on the code at the input of Scenario 2: on the link of Scenario 1
with the default window of 7, after 7 accepted `sendData` calls, the RR with
N(R) = 1 (octets 00 01 01 02) and one more `sendData`, the link is Established
with V(S) = 8 and V(A) = 0, and (V(S) - V(A)) mod 128 = 8 exceeds the window
maximum 7. -/
theorem window_invariant_broken_by_RR :
    (sendData quietEnv (receivedPacket quietEnv
      (sendAll (establishedLink defaultParams) (payloads 7)).2
      [0x00, 0x01, 0x01, 0x02]).2 [8] true).2.m_state = .Established ∧
    (sendData quietEnv (receivedPacket quietEnv
      (sendAll (establishedLink defaultParams) (payloads 7)).2
      [0x00, 0x01, 0x01, 0x02]).2 [8] true).2.m_vs = 8 ∧
    (sendData quietEnv (receivedPacket quietEnv
      (sendAll (establishedLink defaultParams) (payloads 7)).2
      [0x00, 0x01, 0x01, 0x02]).2 [8] true).2.m_va = 0 ∧
    (sendData quietEnv (receivedPacket quietEnv
      (sendAll (establishedLink defaultParams) (payloads 7)).2
      [0x00, 0x01, 0x01, 0x02]).2 [8] true).2.m_window.m_max = 7 ∧
    ¬ ((sendData quietEnv (receivedPacket quietEnv
        (sendAll (establishedLink defaultParams) (payloads 7)).2
        [0x00, 0x01, 0x01, 0x02]).2 [8] true).2.m_vs + 128 -
      (sendData quietEnv (receivedPacket quietEnv
        (sendAll (establishedLink defaultParams) (payloads 7)).2
        [0x00, 0x01, 0x01, 0x02]).2 [8] true).2.m_va) % 128 ≤
      (sendData quietEnv (receivedPacket quietEnv
        (sendAll (establishedLink defaultParams) (payloads 7)).2
        [0x00, 0x01, 0x01, 0x02]).2 [8] true).2.m_window.m_max := by
  decide

end ISDNQ921

/-! ## Retry exhaustion -/

namespace ISDNQ921

/-- A T200 expiry in WaitEstablish before the retransmission counter is full:
SABME is sent again, the counter incremented and T200 restarted. -/
theorem timerTick_retransmit (e : Env) (l : ISDNQ921) (when : Nat)
    (hst : l.m_state = .WaitEstablish)
    (hrun : 0 < l.m_retransTimer.m_timeout) (hexp : l.m_retransTimer.m_timeout < when)
    (hn : l.m_n200.m_count ≠ l.m_n200.m_max) :
    timerTick e l when =
      { l with
        txLog := l.txLog ++
          [(ISDNFrame.control .SABME true l.m_network l.m_sapi l.m_tei true 0).m_buffer],
        m_txFrames :=
          if e.transmit l.txLog.length
              (ISDNFrame.control .SABME true l.m_network l.m_sapi l.m_tei true 0).m_buffer
          then inc32 l.m_txFrames else l.m_txFrames,
        m_txFailFrames :=
          if e.transmit l.txLog.length
              (ISDNFrame.control .SABME true l.m_network l.m_sapi l.m_tei true 0).m_buffer
          then l.m_txFailFrames else inc32 l.m_txFailFrames,
        m_errorSend := !e.transmit l.txLog.length
          (ISDNFrame.control .SABME true l.m_network l.m_sapi l.m_tei true 0).m_buffer,
        m_n200 := { m_max := l.m_n200.m_max, m_count := l.m_n200.m_count + 1 },
        m_idleTimer := l.m_idleTimer.stop,
        m_retransTimer := l.m_retransTimer.start when } := by
  have hstarted : l.m_retransTimer.started = true := by
    simp [SignallingTimer.started, hrun]
  have htime : l.m_retransTimer.timeout when = true := by
    simp [SignallingTimer.timeout, hstarted, hexp]
  have hw : when ≠ 0 := by omega
  unfold timerTick
  simp [hst, hstarted, htime, SignallingCounter.full, SignallingCounter.maxVal, hn,
    sendUFrame, sendFrame_valid, FrameType.valid, ISDNFrame.control, ISDNFrame.crMask,
    timer_start, hw, SignallingCounter.inc]

theorem changeState_eq (l : ISDNQ921) (s : State) :
    changeState l s = { l with m_state := if l.m_teiAssigned then s else l.m_state } := by
  obtain ⟨⟨st, _, _, _, _, ta, _, _, _⟩, _⟩ := l
  unfold changeState
  cases ta
  · simp
  · by_cases h2 : st = s
    · simp [h2]
    · simp [h2]

theorem released_autoRestart (e : Env) (l : ISDNQ921) (c : UpCall) :
    (upcall (changeState (reset e l) .Released) c).m_autoRestart = l.m_autoRestart := by
  simp [upcall, changeState_eq, reset_eq]

/-- A T200 expiry with the retransmission counter full: the link is reset and
released, Layer 3 told, and establishment restarted if so configured. -/
theorem timerTick_release (e : Env) (l : ISDNQ921) (when : Nat)
    (hst : l.m_state ≠ .Released)
    (hrun : 0 < l.m_retransTimer.m_timeout) (hexp : l.m_retransTimer.m_timeout < when)
    (hn : l.m_n200.m_count = l.m_n200.m_max) :
    timerTick e l when =
      if l.m_autoRestart then
        (multipleFrame e (upcall (changeState (reset e l) .Released)
          (.multipleFrameReleased false true)) true false).2
      else upcall (changeState (reset e l) .Released) (.multipleFrameReleased false true) := by
  have hstarted : l.m_retransTimer.started = true := by
    simp [SignallingTimer.started, hrun]
  have htime : l.m_retransTimer.timeout when = true := by
    simp [SignallingTimer.timeout, hstarted, hexp]
  have hfull : l.m_n200.full = true := by
    simp [SignallingCounter.full, SignallingCounter.maxVal, hn]
  unfold timerTick
  simp only [hst, hstarted, htime, hfull, Bool.not_true, Bool.false_and, Bool.false_eq_true,
    if_false, if_true, released_autoRestart]

theorem expiring_append (fire interval : Nat) (ticks : List (Env × Nat)) (c : Env × Nat) :
    expiring fire interval (ticks ++ [c]) =
      (expiring fire interval ticks && decide (fireTime fire interval ticks < c.2)) := by
  induction ticks generalizing fire with
  | nil => simp [expiring, fireTime]
  | cons d rest ih => simp [expiring, fireTime, ih, Bool.and_assoc]

/-- Link after `multipleFrame(true,false)` called in Released state. -/
theorem multipleFrame_establish (e : Env) (l : ISDNQ921) (hst : l.m_state = .Released)
    (hassigned : l.m_teiAssigned = true) :
    multipleFrame e l true false =
      (e.transmit l.txLog.length
          (ISDNFrame.control .SABME true l.m_network l.m_sapi l.m_tei true 0).m_buffer,
       { l with
         m_state := .WaitEstablish,
         m_remoteBusy := false, m_timerRecovery := false, m_rejectSent := false,
         m_lastPFBit := false, m_n200 := l.m_n200.reset, m_window := l.m_window.reset,
         m_retransTimer := l.m_retransTimer.stop.start e.now,
         m_idleTimer := l.m_idleTimer.stop,
         m_outFrames := [], m_va := 0, m_vs := 0, m_vr := 0,
         txLog := l.txLog ++
           [(ISDNFrame.control .SABME true l.m_network l.m_sapi l.m_tei true 0).m_buffer],
         m_txFrames :=
           if e.transmit l.txLog.length
               (ISDNFrame.control .SABME true l.m_network l.m_sapi l.m_tei true 0).m_buffer
           then inc32 l.m_txFrames else l.m_txFrames,
         m_txFailFrames :=
           if e.transmit l.txLog.length
               (ISDNFrame.control .SABME true l.m_network l.m_sapi l.m_tei true 0).m_buffer
           then l.m_txFailFrames else inc32 l.m_txFailFrames,
         m_errorSend := !e.transmit l.txLog.length
           (ISDNFrame.control .SABME true l.m_network l.m_sapi l.m_tei true 0).m_buffer }) := by
  simp only [multipleFrame, hst]
  simp [sendUFrame, sendFrame_valid, FrameType.valid, ISDNFrame.control, ISDNFrame.crMask,
    changeState, reset_eq, timer_start, hassigned, hst]

/-- Expiries of T200 in WaitEstablish while the retransmission counter has room
for them: each sends SABME again and restarts T200. -/
theorem tickAll_retransmit (ticks : List (Env × Nat)) :
    ∀ (l : ISDNQ921), l.m_state = .WaitEstablish → l.m_retransTimer.m_interval ≠ 0 →
      0 < l.m_retransTimer.m_timeout →
      expiring l.m_retransTimer.m_timeout l.m_retransTimer.m_interval ticks = true →
      l.m_n200.m_count + ticks.length ≤ l.m_n200.m_max →
      (tickAll l ticks).toISDNLayer2 = l.toISDNLayer2 ∧
      (tickAll l ticks).m_n200 =
        { m_max := l.m_n200.m_max, m_count := l.m_n200.m_count + ticks.length } ∧
      (tickAll l ticks).txLog = l.txLog ++ List.replicate ticks.length
        (ISDNFrame.control .SABME true l.m_network l.m_sapi l.m_tei true 0).m_buffer ∧
      (tickAll l ticks).upLog = l.upLog ∧
      (tickAll l ticks).m_retransTimer =
        { m_interval := l.m_retransTimer.m_interval,
          m_timeout := fireTime l.m_retransTimer.m_timeout l.m_retransTimer.m_interval ticks } ∧
      0 < (tickAll l ticks).m_retransTimer.m_timeout := by
  induction ticks with
  | nil =>
    intro l _ _ hrun _ _
    simp [tickAll, fireTime, hrun]
  | cons c rest ih =>
    intro l hst hI hrun hexp hroom
    simp only [expiring, Bool.and_eq_true, decide_eq_true_eq] at hexp
    simp only [List.length_cons] at hroom
    have hstep := timerTick_retransmit c.1 l c.2 hst hrun hexp.1 (by omega)
    have hT : l.m_retransTimer.start c.2 =
        { m_interval := l.m_retransTimer.m_interval,
          m_timeout := c.2 + l.m_retransTimer.m_interval } := by
      simp [SignallingTimer.start, hI]
    rw [hT] at hstep
    have hih := ih (timerTick c.1 l c.2) (by rw [hstep]; exact hst) (by rw [hstep]; exact hI)
      (by rw [hstep]; simp only; omega) (by rw [hstep]; exact hexp.2)
      (by rw [hstep]; simp only; omega)
    rw [hstep] at hih
    simp only [tickAll, hstep]
    obtain ⟨h1, h2, h3, h4, h5, h6⟩ := hih
    refine ⟨h1, ?_, ?_, h4, ?_, h6⟩
    · rw [h2]; simp only [List.length_cons, SignallingCounter.mk.injEq, true_and]; omega
    · rw [h3]; simp [List.replicate_succ]
    · rw [h5]; simp [fireTime]

end ISDNQ921

namespace ISDNQ921

theorem expiring_take (fire interval : Nat) (a b : List (Env × Nat)) :
    expiring fire interval (a ++ b) = true → expiring fire interval a = true := by
  induction a generalizing fire with
  | nil => intro _; rfl
  | cons d rest ih =>
    simp only [List.cons_append, expiring, Bool.and_eq_true, decide_eq_true_eq]
    intro h
    exact ⟨h.1, ih _ h.2⟩

theorem tickAll_append (l : ISDNQ921) (a : List (Env × Nat)) (c : Env × Nat) :
    tickAll l (a ++ [c]) = timerTick c.1 (tickAll l a) c.2 := by
  induction a generalizing l with
  | nil => rfl
  | cons d rest ih => simp [tickAll, ih]

/-- C11 as stated fails: on the link of the default configuration with automatic
re-establishment off, put into WaitEstablish at time 5000 (T200 fires at 6000),
the third consecutive T200 expiry (ticks at 7000, 9000, 11000) leaves the link
in WaitEstablish with nothing delivered to Layer 3, SABME having been sent four
times; it is the fourth expiry (tick at 13000) that releases the link. -/
theorem retry_exhaustion_counterexample :
    (tickAll (multipleFrame quietEnv (new noRestartParams) true false).2
      [(quietAt 7000, 7000), (quietAt 9000, 9000), (quietAt 11000, 11000)]).m_state
        = .WaitEstablish ∧
    (tickAll (multipleFrame quietEnv (new noRestartParams) true false).2
      [(quietAt 7000, 7000), (quietAt 9000, 9000), (quietAt 11000, 11000)]).upLog = [] ∧
    (tickAll (multipleFrame quietEnv (new noRestartParams) true false).2
      [(quietAt 7000, 7000), (quietAt 9000, 9000), (quietAt 11000, 11000)]).txLog =
        [[0x00, 0x01, 0x7f], [0x00, 0x01, 0x7f], [0x00, 0x01, 0x7f], [0x00, 0x01, 0x7f]] ∧
    (tickAll (multipleFrame quietEnv (new noRestartParams) true false).2
      [(quietAt 7000, 7000), (quietAt 9000, 9000), (quietAt 11000, 11000),
       (quietAt 13000, 13000)]).m_state = .Released ∧
    (tickAll (multipleFrame quietEnv (new noRestartParams) true false).2
      [(quietAt 7000, 7000), (quietAt 9000, 9000), (quietAt 11000, 11000),
       (quietAt 13000, 13000)]).upLog = [.multipleFrameReleased false true] := by
  decide

/-- C11 (amended): retry exhaustion (Scenario 4). For a link put into
WaitEstablish by `multipleFrame(true,false)` that receives no frame, each of the
first N200 consecutive T200 expiries (3 by default) retransmits SABME with P=1,
restarts T200 and leaves the state WaitEstablish with nothing delivered to
Layer 3; the expiry after them, the (N200+1)-th, resets the link, forces it to
Released and delivers `multipleFrameReleased(false, true)`: the link stays
Released with T200 stopped when auto-restart is off, and is put into
WaitEstablish again by a new SABME when it is on. -/
theorem retry_exhaustion (e0 : Env) (l : ISDNQ921) (ticks : List (Env × Nat))
    (last : Env × Nat) (k : Nat)
    (hst : l.m_state = .Released) (hassigned : l.m_teiAssigned = true)
    (hI : l.m_retransTimer.m_interval ≠ 0)
    (hlen : ticks.length = l.m_n200.m_max)
    (hexp : expiring (e0.now + l.m_retransTimer.m_interval) l.m_retransTimer.m_interval
      (ticks ++ [last]) = true)
    (hk : k ≤ ticks.length) :
    (tickAll (multipleFrame e0 l true false).2 (ticks.take k)).m_state = .WaitEstablish ∧
    (tickAll (multipleFrame e0 l true false).2 (ticks.take k)).txLog =
      l.txLog ++ List.replicate (k + 1)
        (ISDNFrame.control .SABME true l.m_network l.m_sapi l.m_tei true 0).m_buffer ∧
    (tickAll (multipleFrame e0 l true false).2 (ticks.take k)).upLog = l.upLog ∧
    (tickAll (multipleFrame e0 l true false).2 (ticks.take k)).m_retransTimer.started = true ∧
    (tickAll (multipleFrame e0 l true false).2 (ticks.take k)).m_n200.m_count = k ∧
    (tickAll (multipleFrame e0 l true false).2 (ticks ++ [last])).upLog =
      l.upLog ++ [.multipleFrameReleased false true] ∧
    (l.m_autoRestart = false →
      (tickAll (multipleFrame e0 l true false).2 (ticks ++ [last])).m_state = .Released ∧
      (tickAll (multipleFrame e0 l true false).2 (ticks ++ [last])).txLog =
        l.txLog ++ List.replicate (l.m_n200.m_max + 1)
          (ISDNFrame.control .SABME true l.m_network l.m_sapi l.m_tei true 0).m_buffer ∧
      (tickAll (multipleFrame e0 l true false).2 (ticks ++ [last])).m_retransTimer.started
        = false) ∧
    (l.m_autoRestart = true →
      (tickAll (multipleFrame e0 l true false).2 (ticks ++ [last])).m_state = .WaitEstablish ∧
      (tickAll (multipleFrame e0 l true false).2 (ticks ++ [last])).txLog =
        l.txLog ++ List.replicate (l.m_n200.m_max + 2)
          (ISDNFrame.control .SABME true l.m_network l.m_sapi l.m_tei true 0).m_buffer) := by
  have hmf := multipleFrame_establish e0 l hst hassigned
  have hT : l.m_retransTimer.stop.start e0.now =
      { m_interval := l.m_retransTimer.m_interval,
        m_timeout := e0.now + l.m_retransTimer.m_interval } := by
    simp [SignallingTimer.start, SignallingTimer.stop, hI]
  rw [hT] at hmf
  have f1 : (multipleFrame e0 l true false).2.m_state = .WaitEstablish := by rw [hmf]
  have f2 : (multipleFrame e0 l true false).2.m_retransTimer =
      { m_interval := l.m_retransTimer.m_interval,
        m_timeout := e0.now + l.m_retransTimer.m_interval } := by rw [hmf]
  have f3 : (multipleFrame e0 l true false).2.m_n200 =
      { m_max := l.m_n200.m_max, m_count := 0 } := by rw [hmf]; rfl
  have f4 : (multipleFrame e0 l true false).2.txLog = l.txLog ++
      [(ISDNFrame.control .SABME true l.m_network l.m_sapi l.m_tei true 0).m_buffer] := by
    rw [hmf]
  have f5 : (multipleFrame e0 l true false).2.upLog = l.upLog := by rw [hmf]
  have f6 : (multipleFrame e0 l true false).2.m_network = l.m_network ∧
      (multipleFrame e0 l true false).2.m_sapi = l.m_sapi ∧
      (multipleFrame e0 l true false).2.m_tei = l.m_tei ∧
      (multipleFrame e0 l true false).2.m_autoRestart = l.m_autoRestart ∧
      (multipleFrame e0 l true false).2.m_teiAssigned = true := by
    rw [hmf]; exact ⟨rfl, rfl, rfl, rfl, hassigned⟩
  obtain ⟨g1, g2, g3, g4, g5⟩ := f6
  have hall := fun (ts : List (Env × Nat))
      (hx : expiring (e0.now + l.m_retransTimer.m_interval) l.m_retransTimer.m_interval ts = true)
      (hr : ts.length ≤ l.m_n200.m_max) =>
    tickAll_retransmit ts (multipleFrame e0 l true false).2 f1
      (by rw [f2]; exact hI) (by rw [f2]; simp only; omega) (by rw [f2]; exact hx)
      (by rw [f3]; simp only; omega)
  have hexpT := expiring_take _ _ _ _ hexp
  have hexpK : expiring (e0.now + l.m_retransTimer.m_interval) l.m_retransTimer.m_interval
      (ticks.take k) = true := by
    apply expiring_take _ _ (ticks.take k) (ticks.drop k)
    rw [List.take_append_drop]; exact hexpT
  have hlenK : (ticks.take k).length = k := by simp [List.length_take]; omega
  obtain ⟨a1, a2, a3, a4, a5, a6⟩ := hall (ticks.take k) hexpK (by omega)
  obtain ⟨b1, b2, b3, b4, b5, b6⟩ := hall ticks hexpT (by omega)
  rw [f3, hlenK] at a2
  rw [f3, hlen] at b2
  rw [f4, g1, g2, g3, hlenK] at a3
  rw [f4, g1, g2, g3, hlen] at b3
  have bst : (tickAll (multipleFrame e0 l true false).2 ticks).m_state = .WaitEstablish :=
    (congrArg ISDNLayer2.m_state b1).trans f1
  have bauto : (tickAll (multipleFrame e0 l true false).2 ticks).m_autoRestart = l.m_autoRestart :=
    (congrArg ISDNLayer2.m_autoRestart b1).trans g4
  have bnet := (congrArg ISDNLayer2.m_network b1).trans g1
  have bsapi := (congrArg ISDNLayer2.m_sapi b1).trans g2
  have btei := (congrArg ISDNLayer2.m_tei b1).trans g3
  have bass := (congrArg ISDNLayer2.m_teiAssigned b1).trans g5
  have hlast : fireTime (e0.now + l.m_retransTimer.m_interval) l.m_retransTimer.m_interval ticks
      < last.2 := by
    rw [expiring_append] at hexp
    simp only [Bool.and_eq_true, decide_eq_true_eq] at hexp
    exact hexp.2
  have hrel := timerTick_release last.1 (tickAll (multipleFrame e0 l true false).2 ticks) last.2
    (by rw [bst]; decide) b6 (by rw [b5, f2]; exact hlast) (by rw [b2]; simp)
  rw [tickAll_append, hrel, bauto]
  refine ⟨(congrArg ISDNLayer2.m_state a1).trans f1, ?_, a4.trans f5, ?_, ?_, ?_, ?_, ?_⟩
  · rw [a3, List.append_assoc, List.replicate_succ]; rfl
  · simp [SignallingTimer.started, a6]
  · rw [a2]; simp
  · cases hauto : l.m_autoRestart
    · simp [upcall, changeState_eq, reset_eq, b4, f5]
    · simp only [if_true]
      rw [multipleFrame_establish _ _ (by simp [upcall, changeState_eq, reset_eq, bass])
        (by simp [upcall, changeState_eq, reset_eq, bass])]
      simp [upcall, changeState_eq, reset_eq, b4, f5]
  · intro hauto
    simp only [hauto, Bool.false_eq_true, if_false]
    refine ⟨by simp [upcall, changeState_eq, reset_eq, bass], ?_, ?_⟩
    · simp only [upcall, changeState_eq, reset_eq, b3]
      rw [List.append_assoc, List.replicate_succ]; rfl
    · simp [upcall, changeState_eq, reset_eq, SignallingTimer.stop, SignallingTimer.started]
  · intro hauto
    simp only [hauto, if_true]
    rw [multipleFrame_establish _ _ (by simp [upcall, changeState_eq, reset_eq, bass])
      (by simp [upcall, changeState_eq, reset_eq, bass])]
    refine ⟨rfl, ?_⟩
    simp only [upcall, changeState_eq, reset_eq, b3, bnet, bsapi, btei]
    rw [List.append_assoc, List.append_assoc, List.replicate_succ, List.replicate_succ]
    simp only [List.singleton_append, List.cons_append, List.append_cancel_left_eq,
      List.cons.injEq, true_and]
    rw [← List.replicate_succ, List.replicate_succ']
    simp

theorem retry_exhaustion_witness :
    (tickAll (multipleFrame quietEnv (new noRestartParams) true false).2
      ([(quietAt 7000, 7000), (quietAt 9000, 9000), (quietAt 11000, 11000)] ++
        [(quietAt 13000, 13000)])).upLog =
      (new noRestartParams).upLog ++ [.multipleFrameReleased false true] :=
  (retry_exhaustion quietEnv (new noRestartParams)
    [(quietAt 7000, 7000), (quietAt 9000, 9000), (quietAt 11000, 11000)]
    (quietAt 13000, 13000) 3 (by decide) (by decide) (by decide) (by decide) (by decide)
    (by decide)).2.2.2.2.2.1

end ISDNQ921

/-! ## Requests of Layer 3 while establishing or released -/

namespace ISDNQ921

/-- C12: idempotence of `multipleFrame` while establishing. For a link in
WaitEstablish, `multipleFrame(establish=true, force=false)` returns false and
leaves the link, its transmit log included, exactly as it was, so calling it
twice leaves the link as calling it zero times. -/
theorem multipleFrame_idempotent (e1 e2 : Env) (l : ISDNQ921)
    (hst : l.m_state = .WaitEstablish) :
    multipleFrame e1 l true false = (false, l) ∧
    multipleFrame e2 (multipleFrame e1 l true false).2 true false = (false, l) := by
  have h : ∀ e, multipleFrame e l true false = (false, l) := by
    intro e
    simp [multipleFrame, hst]
  rw [h e1]
  exact ⟨rfl, h e2⟩

theorem multipleFrame_idempotent_witness :
    multipleFrame quietEnv (multipleFrame quietEnv (new defaultParams) true false).2 true false =
      (false, (multipleFrame quietEnv (new defaultParams) true false).2) :=
  (multipleFrame_idempotent quietEnv quietEnv
    (multipleFrame quietEnv (new defaultParams) true false).2 (by decide)).1

/-- C13 as stated fails for `force = false`: on the freshly constructed link,
which is Released, `multipleFrame(false, false)` returns false and calls
nothing on Layer 3. -/
theorem release_when_released_counterexample :
    (multipleFrame quietEnv (new defaultParams) false false).1 = false ∧
    (multipleFrame quietEnv (new defaultParams) false false).2.upLog = [] ∧
    (new defaultParams).m_state = .Released := by
  decide

/-- C13 (amended): release request on an already disconnected link. For a link
in Released state `multipleFrame(establish=false, force=true)` transmits
nothing, leaves the state Released, delivers an immediate
`multipleFrameReleased(true, false)` to Layer 3 and returns true, changing
nothing else; with `force=false` the request returns false and does nothing. -/
theorem release_when_released (e : Env) (l : ISDNQ921) (hst : l.m_state = .Released) :
    multipleFrame e l false true =
      (true, { l with upLog := l.upLog ++ [.multipleFrameReleased true false] }) ∧
    multipleFrame e l false false = (false, l) := by
  constructor
  · simp [multipleFrame, hst, upcall]
  · simp [multipleFrame, hst]

theorem release_when_released_witness :
    multipleFrame quietEnv (new defaultParams) false true =
      (true, { new defaultParams with
        upLog := (new defaultParams).upLog ++ [.multipleFrameReleased true false] }) :=
  (release_when_released quietEnv (new defaultParams) (by decide)).1

end ISDNQ921

/-! ## Acceptance: reject, drop, re-establish -/

/-- The errors a frame can carry out of the parser. -/
theorem ISDNFrame.parse_error_range (data : DataBlock) (r : Option Bool) (f : ISDNFrame)
    (h : ISDNFrame.parse data r = some f) :
    f.m_error.valid = true ∨ f.m_error = .ErrInvalidEA ∨ f.m_error = .ErrHdrLength ∨
      f.m_error = .ErrUnknownCR := by
  cases r with
  | none => simp [ISDNFrame.parse] at h
  | some network =>
    simp only [ISDNFrame.parse, ISDNFrame.undefined] at h
    split_ifs at h
    · cases h; simp
    · cases h; simp
    · cases hu : ISDNFrame.uType (data.getD 2 0 &&& ISDNFrame.Q921FRAME_U_RESET_PF) with
      | none => simp only [hu] at h; cases h; simp
      | some p =>
        obtain ⟨t, c⟩ := p
        have hv := (ISDNFrame.uType_facts _ _ _ hu).1
        simp only [hu] at h; cases h; simp [hv]
    · cases hu : ISDNFrame.sType (data.getD 2 0) with
      | none => simp only [hu] at h; cases h; simp
      | some p =>
        obtain ⟨t, c⟩ := p
        have hv := (ISDNFrame.sType_facts _ _ _ hu).1
        simp only [hu] at h; cases h; simp [hv]
    · cases h; simp [FrameType.valid]

namespace ISDNQ921

/-- The error `acceptCheck` sets is never one of the parser's errors. -/
theorem acceptCheck_cases (l : ISDNQ921) (f : ISDNFrame) :
    acceptCheck l f = .ErrInvalidAddress ∨ acceptCheck l f = .ErrTxSeqNo ∨
    acceptCheck l f = .ErrInvalidCR ∨ acceptCheck l f = .ErrUnsupported ∨
    (acceptCheck l f = .ErrRxSeqNo ∧ f.m_nr < 128 ∧
      Modulo128.between f.m_nr l.m_va l.m_vs = false) ∨
    (acceptCheck l f = .ErrDataLength ∧ l.m_maxUserData < f.m_dataLength) ∨
    acceptCheck l f = f.m_error := by
  unfold acceptCheck
  split_ifs with h1 h2 h3 h4 h5 h6 <;> simp_all

/-- C14: acceptance rule, reject versus drop. For every frame `f` that came out
of the parser and every link, `acceptFrame` signals reject exactly when the
state is Established and the error the frame ends with is ErrUnknownCR,
ErrRxSeqNo or ErrDataLength; ErrRxSeqNo means an N(R) below 128 that is not
within [V(A), V(S)] modulo 128, and ErrDataLength a payload longer than
maxUserData; a rejected frame is not accepted; and a frame neither accepted
nor rejected leaves the link unchanged but for the received-frame counter and
the dropped-frame counter, which grows by exactly 1 (the 32-bit counter being
below its maximum). -/
theorem acceptFrame_reject_or_drop (l : ISDNQ921) (data : DataBlock) (f : ISDNFrame)
    (hparse : ISDNFrame.parse data (some l.m_network) = some f)
    (hcnt : l.m_rxDroppedFrames + 1 < 4294967296) :
    ((acceptFrame l f).1.2 = true ↔
      (l.m_state = .Established ∧
        ((acceptFrame l f).2.1.m_error = .ErrUnknownCR ∨
         (acceptFrame l f).2.1.m_error = .ErrRxSeqNo ∨
         (acceptFrame l f).2.1.m_error = .ErrDataLength))) ∧
    ((acceptFrame l f).2.1.m_error = .ErrRxSeqNo →
      f.m_nr < 128 ∧ Modulo128.between f.m_nr l.m_va l.m_vs = false) ∧
    ((acceptFrame l f).2.1.m_error = .ErrDataLength → l.m_maxUserData < f.m_dataLength) ∧
    ((acceptFrame l f).1.2 = true → (acceptFrame l f).1.1 = false) ∧
    ((acceptFrame l f).1.1 = false → (acceptFrame l f).1.2 = false →
      (acceptFrame l f).2.2 =
        { l with m_rxFrames := inc32 l.m_rxFrames,
                 m_rxDroppedFrames := l.m_rxDroppedFrames + 1 }) := by
  have hdrop : inc32 l.m_rxDroppedFrames = l.m_rxDroppedFrames + 1 := by
    unfold inc32
    exact Nat.mod_eq_of_lt hcnt
  have hrange := ISDNFrame.parse_error_range data _ f hparse
  by_cases hv : f.m_error.valid = true
  · rcases acceptCheck_cases { l with m_rxFrames := inc32 l.m_rxFrames } f with
      h | h | h | h | ⟨h, h1, h2⟩ | ⟨h, h1⟩ | h
    · simp only [acceptFrame, hv, if_true, h]
      simp [FrameType.valid, dropFrame, hdrop]
    · simp only [acceptFrame, hv, if_true, h]
      simp [FrameType.valid, dropFrame, hdrop]
    · simp only [acceptFrame, hv, if_true, h]
      simp [FrameType.valid, dropFrame, hdrop]
    · simp only [acceptFrame, hv, if_true, h]
      simp [FrameType.valid, dropFrame, hdrop]
    · have h1' : f.m_nr < 128 := h1
      have h2' : Modulo128.between f.m_nr l.m_va l.m_vs = false := h2
      simp only [acceptFrame, hv, if_true, h]
      by_cases hs : l.m_state = .Established <;>
        simp [FrameType.valid, dropFrame, hdrop, hs, h1', h2']
    · have h1' : l.m_maxUserData < f.m_dataLength := h1
      simp only [acceptFrame, hv, if_true, h]
      by_cases hs : l.m_state = .Established <;>
        simp [FrameType.valid, dropFrame, hdrop, hs, h1']
    · have hne := FrameType.valid_ne_error f.m_error hv
      have hne2 : f.m_error ≠ .ErrRxSeqNo ∧ f.m_error ≠ .ErrDataLength := by
        constructor <;> intro hc <;> rw [hc] at hv <;> simp [FrameType.valid] at hv
      simp only [acceptFrame, hv, if_true, h]
      simp [hv, hne.2.2, hne2.1, hne2.2]
  · have hv' : f.m_error.valid = false := by simpa using hv
    simp only [acceptFrame, hv', Bool.false_eq_true, if_false]
    rcases hrange with h | h | h | h
    · exact absurd h hv
    · simp [h, dropFrame, hdrop]
    · simp [h, dropFrame, hdrop]
    · by_cases hs : l.m_state = .Established <;>
        simp [h, dropFrame, hdrop, hs]

theorem acceptFrame_reject_or_drop_witness :
    (acceptFrame (establishedLink defaultParams)
        (ISDNFrame.build .XID true true 0 0 false 0xFF 0xFF [])).2.2 =
      { establishedLink defaultParams with
        m_rxFrames := inc32 (establishedLink defaultParams).m_rxFrames,
        m_rxDroppedFrames := (establishedLink defaultParams).m_rxDroppedFrames + 1 } :=
  (acceptFrame_reject_or_drop (establishedLink defaultParams) [0x02, 0x01, 0xaf]
    (ISDNFrame.build .XID true true 0 0 false 0xFF 0xFF []) (by decide) (by decide)).2.2.2.2
    (by decide) (by decide)

end ISDNQ921

namespace ISDNQ921

/-- A frame with a foreign address, a role conflict or the XID type is given
one of the three errors that are dropped in every state. -/
theorem acceptCheck_dropped (l : ISDNQ921) (f : ISDNFrame)
    (hcase : f.m_sapi ≠ l.m_sapi ∨ f.m_tei ≠ l.m_tei ∨
      ((f.m_type = .SABME ∨ f.m_type = .DISC) ∧ f.m_command = false) ∨
      ((f.m_type = .UA ∨ f.m_type = .DM) ∧ f.m_command = true) ∨ f.m_type = .XID) :
    acceptCheck l f = .ErrInvalidAddress ∨ acceptCheck l f = .ErrInvalidCR ∨
      acceptCheck l f = .ErrUnsupported := by
  unfold acceptCheck
  split_ifs with h1 h2 h3 h4 h5 h6
  · simp
  · exfalso
    rcases hcase with h | h | h | h | h
    · exact h1 (Or.inl h)
    · exact h1 (Or.inr h)
    · rcases h.1 with h' | h' <;> rw [h'] at h2 <;> exact absurd h2.1 (by decide)
    · rcases h.1 with h' | h' <;> rw [h'] at h2 <;> exact absurd h2.1 (by decide)
    · rw [h] at h2; exact absurd h2.1 (by decide)
  · simp
  · simp
  all_goals
    exfalso
    rcases hcase with h | h | h | h | h
    · exact h1 (Or.inl h)
    · exact h1 (Or.inr h)
    · exact h3 (Or.inl h)
    · exact h3 (Or.inr h)
    · exact h4 h

/-- A frame that is neither accepted nor rejected, with an error other than
ErrTxSeqNo: `receivedPacket` only counts it. -/
theorem receivedPacket_dropped (e : Env) (l : ISDNQ921) (packet : DataBlock) (f : ISDNFrame)
    (hparse : ISDNFrame.parse packet (some l.m_network) = some f)
    (E : FrameType)
    (hE : E = if f.m_error.valid then
      acceptCheck { l with m_errorReceive := false, m_rxFrames := inc32 l.m_rxFrames } f
      else f.m_error)
    (hinv : E.valid = false) (hseq : E ≠ .ErrTxSeqNo)
    (hrej : (E = .ErrUnknownCR ∨ E = .ErrRxSeqNo ∨ E = .ErrDataLength) →
      l.m_state ≠ .Established) :
    receivedPacket e l packet =
      (true, { l with m_errorReceive := false, m_rxFrames := inc32 l.m_rxFrames,
                      m_rxDroppedFrames := inc32 l.m_rxDroppedFrames }) := by
  have hlen : packet.length ≠ 0 := (ISDNFrame.parse_some_facts packet _ f hparse).1
  by_cases hv : f.m_error.valid = true
  · simp only [hv, if_true] at hE
    simp only [receivedPacket, hlen, if_false, hparse, acceptFrame, hv, if_true, ← hE, hinv,
      Bool.false_eq_true]
    by_cases hs : l.m_state = .Established
    · have h1 : E ≠ .ErrUnknownCR := fun h => hrej (Or.inl h) hs
      have h2 : E ≠ .ErrRxSeqNo := fun h => hrej (Or.inr (Or.inl h)) hs
      have h3 : E ≠ .ErrDataLength := fun h => hrej (Or.inr (Or.inr h)) hs
      simp [h1, h2, h3, hseq, dropFrame]
    · simp [hs, hseq, dropFrame]
  · have hv' : f.m_error.valid = false := by simpa using hv
    simp only [hv', Bool.false_eq_true, if_false] at hE
    subst hE
    simp only [receivedPacket, hlen, if_false, hparse, acceptFrame, hv',
      Bool.false_eq_true]
    by_cases hs : l.m_state = .Established
    · have h1 : f.m_error ≠ .ErrUnknownCR := fun h => hrej (Or.inl h) hs
      have h2 : f.m_error ≠ .ErrRxSeqNo := fun h => hrej (Or.inr (Or.inl h)) hs
      have h3 : f.m_error ≠ .ErrDataLength := fun h => hrej (Or.inr (Or.inr h)) hs
      simp [h1, h2, h3, hseq, dropFrame]
    · simp [hs, hseq, dropFrame]

/-- C15 as stated fails: the 3-byte packet `04 01 ff` has valid EA bits and
SAPI 1, which is not the SAPI 0 of the link, but its control octet is an
unknown U codepoint, so the frame is already invalid when `acceptFrame` gets
it, the address is not looked at and the frame is rejected: the Established
link is reset, sends SABME and goes to WaitEstablish. -/
theorem foreign_address_counterexample :
    (ISDNFrame.parse [0x04, 0x01, 0xff] (some (establishedLink defaultParams).m_network)).map
        (fun f => (f.m_sapi, f.m_tei, f.m_error)) = some (1, 0, .ErrUnknownCR) ∧
    (establishedLink defaultParams).m_sapi = 0 ∧
    (establishedLink defaultParams).m_state = .Established ∧
    (receivedPacket quietEnv (establishedLink defaultParams) [0x04, 0x01, 0xff]).2.m_state =
      .WaitEstablish ∧
    (receivedPacket quietEnv (establishedLink defaultParams) [0x04, 0x01, 0xff]).2.txLog =
      (establishedLink defaultParams).txLog ++ [[0x00, 0x01, 0x7f]] := by
  decide

/-- C15 (amended): address, role-conflict and XID frames are dropped, never
rejected, unless the control octet is an unknown codepoint and the link is
Established. For every received packet that parses to a frame whose SAPI or
TEI differs from the values of the link, or that is a SABME/DISC marked as
response, an UA/DM marked as command, or an XID, in every link state, provided
the frame does not carry ErrUnknownCR on an Established link, `receivedPacket`
only counts the frame as received and dropped: the state, V(S), V(A), V(R), the
outgoing queue, the timers and the transmit log are unchanged. -/
theorem dropped_never_rejected (e : Env) (l : ISDNQ921) (packet : DataBlock) (f : ISDNFrame)
    (hparse : ISDNFrame.parse packet (some l.m_network) = some f)
    (hcase : f.m_sapi ≠ l.m_sapi ∨ f.m_tei ≠ l.m_tei ∨
      ((f.m_type = .SABME ∨ f.m_type = .DISC) ∧ f.m_command = false) ∨
      ((f.m_type = .UA ∨ f.m_type = .DM) ∧ f.m_command = true) ∨ f.m_type = .XID)
    (hcr : f.m_error = .ErrUnknownCR → l.m_state ≠ .Established) :
    receivedPacket e l packet =
      (true, { l with m_errorReceive := false, m_rxFrames := inc32 l.m_rxFrames,
                      m_rxDroppedFrames := inc32 l.m_rxDroppedFrames }) := by
  by_cases hv : f.m_error.valid = true
  · have hc := acceptCheck_dropped
      { l with m_errorReceive := false, m_rxFrames := inc32 l.m_rxFrames } f hcase
    refine receivedPacket_dropped e l packet f hparse _ rfl ?_ ?_ ?_
    · rw [if_pos hv]; rcases hc with h | h | h <;> rw [h] <;> rfl
    · rw [if_pos hv]; rcases hc with h | h | h <;> rw [h] <;> decide
    · rw [if_pos hv]
      intro hh
      exfalso
      rcases hc with h | h | h <;> rw [h] at hh <;> simp at hh
  · have hr := ISDNFrame.parse_error_range packet _ f hparse
    have hv' : f.m_error.valid = false := by simpa using hv
    refine receivedPacket_dropped e l packet f hparse _ rfl ?_ ?_ ?_
    · rw [if_neg hv]; exact hv'
    · rw [if_neg hv]
      rcases hr with h | h | h | h
      · exact absurd h hv
      all_goals rw [h]; decide
    · rw [if_neg hv]
      intro hh
      rcases hr with h | h | h | h
      · exact absurd h hv
      · rw [h] at hh; simp at hh
      · rw [h] at hh; simp at hh
      · exact hcr h

theorem dropped_never_rejected_witness :
    receivedPacket quietEnv (establishedLink defaultParams) [0x04, 0x01, 0x7f] =
      (true, { establishedLink defaultParams with
        m_errorReceive := false,
        m_rxFrames := inc32 (establishedLink defaultParams).m_rxFrames,
        m_rxDroppedFrames := inc32 (establishedLink defaultParams).m_rxDroppedFrames }) :=
  dropped_never_rejected quietEnv (establishedLink defaultParams) [0x04, 0x01, 0x7f]
    (ISDNFrame.build .SABME false true 1 0 true 0xFF 0xFF []) (by decide) (by decide) (by decide)

end ISDNQ921

namespace ISDNQ921

/-- Link after the re-establishment sequence shared by the reject path of
`receivedPacket` and by `applyState` for WaitEstablish: reset, change of state,
SABME with P=1, T200 started. -/
theorem reestablish_eq (e : Env) (l : ISDNQ921) (hassigned : l.m_teiAssigned = true) :
    timer e (sendUFrame e (changeState (reset e l) .WaitEstablish) .SABME true true).2
        true false 0 =
      { l with
         m_state := .WaitEstablish,
         m_remoteBusy := false, m_timerRecovery := false, m_rejectSent := false,
         m_lastPFBit := false, m_n200 := l.m_n200.reset, m_window := l.m_window.reset,
         m_retransTimer := l.m_retransTimer.stop.start e.now,
         m_idleTimer := l.m_idleTimer.stop,
         m_outFrames := [], m_va := 0, m_vs := 0, m_vr := 0,
         txLog := l.txLog ++
           [(ISDNFrame.control .SABME true l.m_network l.m_sapi l.m_tei true 0).m_buffer],
         m_txFrames :=
           if e.transmit l.txLog.length
               (ISDNFrame.control .SABME true l.m_network l.m_sapi l.m_tei true 0).m_buffer
           then inc32 l.m_txFrames else l.m_txFrames,
         m_txFailFrames :=
           if e.transmit l.txLog.length
               (ISDNFrame.control .SABME true l.m_network l.m_sapi l.m_tei true 0).m_buffer
           then l.m_txFailFrames else inc32 l.m_txFailFrames,
         m_errorSend := !e.transmit l.txLog.length
           (ISDNFrame.control .SABME true l.m_network l.m_sapi l.m_tei true 0).m_buffer } := by
  simp [sendUFrame, sendFrame_valid, FrameType.valid, ISDNFrame.control, ISDNFrame.crMask,
    changeState_eq, reset_eq, timer_start, hassigned]

/-- A frame that passes the address, sequence, role and type checks but has a
bad N(R) or too much data is rejected on an Established link. -/
theorem acceptFrame_reject (l : ISDNQ921) (f : ISDNFrame)
    (hst : l.m_state = .Established)
    (hv : f.m_error.valid = true)
    (hsapi : f.m_sapi = l.m_sapi) (htei : f.m_tei = l.m_tei)
    (hseq : f.m_type = .I → f.m_ns = l.m_vr)
    (hcr : ¬ (((f.m_type = .SABME ∨ f.m_type = .DISC) ∧ f.m_command = false) ∨
      ((f.m_type = .UA ∨ f.m_type = .DM) ∧ f.m_command = true)))
    (hxid : f.m_type ≠ .XID)
    (hbad : (f.m_nr < 128 ∧ Modulo128.between f.m_nr l.m_va l.m_vs = false) ∨
      l.m_maxUserData < f.m_dataLength) :
    (acceptFrame l f).1 = (false, true) ∧
    (acceptFrame l f).2.2 =
      { l with m_rxFrames := inc32 l.m_rxFrames,
               m_rxRejectedFrames := inc32 l.m_rxRejectedFrames } := by
  have hseq2 : ¬ (f.m_type = .I ∧ f.m_ns ≠ l.m_vr) := fun h => h.2 (hseq h.1)
  have hchk : acceptCheck { l with m_rxFrames := inc32 l.m_rxFrames } f = .ErrRxSeqNo ∨
      acceptCheck { l with m_rxFrames := inc32 l.m_rxFrames } f = .ErrDataLength := by
    unfold acceptCheck
    rw [if_neg (by simp [hsapi, htei]), if_neg hseq2, if_neg hcr, if_neg hxid]
    by_cases h5 : f.m_nr < 128 ∧ Modulo128.between f.m_nr l.m_va l.m_vs = false
    · left; rw [if_pos h5]
    · right
      rcases hbad with h | h
      · exact absurd h h5
      · rw [if_neg h5, if_pos h]
  simp only [acceptFrame, hv, if_true]
  rcases hchk with h | h <;> rw [h] <;> simp [FrameType.valid, hst]

/-- C16: re-establishment on an unrecoverable frame. When an Established link
with its TEI assigned receives a packet that parses to an error-free, correctly
addressed frame passing the sequence, role and type checks of `acceptFrame`
(every S frame and every I frame with N(S) = V(R) does) whose N(R) is below 128
and outside [V(A), V(S)] modulo 128, or whose payload exceeds maxUserData, the
link resets (V(S) = V(A) = V(R) = 0, window occupancy 0, outgoing queue empty,
N200 count 0), enters WaitEstablish, transmits a SABME command with P=1 and
starts T200 (its interval not being 0); the upper layer gets neither data nor
a state notification. -/
theorem reestablish_on_unrecoverable_frame (e : Env) (l : ISDNQ921) (packet : DataBlock)
    (f : ISDNFrame)
    (hparse : ISDNFrame.parse packet (some l.m_network) = some f)
    (hst : l.m_state = .Established) (hassigned : l.m_teiAssigned = true)
    (hI : l.m_retransTimer.m_interval ≠ 0)
    (hv : f.m_error.valid = true)
    (hsapi : f.m_sapi = l.m_sapi) (htei : f.m_tei = l.m_tei)
    (hseq : f.m_type = .I → f.m_ns = l.m_vr)
    (hcr : ¬ (((f.m_type = .SABME ∨ f.m_type = .DISC) ∧ f.m_command = false) ∨
      ((f.m_type = .UA ∨ f.m_type = .DM) ∧ f.m_command = true)))
    (hxid : f.m_type ≠ .XID)
    (hbad : (f.m_nr < 128 ∧ Modulo128.between f.m_nr l.m_va l.m_vs = false) ∨
      l.m_maxUserData < f.m_dataLength) :
    (receivedPacket e l packet).2.m_vs = 0 ∧
    (receivedPacket e l packet).2.m_va = 0 ∧
    (receivedPacket e l packet).2.m_vr = 0 ∧
    (receivedPacket e l packet).2.m_window.m_count = 0 ∧
    (receivedPacket e l packet).2.m_outFrames = [] ∧
    (receivedPacket e l packet).2.m_n200.m_count = 0 ∧
    (receivedPacket e l packet).2.m_state = .WaitEstablish ∧
    (receivedPacket e l packet).2.txLog = l.txLog ++
      [(ISDNFrame.control .SABME true l.m_network l.m_sapi l.m_tei true 0).m_buffer] ∧
    (receivedPacket e l packet).2.m_retransTimer.started = true ∧
    (receivedPacket e l packet).2.m_retransTimer.m_timeout =
      e.now + l.m_retransTimer.m_interval ∧
    (receivedPacket e l packet).2.upLog = l.upLog := by
  have hlen : packet.length ≠ 0 := (ISDNFrame.parse_some_facts packet _ f hparse).1
  have hacc := acceptFrame_reject { l with m_errorReceive := false } f hst hv hsapi htei hseq
    hcr hxid hbad
  have hrp : receivedPacket e l packet =
      (true, timer e (sendUFrame e (changeState (reset e
        { l with m_errorReceive := false, m_rxFrames := inc32 l.m_rxFrames,
                 m_rxRejectedFrames := inc32 l.m_rxRejectedFrames }) .WaitEstablish)
          .SABME true true).2 true false 0) := by
    simp only [receivedPacket, hlen, if_false, hparse]
    simp only [hacc.1, hacc.2]
    simp
  rw [hrp, reestablish_eq e
    { l with m_errorReceive := false, m_rxFrames := inc32 l.m_rxFrames,
             m_rxRejectedFrames := inc32 l.m_rxRejectedFrames } hassigned]
  simp [SignallingTimer.start, SignallingTimer.stop, SignallingTimer.started, hI,
    SignallingCounter.reset]
  right
  omega

theorem reestablish_on_unrecoverable_frame_witness :
    (receivedPacket quietEnv (establishedLink defaultParams)
      [0x00, 0x01, 0x01, 0x0a]).2.m_state = .WaitEstablish :=
  (reestablish_on_unrecoverable_frame quietEnv (establishedLink defaultParams)
    [0x00, 0x01, 0x01, 0x0a] (ISDNFrame.build .RR false true 0 0 false 0xFF 5 [])
    (by decide) (by decide) (by decide) (by decide) (by decide) (by decide) (by decide)
    (by decide) (by decide) (by decide) (by decide)).2.2.2.2.2.2.1

end ISDNQ921

/-! ## Supervisory and unnumbered frames -/

namespace ISDNQ921

/-- `processSFrame` returns false on every path. -/
theorem processSFrame_fst (e : Env) (l : ISDNQ921) (f : ISDNFrame) :
    (processSFrame e l f).1 = false := by
  unfold processSFrame
  by_cases h1 : l.m_state ≠ .Established
  · rw [if_pos h1]
  · rw [if_neg h1]
    by_cases h2 : f.m_type = .RR
    · rw [if_pos h2]
    · rw [if_neg h2]
      by_cases h3 : f.m_type = .REJ
      · rw [if_pos h3]
        show (ite _ _ _ : Bool × ISDNQ921).1 = false
        rw [apply_ite Prod.fst]
        exact ite_self _
      · rw [if_neg h3]
        by_cases h4 : f.m_type = .RNR
        · rw [if_pos h4]
        · rw [if_neg h4]

/-- C18 fails in the code: the link `recoveringLink` is Established and in
timer recovery, its last frame sent being the RR command with P=1; the RR
response with F=1 and N(R)=0 of the peer (octets 00 01 01 01) is accepted and
processed by `receivedPacket` (nothing rejected, nothing dropped), and the
timer-recovery flag is still true afterwards. -/
theorem timer_recovery_kept_after_RR :
    recoveringLink.m_state = .Established ∧
    recoveringLink.m_timerRecovery = true ∧
    recoveringLink.txLog.getLast? = some [0x00, 0x01, 0x01, 0x01] ∧
    ISDNFrame.parse [0x00, 0x01, 0x01, 0x01] (some recoveringLink.m_network) =
      some (ISDNFrame.build .RR false true 0 0 true 0xFF 0 []) ∧
    (acceptFrame recoveringLink (ISDNFrame.build .RR false true 0 0 true 0xFF 0 [])).1 =
      (true, false) ∧
    (receivedPacket (quietAt 18500) recoveringLink [0x00, 0x01, 0x01, 0x01]).1 = true ∧
    (receivedPacket (quietAt 18500) recoveringLink [0x00, 0x01, 0x01, 0x01]).2.m_rxDroppedFrames =
      recoveringLink.m_rxDroppedFrames ∧
    (receivedPacket (quietAt 18500) recoveringLink [0x00, 0x01, 0x01, 0x01]).2.m_state =
      .Established ∧
    (receivedPacket (quietAt 18500) recoveringLink [0x00, 0x01, 0x01, 0x01]).2.m_timerRecovery =
      true := by
  decide

/-- C19 fails in the code: a DM response with F=1 (octets 00 01 1f) received by
an Established link that is not in timer recovery is not dropped, it releases
the link and Layer 3 is told `multipleFrameReleased(true, false)`; received by
a Released link it makes the same call on Layer 3. -/
theorem DM_final_releases_established_link :
    ISDNFrame.parse [0x00, 0x01, 0x1f] (some (establishedLink defaultParams).m_network) =
      some (ISDNFrame.build .DM false true 0 0 true 0xFF 0xFF []) ∧
    (establishedLink defaultParams).m_state = .Established ∧
    (establishedLink defaultParams).m_timerRecovery = false ∧
    (receivedPacket quietEnv (establishedLink defaultParams) [0x00, 0x01, 0x1f]).2.m_state =
      .Released ∧
    (receivedPacket quietEnv (establishedLink defaultParams) [0x00, 0x01, 0x1f]).2.upLog =
      (establishedLink defaultParams).upLog ++ [.multipleFrameReleased true false] ∧
    (receivedPacket quietEnv (establishedLink defaultParams)
      [0x00, 0x01, 0x1f]).2.m_rxDroppedFrames =
      (establishedLink defaultParams).m_rxDroppedFrames ∧
    (new defaultParams).m_state = .Released ∧
    (receivedPacket quietEnv (new defaultParams) [0x00, 0x01, 0x1f]).2.upLog =
      [.multipleFrameReleased true false] ∧
    (receivedPacket quietEnv (new defaultParams) [0x00, 0x01, 0x1f]).2.m_rxDroppedFrames = 0 := by
  decide

end ISDNQ921

/-- A frame the parser found no error in has the type recorded as its error. -/
theorem ISDNFrame.parse_error_type (data : DataBlock) (r : Option Bool) (f : ISDNFrame)
    (h : ISDNFrame.parse data r = some f) (hv : f.m_error.valid = true) :
    f.m_type = f.m_error := by
  cases r with
  | none => simp [ISDNFrame.parse] at h
  | some network =>
    simp only [ISDNFrame.parse, ISDNFrame.undefined] at h
    split_ifs at h
    · cases h; simp [FrameType.valid] at hv
    · cases h; simp [FrameType.valid] at hv
    · cases hu : ISDNFrame.uType (data.getD 2 0 &&& ISDNFrame.Q921FRAME_U_RESET_PF) with
      | none => simp only [hu] at h; cases h; simp [FrameType.valid] at hv
      | some p =>
        obtain ⟨t, c⟩ := p
        simp only [hu] at h; cases h; rfl
    · cases hu : ISDNFrame.sType (data.getD 2 0) with
      | none => simp only [hu] at h; cases h; simp [FrameType.valid] at hv
      | some p =>
        obtain ⟨t, c⟩ := p
        simp only [hu] at h; cases h; rfl
    · cases h; rfl

namespace ISDNQ921

/-- The checks of `acceptFrame` do not look at the receive-error flag. -/
theorem acceptCheck_errorReceive (l : ISDNQ921) (f : ISDNFrame) (b : Bool) :
    acceptCheck { l with m_errorReceive := b } f = acceptCheck l f := rfl

/-- The checks of `acceptFrame` do not look at the counters. -/
theorem acceptCheck_rxFrames (l : ISDNQ921) (f : ISDNFrame) (n : Nat) :
    acceptCheck { l with m_rxFrames := n } f = acceptCheck l f := rfl

/-- A frame is accepted only with no error from the parser and through every
check of `acceptFrame`. -/
theorem acceptFrame_accepted (l : ISDNQ921) (f : ISDNFrame)
    (hacc : (acceptFrame l f).1.1 = true) :
    f.m_error.valid = true ∧ f.m_sapi = l.m_sapi ∧ f.m_tei = l.m_tei ∧
    (f.m_type = .I → f.m_ns = l.m_vr) ∧
    ¬ (((f.m_type = .SABME ∨ f.m_type = .DISC) ∧ f.m_command = false) ∨
      ((f.m_type = .UA ∨ f.m_type = .DM) ∧ f.m_command = true)) ∧
    f.m_type ≠ .XID ∧
    (f.m_nr < 128 → Modulo128.between f.m_nr l.m_va l.m_vs = true) ∧
    f.m_dataLength ≤ l.m_maxUserData := by
  by_cases hv : f.m_error.valid = true
  · simp only [acceptFrame, hv, if_true, acceptCheck_rxFrames] at hacc
    have hcv : (acceptCheck l f).valid = true := by
      by_contra hc
      have hc' : (acceptCheck l f).valid = false := by simpa using hc
      rw [hc'] at hacc
      simp only [Bool.false_eq_true, if_false] at hacc
      split_ifs at hacc
    refine ⟨hv, ?_⟩
    unfold acceptCheck at hcv
    have h1 : ¬ (f.m_sapi ≠ l.m_sapi ∨ f.m_tei ≠ l.m_tei) := by
      intro c; rw [if_pos c] at hcv; simp [FrameType.valid] at hcv
    rw [if_neg h1] at hcv
    have h2 : ¬ (f.m_type = .I ∧ f.m_ns ≠ l.m_vr) := by
      intro c; rw [if_pos c] at hcv; simp [FrameType.valid] at hcv
    rw [if_neg h2] at hcv
    have h3 : ¬ (((f.m_type = .SABME ∨ f.m_type = .DISC) ∧ f.m_command = false) ∨
      ((f.m_type = .UA ∨ f.m_type = .DM) ∧ f.m_command = true)) := by
      intro c; rw [if_pos c] at hcv; simp [FrameType.valid] at hcv
    rw [if_neg h3] at hcv
    have h4 : ¬ (f.m_type = .XID) := by
      intro c; rw [if_pos c] at hcv; simp [FrameType.valid] at hcv
    rw [if_neg h4] at hcv
    have h5 : ¬ (f.m_nr < 128 ∧ Modulo128.between f.m_nr l.m_va l.m_vs = false) := by
      intro c; rw [if_pos c] at hcv; simp [FrameType.valid] at hcv
    rw [if_neg h5] at hcv
    have h6 : ¬ (f.m_dataLength > l.m_maxUserData) := by
      intro c; rw [if_pos c] at hcv; simp [FrameType.valid] at hcv
    refine ⟨?_, ?_, ?_, h3, h4, ?_, ?_⟩
    · by_contra c; exact h1 (Or.inl c)
    · by_contra c; exact h1 (Or.inr c)
    · intro a; by_contra c; exact h2 ⟨a, c⟩
    · intro a
      cases hb : Modulo128.between f.m_nr l.m_va l.m_vs
      · exact absurd ⟨a, hb⟩ h5
      · rfl
    · omega
  · have hv' : f.m_error.valid = false := by simpa using hv
    simp only [acceptFrame, hv', Bool.false_eq_true, if_false] at hacc
    split_ifs at hacc

/-- What `receivedPacket` does with an accepted frame that came out of the
parser: the frame is counted and handed to the procedure of its category. -/
theorem receivedPacket_accepted (e : Env) (l : ISDNQ921) (packet : DataBlock) (f : ISDNFrame)
    (hparse : ISDNFrame.parse packet (some l.m_network) = some f)
    (hacc : (acceptFrame l f).1.1 = true) :
    receivedPacket e l packet =
      if f.m_category = .Data then
        if (processDataFrame e
            { l with m_errorReceive := false, m_rxFrames := inc32 l.m_rxFrames } f
            (decide (f.m_type = .I))).1 then
          (true, upcall (processDataFrame e
            { l with m_errorReceive := false, m_rxFrames := inc32 l.m_rxFrames } f
            (decide (f.m_type = .I))).2 (.receiveData f.getData (decide (f.m_type = .I))))
        else (true, (processDataFrame e
            { l with m_errorReceive := false, m_rxFrames := inc32 l.m_rxFrames } f
            (decide (f.m_type = .I))).2)
      else if f.m_category = .Supervisory then
        (true, (processSFrame e
          { l with m_errorReceive := false, m_rxFrames := inc32 l.m_rxFrames } f).2)
      else if (processUFrame e
          { l with m_errorReceive := false, m_rxFrames := inc32 l.m_rxFrames } f
          l.m_state false).1.1 then
        (true, applyState e (processUFrame e
          { l with m_errorReceive := false, m_rxFrames := inc32 l.m_rxFrames } f
          l.m_state false).2
          (processUFrame e
            { l with m_errorReceive := false, m_rxFrames := inc32 l.m_rxFrames } f
            l.m_state false).1.2.1
          (processUFrame e
            { l with m_errorReceive := false, m_rxFrames := inc32 l.m_rxFrames } f
            l.m_state false).1.2.2)
      else (true, (processUFrame e
          { l with m_errorReceive := false, m_rxFrames := inc32 l.m_rxFrames } f
          l.m_state false).2) := by
  have hlen : packet.length ≠ 0 := (ISDNFrame.parse_some_facts packet _ f hparse).1
  obtain ⟨hv, hsapi, htei, hseq, hcr, hxid, hnr, hdl⟩ := acceptFrame_accepted l f hacc
  have htype := ISDNFrame.parse_error_type packet _ f hparse hv
  have hok := acceptFrame_ok { l with m_errorReceive := false } f htype.symm
    (by rw [htype]; exact hv) hsapi htei hseq hcr hxid hnr hdl
  simp only [receivedPacket, hlen, if_false, hparse, hok, Bool.not_true, Bool.false_eq_true]
  by_cases hd : f.m_category = .Data
  · simp only [hd, if_true]
  · simp only [hd, if_false]
    by_cases hs : f.m_category = .Supervisory
    · simp only [hs, if_true, processSFrame_fst, Bool.false_eq_true, if_false, Bool.not_false]
    · simp only [hs, if_false]
      split_ifs <;> simp_all

end ISDNQ921

namespace ISDNQ921

/-- C20: SABME/DISC response table. For a packet that parses to a frame the
link (TEI assigned) accepts: a SABME or DISC is a command, and the link
transmits exactly one frame, the response of `specResponseTable` built with
the F bit equal to the P bit of the command, ends in the state of the table and
makes the call of the table on Layer 3, if any; where a call is made the link
has been reset (V(S) = V(A) = V(R) = 0, window and N200 counts 0, queue empty),
where none is made the variables, queue and timers are unchanged. An accepted
FRMR moves an Established link to WaitEstablish after a reset with a SABME
command with P=1 sent and no call on Layer 3, and is only counted as dropped
in every other state. -/
theorem sabme_disc_response_table (e : Env) (l : ISDNQ921) (packet : DataBlock)
    (f : ISDNFrame)
    (hparse : ISDNFrame.parse packet (some l.m_network) = some f)
    (hassigned : l.m_teiAssigned = true)
    (hacc : (acceptFrame l f).1.1 = true) :
    ((f.m_type = .SABME ∨ f.m_type = .DISC) →
      f.m_command = true ∧
      (receivedPacket e l packet).2.txLog = l.txLog ++
        [(ISDNFrame.control (specResponseTable f.m_type l.m_state).1 false l.m_network
            l.m_sapi l.m_tei f.m_poll 0).m_buffer] ∧
      (receivedPacket e l packet).2.m_state = (specResponseTable f.m_type l.m_state).2.1 ∧
      (receivedPacket e l packet).2.upLog =
        l.upLog ++ (specResponseTable f.m_type l.m_state).2.2.toList ∧
      ((specResponseTable f.m_type l.m_state).2.2 ≠ none →
        (receivedPacket e l packet).2.m_vs = 0 ∧
        (receivedPacket e l packet).2.m_va = 0 ∧
        (receivedPacket e l packet).2.m_vr = 0 ∧
        (receivedPacket e l packet).2.m_window.m_count = 0 ∧
        (receivedPacket e l packet).2.m_n200.m_count = 0 ∧
        (receivedPacket e l packet).2.m_outFrames = []) ∧
      ((specResponseTable f.m_type l.m_state).2.2 = none →
        (receivedPacket e l packet).2.m_vs = l.m_vs ∧
        (receivedPacket e l packet).2.m_va = l.m_va ∧
        (receivedPacket e l packet).2.m_vr = l.m_vr ∧
        (receivedPacket e l packet).2.m_window = l.m_window ∧
        (receivedPacket e l packet).2.m_n200 = l.m_n200 ∧
        (receivedPacket e l packet).2.m_outFrames = l.m_outFrames ∧
        (receivedPacket e l packet).2.m_retransTimer = l.m_retransTimer ∧
        (receivedPacket e l packet).2.m_idleTimer = l.m_idleTimer)) ∧
    (f.m_type = .FRMR →
      (l.m_state = .Established →
        (receivedPacket e l packet).2.m_state = .WaitEstablish ∧
        (receivedPacket e l packet).2.txLog = l.txLog ++
          [(ISDNFrame.control .SABME true l.m_network l.m_sapi l.m_tei true 0).m_buffer] ∧
        (receivedPacket e l packet).2.upLog = l.upLog ∧
        (receivedPacket e l packet).2.m_vs = 0 ∧
        (receivedPacket e l packet).2.m_va = 0 ∧
        (receivedPacket e l packet).2.m_vr = 0 ∧
        (receivedPacket e l packet).2.m_outFrames = []) ∧
      (l.m_state ≠ .Established →
        receivedPacket e l packet =
          (true, { l with m_errorReceive := false, m_rxFrames := inc32 l.m_rxFrames,
                          m_rxDroppedFrames := inc32 l.m_rxDroppedFrames }))) := by
  obtain ⟨hv, hsapi, htei, hseq, hcr, hxid, hnr, hdl⟩ := acceptFrame_accepted l f hacc
  have htype := ISDNFrame.parse_error_type packet _ f hparse hv
  have hfacts := (ISDNFrame.parse_some_facts packet _ f hparse).2 (by rw [htype]; exact hv)
  have hrp := receivedPacket_accepted e l packet f hparse hacc
  constructor
  · intro ht
    have hcmd : f.m_command = true := by
      cases hc : f.m_command
      · exact absurd (Or.inl ⟨ht, hc⟩) hcr
      · rfl
    refine ⟨hcmd, ?_⟩
    have hcat : f.m_category = .Unnumbered := by
      rw [hfacts.2.1]; rcases ht with h | h <;> rw [h] <;> rfl
    rw [hrp]
    simp only [hcat, if_false, reduceCtorEq]
    rcases ht with ht | ht
    · cases hs : l.m_state <;>
        simp [processUFrame, ht, hs, sendUFrame, sendFrame_valid, FrameType.valid, applyState,
          changeState_eq, reset_eq, timer_idle, upcall, specResponseTable, hassigned,
          ISDNFrame.control, ISDNFrame.crMask, SignallingCounter.reset]
    · cases hs : l.m_state <;>
        simp [processUFrame, ht, hs, sendUFrame, sendFrame_valid, FrameType.valid, applyState,
          changeState_eq, reset_eq, timer_idle, upcall, specResponseTable, hassigned,
          ISDNFrame.control, ISDNFrame.crMask, SignallingCounter.reset]
  · intro ht
    have hcat : f.m_category = .Unnumbered := by
      rw [hfacts.2.1, ht]; rfl
    rw [hrp]
    simp only [hcat, if_false, reduceCtorEq]
    constructor
    · intro hs
      simp [processUFrame, ht, hs, applyState, reestablish_eq, hassigned]
    · intro hs
      simp [processUFrame, ht, hs, dropFrame]

theorem sabme_disc_response_table_witness :
    (receivedPacket quietEnv (establishedLink defaultParams) [0x02, 0x01, 0x53]).2.m_state =
      .Released ∧
    (receivedPacket quietEnv (establishedLink defaultParams) [0x02, 0x01, 0x53]).2.txLog =
      (establishedLink defaultParams).txLog ++ [[0x02, 0x01, 0x73]] :=
  ⟨((sabme_disc_response_table quietEnv (establishedLink defaultParams) [0x02, 0x01, 0x53]
      (ISDNFrame.build .DISC true true 0 0 true 0xFF 0xFF [])
      (by decide) (by decide) (by decide)).1 (Or.inr rfl)).2.2.1,
   ((sabme_disc_response_table quietEnv (establishedLink defaultParams) [0x02, 0x01, 0x53]
      (ISDNFrame.build .DISC true true 0 0 true 0xFF 0xFF [])
      (by decide) (by decide) (by decide)).1 (Or.inr rfl)).2.1⟩

end ISDNQ921

/-! ## Reception of I frames -/

namespace ISDNQ921

theorem txLog_timer (e : Env) (l : ISDNQ921) (a b : Bool) (t : Nat) :
    (timer e l a b t).txLog = l.txLog := by
  cases a
  · cases b
    · rw [timer_stop]
    · rw [timer_idle]
  · rw [timer_start]

theorem ISDNFrame_update_type (g : ISDNFrame) (a b : Option Nat) :
    (g.update a b).m_type = g.m_type := by
  unfold ISDNFrame.update
  split_ifs
  · rfl
  · cases a <;> cases b <;> rfl

/-- The frames left in the queue by the acknowledging loop were in it. -/
theorem ackLoop_subset (nr : Nat) (q : List ISDNFrame) :
    ∀ (a : Bool) (w : SignallingCounter), ∀ g ∈ (ackLoop nr a w q).2.2.1, g ∈ q := by
  induction q with
  | nil => intro a w g hg; simp [ackLoop] at hg
  | cons f rest ih =>
    intro a w g hg
    unfold ackLoop at hg
    split_ifs at hg
    · exact hg
    · exact List.mem_cons_of_mem _ (ih _ _ g hg)

/-- Acknowledging changes the queue and the window as the loop says, and the
timers; nothing is transmitted. -/
theorem ackOutgoingFrames_same (e : Env) (l : ISDNQ921) (f : ISDNFrame) :
    sameButTx
      { l with m_outFrames := (ackLoop f.m_nr false l.m_window l.m_outFrames).2.2.1,
               m_window := (ackLoop f.m_nr false l.m_window l.m_outFrames).2.2.2 }
      (ackOutgoingFrames e l f).2 ∧
    (ackOutgoingFrames e l f).2.txLog = l.txLog := by
  unfold ackOutgoingFrames
  dsimp only
  split_ifs
  · exact ⟨sameButTx_trans (timer_same _ _ _ _ _) (timer_same _ _ _ _ _),
      by rw [txLog_timer, txLog_timer]⟩
  · exact ⟨timer_same _ _ _ _ _, by rw [txLog_timer]⟩
  · exact ⟨timer_same _ _ _ _ _, by rw [txLog_timer]⟩
  · exact ⟨sameButTx_refl _, rfl⟩

/-- Transmissions of the sending loop: each frame goes out with N(R) = V(R). -/
theorem txLog_sendLoop (e : Env) (fs : List ISDNFrame) :
    ∀ (l : ISDNQ921), (∀ g ∈ fs, g.m_type.valid = true) →
      (sendLoop e l fs).2.txLog =
        l.txLog ++ fs.map (fun g => (g.update none (some l.m_vr)).m_buffer) := by
  induction fs with
  | nil => intro l _; simp [sendLoop]
  | cons f rest ih =>
    intro l hv
    simp only [sendLoop, List.map_cons]
    have hf : (f.update none (some l.m_vr)).m_type.valid = true := by
      rw [ISDNFrame_update_type]; exact hv f (List.mem_cons_self _ _)
    have hA : sameButTx l
        (if (!l.m_retransTimer.started) = true then timer e l true false 0 else l) := by
      split_ifs
      · exact timer_same_start e l false 0
      · exact sameButTx_refl l
    have hAt : (if (!l.m_retransTimer.started) = true then timer e l true false 0
        else l).txLog = l.txLog := by
      split_ifs
      · exact txLog_timer _ _ _ _ _
      · rfl
    have hB := sendFrame_same e
      (if (!l.m_retransTimer.started) = true then timer e l true false 0 else l)
      (f.update none (some l.m_vr))
    have hvr := (sameButTx_trans hA hB).2.2.2.2.2.2.2.2.1
    rw [ih _ (fun g hg => hv g (List.mem_cons_of_mem _ hg)), hvr, sendFrame_valid _ _ _ hf]
    simp only [hAt, List.append_assoc, List.singleton_append]

/-- Outcome of `sendOutgoingData` when it is not a retransmission and the queue
holds frames of valid types: the frames not yet sent go out in queue order. -/
theorem sendOutgoingData_tx (e : Env) (l : ISDNQ921)
    (hq : ∀ g ∈ l.m_outFrames, g.m_type.valid = true) :
    (sendOutgoingData e l false).1 =
      (!(l.m_remoteBusy || l.m_window.empty) &&
        !(l.m_outFrames.dropWhile (fun g => g.m_sent)).isEmpty) ∧
    (sendOutgoingData e l false).2.txLog = l.txLog ++
      (if (l.m_remoteBusy || l.m_window.empty) = true then []
       else (l.m_outFrames.dropWhile (fun g => g.m_sent)).map
         (fun g => (g.update none (some l.m_vr)).m_buffer)) := by
  unfold sendOutgoingData
  by_cases hb : (l.m_remoteBusy || l.m_window.empty) = true
  · simp only [hb, if_true]
    simp
  · simp only [hb, if_false]
    cases hq2 : l.m_outFrames with
    | nil => simp
    | cons f rest =>
      have hsub : ∀ g ∈ List.dropWhile (fun g => g.m_sent) (f :: rest), g.m_type.valid = true := by
        intro g hg
        apply hq
        rw [hq2]
        exact (List.dropWhile_sublist _).subset hg
      have := txLog_sendLoop e _ l hsub
      simp only [Bool.not_false, if_true, Bool.true_and]
      simp [this]

theorem txLog_sendSFrame_RR (e : Env) (l : ISDNQ921) (c p : Bool) :
    (sendSFrame e l .RR c p).2.txLog =
      l.txLog ++ [(ISDNFrame.control .RR c l.m_network l.m_sapi l.m_tei p l.m_vr).m_buffer] := by
  unfold sendSFrame
  simp only [Bool.true_or, Bool.not_true, Bool.false_eq_true, if_false, decide_True]
  rw [sendFrame_valid]
  simp [ISDNFrame.control, ISDNFrame.crMask, FrameType.valid]

end ISDNQ921

/-- An I frame out of the parser holds the whole buffer, with a header of 4
octets. -/
theorem ISDNFrame.parse_I_facts (data : DataBlock) (r : Option Bool) (f : ISDNFrame)
    (h : ISDNFrame.parse data r = some f) (hI : f.m_type = .I) :
    f.m_buffer = data ∧ f.m_headerLength = 4 := by
  cases r with
  | none => simp [ISDNFrame.parse] at h
  | some network =>
    simp only [ISDNFrame.parse, ISDNFrame.undefined] at h
    split_ifs at h
    · cases h; simp at hI
    · cases h; simp at hI
    · cases hu : ISDNFrame.uType (data.getD 2 0 &&& ISDNFrame.Q921FRAME_U_RESET_PF) with
      | none => simp only [hu] at h; cases h; simp at hI
      | some p =>
        obtain ⟨t, c⟩ := p
        obtain ⟨_, _, h1, _⟩ := ISDNFrame.uType_facts _ _ _ hu
        simp only [hu] at h; cases h
        exact absurd hI h1
    · cases hu : ISDNFrame.sType (data.getD 2 0) with
      | none => simp only [hu] at h; cases h; simp at hI
      | some p =>
        obtain ⟨t, c⟩ := p
        obtain ⟨_, _, h1⟩ := ISDNFrame.sType_facts _ _ _ hu
        simp only [hu] at h; cases h
        rcases h1 with h1 | h1 | h1 <;> simp only at hI <;> rw [h1] at hI <;> cases hI
    · cases h; simp

namespace ISDNQ921

/-- The members a transmission or a timer operation leaves alone, as far as
the reception of an I frame is concerned. -/
theorem same_view {l r : ISDNQ921} (h : sameButTx l r) :
    r.toISDNLayer2 = l.toISDNLayer2 ∧ r.m_va = l.m_va ∧ r.m_vr = l.m_vr ∧
    r.upLog = l.upLog ∧ r.m_remoteBusy = l.m_remoteBusy ∧ r.m_window = l.m_window ∧
    r.m_outFrames = l.m_outFrames := by
  simp only [sameButTx] at h
  simp [h]

/-- The answer of `processDataFrame` to an I frame, on the link `l3` left by
the acknowledgment: an RR response with F=1 to a poll, else the frames not yet
sent, else an RR response with F=0; then T203 is started if T200 is not
running. -/
theorem answer_I (e : Env) (l3 : ISDNQ921) (poll : Bool)
    (hbusy : l3.m_remoteBusy = false)
    (hq : ∀ g ∈ l3.m_outFrames, g.m_type.valid = true) (X : ISDNQ921)
    (hX : X =
      (if (!(if poll = true then (sendSFrame e l3 .RR false true).2
          else if (!(sendOutgoingData e l3 false).1) = true then
            (sendSFrame e (sendOutgoingData e l3 false).2 .RR false false).2
          else (sendOutgoingData e l3 false).2).m_retransTimer.started) = true then
        timer e (if poll = true then (sendSFrame e l3 .RR false true).2
          else if (!(sendOutgoingData e l3 false).1) = true then
            (sendSFrame e (sendOutgoingData e l3 false).2 .RR false false).2
          else (sendOutgoingData e l3 false).2) false true 0
      else (if poll = true then (sendSFrame e l3 .RR false true).2
          else if (!(sendOutgoingData e l3 false).1) = true then
            (sendSFrame e (sendOutgoingData e l3 false).2 .RR false false).2
          else (sendOutgoingData e l3 false).2))) :
    X.toISDNLayer2 = l3.toISDNLayer2 ∧ X.m_vr = l3.m_vr ∧ X.m_va = l3.m_va ∧
    X.upLog = l3.upLog ∧
    (poll = true → X.txLog = l3.txLog ++
      [(ISDNFrame.control .RR false l3.m_network l3.m_sapi l3.m_tei true l3.m_vr).m_buffer]) ∧
    (poll = false → X.txLog = l3.txLog ++
      (if l3.m_window.empty = true ∨ l3.m_outFrames.dropWhile (fun g => g.m_sent) = [] then
        [(ISDNFrame.control .RR false l3.m_network l3.m_sapi l3.m_tei false l3.m_vr).m_buffer]
       else
        (l3.m_outFrames.dropWhile (fun g => g.m_sent)).map
          (fun g => (g.update none (some l3.m_vr)).m_buffer))) := by
  have hY : ∀ Y : ISDNQ921,
      Y = (if poll = true then (sendSFrame e l3 .RR false true).2
          else if (!(sendOutgoingData e l3 false).1) = true then
            (sendSFrame e (sendOutgoingData e l3 false).2 .RR false false).2
          else (sendOutgoingData e l3 false).2) →
      Y.toISDNLayer2 = l3.toISDNLayer2 ∧ Y.m_vr = l3.m_vr ∧ Y.m_va = l3.m_va ∧
      Y.upLog = l3.upLog ∧
      (poll = true → Y.txLog = l3.txLog ++
        [(ISDNFrame.control .RR false l3.m_network l3.m_sapi l3.m_tei true
          l3.m_vr).m_buffer]) ∧
      (poll = false → Y.txLog = l3.txLog ++
        (if l3.m_window.empty = true ∨ l3.m_outFrames.dropWhile (fun g => g.m_sent) = [] then
          [(ISDNFrame.control .RR false l3.m_network l3.m_sapi l3.m_tei false
            l3.m_vr).m_buffer]
         else
          (l3.m_outFrames.dropWhile (fun g => g.m_sent)).map
            (fun g => (g.update none (some l3.m_vr)).m_buffer))) := by
    intro Y hY
    cases hp : poll
    · rw [hp] at hY
      rw [if_neg (by simp)] at hY
      obtain ⟨s1, s2⟩ := sendOutgoingData_tx e l3 hq
      have hS := same_view (sendOutgoingData_spec e l3 false)
      simp only at hS
      rw [hbusy] at s1 s2
      simp only [Bool.false_or] at s1 s2
      cases hsent : (sendOutgoingData e l3 false).1
      · rw [hsent] at hY s1
        rw [if_pos (by rfl)] at hY
        have hR := same_view (sendSFrame_same e (sendOutgoingData e l3 false).2 .RR false false)
        have hRt := txLog_sendSFrame_RR e (sendOutgoingData e l3 false).2 false false
        have hc : l3.m_window.empty = true ∨
            l3.m_outFrames.dropWhile (fun g => g.m_sent) = [] := by
          cases hw : l3.m_window.empty
          · right
            rw [hw] at s1
            cases hd : l3.m_outFrames.dropWhile (fun g => g.m_sent) with
            | nil => rfl
            | cons x xs => rw [hd] at s1; simp at s1
          · left; rfl
        subst hY
        refine ⟨by rw [hR.1, hS.1], by rw [hR.2.2.1, hS.2.2.1], by rw [hR.2.1, hS.2.1],
          by rw [hR.2.2.2.1, hS.2.2.2.1], (by intro h; cases h), ?_⟩
        intro _
        rw [hRt, s2, if_pos hc]
        have e1 : (sendOutgoingData e l3 false).2.m_network = l3.m_network :=
          congrArg ISDNLayer2.m_network hS.1
        have e2 : (sendOutgoingData e l3 false).2.m_sapi = l3.m_sapi :=
          congrArg ISDNLayer2.m_sapi hS.1
        have e3 : (sendOutgoingData e l3 false).2.m_tei = l3.m_tei :=
          congrArg ISDNLayer2.m_tei hS.1
        rw [e1, e2, e3, hS.2.2.1]
        rcases hc with hc | hc
        · simp [hc]
        · cases hw : l3.m_window.empty
          · simp [hc]
          · simp
      · rw [hsent] at hY s1
        rw [if_neg (by simp)] at hY
        have hc : ¬ (l3.m_window.empty = true ∨
            l3.m_outFrames.dropWhile (fun g => g.m_sent) = []) := by
          intro hc
          rcases hc with hc | hc
          · rw [hc] at s1; simp at s1
          · rw [hc] at s1; simp at s1
        have hc1 : ¬ (l3.m_window.empty = true) := fun h => hc (Or.inl h)
        subst hY
        refine ⟨hS.1, hS.2.2.1, hS.2.1, hS.2.2.2.1, (by intro h; cases h), ?_⟩
        intro _
        rw [s2, if_neg hc, if_neg hc1]
    · rw [hp] at hY
      rw [if_pos rfl] at hY
      have hR := same_view (sendSFrame_same e l3 .RR false true)
      have hRt := txLog_sendSFrame_RR e l3 false true
      subst hY
      exact ⟨hR.1, hR.2.2.1, hR.2.1, hR.2.2.2.1, fun _ => hRt, by intro h; cases h⟩
  generalize (if poll = true then (sendSFrame e l3 .RR false true).2
          else if (!(sendOutgoingData e l3 false).1) = true then
            (sendSFrame e (sendOutgoingData e l3 false).2 .RR false false).2
          else (sendOutgoingData e l3 false).2) = Y at hY hX
  obtain ⟨x1, x2, x3, x4, x5, x6⟩ := hY Y rfl
  by_cases hs : (!Y.m_retransTimer.started) = true
  · rw [if_pos hs] at hX
    have hT := same_view (timer_same e Y false true 0)
    subst hX
    rw [txLog_timer, hT.1, hT.2.1, hT.2.2.1, hT.2.2.2.1]
    exact ⟨x1, x2, x3, x4, x5, x6⟩
  · rw [if_neg hs] at hX
    subst hX
    exact ⟨x1, x2, x3, x4, x5, x6⟩

/-- The link after `processDataFrame` has taken an I frame in Established
state. -/
theorem processDataFrame_I (e : Env) (l : ISDNQ921) (f : ISDNFrame)
    (hst : l.m_state = .Established)
    (hq : ∀ g ∈ l.m_outFrames, g.m_type.valid = true) :
    (processDataFrame e l f true).1 = true ∧
    (processDataFrame e l f true).2.toISDNLayer2 = l.toISDNLayer2 ∧
    (processDataFrame e l f true).2.m_vr = Modulo128.inc f.m_ns ∧
    (processDataFrame e l f true).2.m_va = f.m_nr ∧
    (processDataFrame e l f true).2.upLog = l.upLog ∧
    (f.m_poll = true → (processDataFrame e l f true).2.txLog = l.txLog ++
      [(ISDNFrame.control .RR false l.m_network l.m_sapi l.m_tei true
          (Modulo128.inc f.m_ns)).m_buffer]) ∧
    (f.m_poll = false → (processDataFrame e l f true).2.txLog = l.txLog ++
      (if (ackLoop f.m_nr false l.m_window l.m_outFrames).2.2.2.empty = true ∨
          ((ackLoop f.m_nr false l.m_window l.m_outFrames).2.2.1.dropWhile
            (fun g => g.m_sent)) = [] then
        [(ISDNFrame.control .RR false l.m_network l.m_sapi l.m_tei false
            (Modulo128.inc f.m_ns)).m_buffer]
       else
        ((ackLoop f.m_nr false l.m_window l.m_outFrames).2.2.1.dropWhile
          (fun g => g.m_sent)).map
          (fun g => (g.update none (some (Modulo128.inc f.m_ns))).m_buffer))) := by
  obtain ⟨hA, hAt⟩ := ackOutgoingFrames_same e
    { l with m_rejectSent := false, m_remoteBusy := false, m_vr := Modulo128.inc f.m_ns } f
  obtain ⟨a1, a2, a3, a4, a5, a6, a7⟩ := same_view hA
  simp only at a1 a2 a3 a4 a5 a6 a7 hAt
  generalize hl2 : (ackOutgoingFrames e
    { l with m_rejectSent := false, m_remoteBusy := false, m_vr := Modulo128.inc f.m_ns } f).2
    = l2 at a1 a2 a3 a4 a5 a6 a7 hAt
  have hq2 : ∀ g ∈ l2.m_outFrames, g.m_type.valid = true := by
    intro g hg
    rw [a7] at hg
    exact hq g (ackLoop_subset _ _ _ _ g hg)
  have hpd : processDataFrame e l f true =
      (true,
        if (!(if f.m_poll = true then (sendSFrame e { l2 with m_va := f.m_nr } .RR false true).2
            else if (!(sendOutgoingData e { l2 with m_va := f.m_nr } false).1) = true then
              (sendSFrame e (sendOutgoingData e { l2 with m_va := f.m_nr } false).2
                .RR false false).2
            else (sendOutgoingData e { l2 with m_va := f.m_nr } false).2).m_retransTimer.started)
            = true then
          timer e (if f.m_poll = true then
              (sendSFrame e { l2 with m_va := f.m_nr } .RR false true).2
            else if (!(sendOutgoingData e { l2 with m_va := f.m_nr } false).1) = true then
              (sendSFrame e (sendOutgoingData e { l2 with m_va := f.m_nr } false).2
                .RR false false).2
            else (sendOutgoingData e { l2 with m_va := f.m_nr } false).2) false true 0
        else (if f.m_poll = true then
              (sendSFrame e { l2 with m_va := f.m_nr } .RR false true).2
            else if (!(sendOutgoingData e { l2 with m_va := f.m_nr } false).1) = true then
              (sendSFrame e (sendOutgoingData e { l2 with m_va := f.m_nr } false).2
                .RR false false).2
            else (sendOutgoingData e { l2 with m_va := f.m_nr } false).2)) := by
    rw [← hl2]
    simp [processDataFrame, hst]
  obtain ⟨X, hXdef, hpd2⟩ : ∃ X, X = _ ∧ processDataFrame e l f true = (true, X) :=
    ⟨_, rfl, hpd⟩
  obtain ⟨x1, x2, x3, x4, x5, x6⟩ :=
    answer_I e { l2 with m_va := f.m_nr } f.m_poll a5 hq2 X hXdef
  have hnet : l2.m_network = l.m_network := congrArg ISDNLayer2.m_network a1
  have hsapi : l2.m_sapi = l.m_sapi := congrArg ISDNLayer2.m_sapi a1
  have htei : l2.m_tei = l.m_tei := congrArg ISDNLayer2.m_tei a1
  simp only [a1, a3, a4, a6, a7, hAt, hnet, hsapi, htei] at x1 x2 x3 x4 x5 x6
  rw [hpd2]
  exact ⟨rfl, x1, x2, x3, x4, x5, x6⟩

end ISDNQ921

namespace ISDNQ921

/-- What `acceptFrame` leaves alone on the link, and when it rejects. -/
theorem acceptFrame_link (l : ISDNQ921) (f : ISDNFrame) :
    (acceptFrame l f).2.2.upLog = l.upLog ∧ (acceptFrame l f).2.2.m_vr = l.m_vr ∧
    ((acceptFrame l f).1.2 = true → l.m_state = .Established) := by
  simp only [acceptFrame]
  split_ifs with h1 h2 h3 h4
  all_goals simp_all [dropFrame]

/-- An I frame does nothing to V(R) or to Layer 3 on a link that is not
Established. -/
theorem I_frame_not_established (e : Env) (l : ISDNQ921) (packet : DataBlock) (f : ISDNFrame)
    (hparse : ISDNFrame.parse packet (some l.m_network) = some f)
    (hI : f.m_type = .I) (hst : l.m_state ≠ .Established) :
    (receivedPacket e l packet).2.upLog = l.upLog ∧
    (receivedPacket e l packet).2.m_vr = l.m_vr := by
  obtain ⟨hlen, hfacts⟩ := ISDNFrame.parse_some_facts packet _ f hparse
  have hfacts := hfacts (by rw [hI]; rfl)
  by_cases hacc0 : (acceptFrame { l with m_errorReceive := false } f).1.1 = true
  · obtain ⟨hv, hsapi, htei, hseq, hcr, hxid, hnr, hdl⟩ := acceptFrame_accepted _ f hacc0
    have hacc : (acceptFrame l f).1.1 = true := by
      rw [acceptFrame_ok l f hfacts.1 (by rw [hI]; rfl) hsapi htei hseq hcr hxid hnr hdl]
    rw [receivedPacket_accepted e l packet f hparse hacc]
    have hcat : f.m_category = .Data := by rw [hfacts.2.1, hI]; rfl
    simp [hcat, hI, processDataFrame, hst, dropFrame]
  · have hacc1 : (acceptFrame { l with m_errorReceive := false } f).1.1 = false := by
      simpa using hacc0
    obtain ⟨k1, k2, k3⟩ := acceptFrame_link { l with m_errorReceive := false } f
    have hrej : (acceptFrame { l with m_errorReceive := false } f).1.2 = false := by
      cases hr : (acceptFrame { l with m_errorReceive := false } f).1.2
      · rfl
      · exact absurd (k3 hr) hst
    simp only [receivedPacket, hlen, if_false, hparse, hacc1, hrej, Bool.not_false, if_true]
    simp only at k1 k2
    generalize (acceptFrame { l with m_errorReceive := false } f).2.2 = l1 at k1 k2 ⊢
    generalize (acceptFrame { l with m_errorReceive := false } f).2.1 = f1
    split_ifs
    · have h := same_view (sendSFrame_same e l1 .REJ true true)
      exact ⟨by simp only; rw [h.2.2.2.1, k1], by simp only; rw [h.2.2.1, k2]⟩
    · have h := same_view (sendSFrame_same e l1 .RR false f1.m_poll)
      exact ⟨by rw [h.2.2.2.1, k1], by rw [h.2.2.1, k2]⟩
    · exact ⟨k1, k2⟩

end ISDNQ921

namespace ISDNQ921

/-- C17: in-sequence I frame reception. When an Established link (its queue
holding I frames, V(R) below 128) receives a packet that parses to a correctly
addressed I frame with N(S) = V(R), N(R) within [V(A), V(S)] modulo 128 and
payload no longer than maxUserData, `receivedPacket` returns true, the payload
(the packet without its 4 header octets) is delivered to Layer 3 exactly once
as acknowledged data, V(R) becomes (N(S)+1) mod 128, V(A) becomes N(R), and the
link transmits: if the P bit is 1, one RR response with F=1 and N(R) = new V(R);
otherwise the frames of its queue left by the acknowledgment that are not yet
sent, each with N(R) = new V(R), or, if there are none (or the window counter
is 0), one RR response with F=0 and N(R) = new V(R). In any state other than
Established an I frame is not delivered and V(R) is unchanged. -/
theorem in_sequence_I_frame (e : Env) (l : ISDNQ921) (packet : DataBlock) (f : ISDNFrame)
    (hparse : ISDNFrame.parse packet (some l.m_network) = some f)
    (hI : f.m_type = .I) (hvr : l.m_vr < 128)
    (hqueue : ∀ g ∈ l.m_outFrames, g.m_type = .I) :
    (l.m_state = .Established → f.m_sapi = l.m_sapi → f.m_tei = l.m_tei →
      f.m_ns = l.m_vr → Modulo128.between f.m_nr l.m_va l.m_vs = true →
      f.m_dataLength ≤ l.m_maxUserData →
      (receivedPacket e l packet).1 = true ∧
      (receivedPacket e l packet).2.upLog = l.upLog ++ [.receiveData (packet.drop 4) true] ∧
      (receivedPacket e l packet).2.m_vr = (f.m_ns + 1) % 128 ∧
      (receivedPacket e l packet).2.m_va = f.m_nr ∧
      (receivedPacket e l packet).2.m_state = .Established ∧
      (f.m_poll = true → (receivedPacket e l packet).2.txLog = l.txLog ++
        [(ISDNFrame.control .RR false l.m_network l.m_sapi l.m_tei true
            ((f.m_ns + 1) % 128)).m_buffer]) ∧
      (f.m_poll = false → (receivedPacket e l packet).2.txLog = l.txLog ++
        (if (ackLoop f.m_nr false l.m_window l.m_outFrames).2.2.2.empty = true ∨
            ((ackLoop f.m_nr false l.m_window l.m_outFrames).2.2.1.dropWhile
              (fun g => g.m_sent)) = [] then
          [(ISDNFrame.control .RR false l.m_network l.m_sapi l.m_tei false
              ((f.m_ns + 1) % 128)).m_buffer]
         else
          ((ackLoop f.m_nr false l.m_window l.m_outFrames).2.2.1.dropWhile
            (fun g => g.m_sent)).map
            (fun g => (g.update none (some ((f.m_ns + 1) % 128))).m_buffer)))) ∧
    (l.m_state ≠ .Established →
      (receivedPacket e l packet).2.upLog = l.upLog ∧
      (receivedPacket e l packet).2.m_vr = l.m_vr) := by
  refine ⟨?_, I_frame_not_established e l packet f hparse hI⟩
  intro hst hsapi htei hns hnr hdl
  obtain ⟨hlen, hfacts⟩ := ISDNFrame.parse_some_facts packet _ f hparse
  have hfacts := hfacts (by rw [hI]; rfl)
  obtain ⟨hbuf, hhdr⟩ := ISDNFrame.parse_I_facts packet _ f hparse hI
  have hinc : Modulo128.inc f.m_ns = (f.m_ns + 1) % 128 := by
    rw [hns]
    unfold Modulo128.inc
    split_ifs <;> omega
  have hok := acceptFrame_ok l f hfacts.1 (by rw [hI]; rfl) hsapi htei (fun _ => hns)
    (by rw [hI]; simp) (by rw [hI]; simp) (fun _ => hnr) hdl
  have hacc : (acceptFrame l f).1.1 = true := by rw [hok]
  have hcat : f.m_category = .Data := by rw [hfacts.2.1, hI]; rfl
  have hq : ∀ g ∈ l.m_outFrames, g.m_type.valid = true := by
    intro g hg; rw [hqueue g hg]; rfl
  obtain ⟨p1, p2, p3, p4, p5, p6, p7⟩ := processDataFrame_I e
    { l with m_errorReceive := false, m_rxFrames := inc32 l.m_rxFrames } f hst hq
  simp only [hinc] at p3 p6 p7
  rw [receivedPacket_accepted e l packet f hparse hacc]
  simp only [hcat, if_true, hI, decide_True, p1]
  refine ⟨trivial, ?_, p3, p4, ?_, p6, p7⟩
  · simp only [upcall, p5, ISDNFrame.getData, hbuf, hhdr]
  · show (ISDNLayer2.m_state _) = _
    simp only [upcall]
    rw [p2]
    exact hst

theorem in_sequence_I_frame_witness :
    (receivedPacket quietEnv (establishedLink defaultParams)
        [0x02, 0x01, 0x00, 0x00, 0x09]).2.upLog =
      (establishedLink defaultParams).upLog ++
        [.receiveData (([0x02, 0x01, 0x00, 0x00, 0x09] : DataBlock).drop 4) true] :=
  ((in_sequence_I_frame quietEnv (establishedLink defaultParams)
    [0x02, 0x01, 0x00, 0x00, 0x09] (ISDNFrame.build .I true true 0 0 false 0 0 [9])
    (by decide) (by decide) (by decide) (by decide)).1
    (by decide) (by decide) (by decide) (by decide) (by decide) (by decide)).2.1

end ISDNQ921

/-! ## Timer recovery and RR -/

namespace ISDNQ921

theorem timerRecovery_of_same {l r : ISDNQ921} (h : sameButTx l r) :
    r.m_timerRecovery = l.m_timerRecovery := h.2.2.1

theorem timerRecovery_timer (e : Env) (l : ISDNQ921) (a b : Bool) (t : Nat) :
    (timer e l a b t).m_timerRecovery = l.m_timerRecovery :=
  timerRecovery_of_same (timer_same e l a b t)

theorem timerRecovery_sendSFrame (e : Env) (l : ISDNQ921) (t : FrameType) (c p : Bool) :
    (sendSFrame e l t c p).2.m_timerRecovery = l.m_timerRecovery :=
  timerRecovery_of_same (sendSFrame_same e l t c p)

theorem timerRecovery_sendOutgoingData (e : Env) (l : ISDNQ921) (retrans : Bool) :
    (sendOutgoingData e l retrans).2.m_timerRecovery = l.m_timerRecovery :=
  (sendOutgoingData_spec e l retrans).2.2.1

theorem timerRecovery_ackOutgoingFrames (e : Env) (l : ISDNQ921) (f : ISDNFrame) :
    (ackOutgoingFrames e l f).2.m_timerRecovery = l.m_timerRecovery :=
  (ackOutgoingFrames_same e l f).1.2.2.1

/-- An accepted RR never changes the timer-recovery flag of an Established
link: `processSFrame` does not touch it in its RR branch and returns false, so
`receivedPacket` does not clear it either. -/
theorem timerRecovery_kept_by_RR (e : Env) (l : ISDNQ921) (packet : DataBlock) (f : ISDNFrame)
    (hparse : ISDNFrame.parse packet (some l.m_network) = some f)
    (hacc : (acceptFrame l f).1.1 = true)
    (hRR : f.m_type = .RR) (hst : l.m_state = .Established) :
    (receivedPacket e l packet).2.m_timerRecovery = l.m_timerRecovery := by
  obtain ⟨hv, _⟩ := acceptFrame_accepted l f hacc
  have htype := ISDNFrame.parse_error_type packet _ f hparse hv
  have hfacts := (ISDNFrame.parse_some_facts packet _ f hparse).2 (by rw [htype]; exact hv)
  have hcat : f.m_category = .Supervisory := by rw [hfacts.2.1, hRR]; rfl
  rw [receivedPacket_accepted e l packet f hparse hacc]
  simp only [hcat, if_true, if_false, reduceCtorEq]
  unfold processSFrame
  simp only [hst, ne_eq, not_true_eq_false, if_false, hRR, if_true]
  split_ifs <;>
    simp only [timerRecovery_timer, timerRecovery_sendSFrame, timerRecovery_sendOutgoingData,
      timerRecovery_ackOutgoingFrames]

end ISDNQ921

/-! ## Timer exclusivity -/

namespace ISDNQ921

theorem excl_timer (e : Env) (l : ISDNQ921) (a b : Bool) (t : Nat) :
    timersExclusive (timer e l a b t) = true := by
  cases a
  · cases b
    · rw [timer_stop]; simp [timersExclusive, SignallingTimer.stop, SignallingTimer.started]
    · rw [timer_idle]; simp [timersExclusive, SignallingTimer.stop, SignallingTimer.started]
  · rw [timer_start]; simp [timersExclusive, SignallingTimer.stop, SignallingTimer.started]

theorem excl_of_timers {l r : ISDNQ921} (h1 : r.m_retransTimer = l.m_retransTimer)
    (h2 : r.m_idleTimer = l.m_idleTimer) : timersExclusive r = timersExclusive l := by
  simp [timersExclusive, h1, h2]

theorem excl_sendFrame (e : Env) (l : ISDNQ921) (f : ISDNFrame) :
    timersExclusive (sendFrame e l f).2 = timersExclusive l := by
  unfold sendFrame
  dsimp only
  split_ifs <;> rfl

theorem excl_sendUFrame (e : Env) (l : ISDNQ921) (t : FrameType) (c p : Bool) :
    timersExclusive (sendUFrame e l t c p).2 = timersExclusive l := by
  unfold sendUFrame
  split <;> first | exact excl_sendFrame _ _ _ | rfl

theorem excl_sendSFrame (e : Env) (l : ISDNQ921) (t : FrameType) (c p : Bool) :
    timersExclusive (sendSFrame e l t c p).2 = timersExclusive l := by
  unfold sendSFrame
  split_ifs
  · rfl
  · exact excl_sendFrame _ _ _

theorem excl_changeState (l : ISDNQ921) (s : State) :
    timersExclusive (changeState l s) = timersExclusive l := by
  rw [changeState_eq]; rfl

theorem excl_upcall (l : ISDNQ921) (c : UpCall) :
    timersExclusive (upcall l c) = timersExclusive l := rfl

theorem excl_dropFrame (l : ISDNQ921) :
    timersExclusive (dropFrame l) = timersExclusive l := rfl

theorem excl_reset (e : Env) (l : ISDNQ921) : timersExclusive (reset e l) = true := by
  rw [reset_eq]; simp [timersExclusive, SignallingTimer.stop, SignallingTimer.started]

end ISDNQ921

namespace ISDNQ921

theorem excl_mk (b : ISDNLayer2) (rb tr rs pd lp : Bool) (vs va vr : Nat)
    (rt it : SignallingTimer) (w n : SignallingCounter) (q : List ISDNFrame)
    (c1 c2 c3 c4 c5 c6 : Nat) (es er : Bool) (tx : List DataBlock) (up : List UpCall) :
    timersExclusive
      { toISDNLayer2 := b, m_remoteBusy := rb, m_timerRecovery := tr, m_rejectSent := rs,
        m_pendingDMSabme := pd, m_lastPFBit := lp, m_vs := vs, m_va := va, m_vr := vr,
        m_retransTimer := rt, m_idleTimer := it, m_window := w, m_n200 := n,
        m_outFrames := q, m_txFrames := c1, m_txFailFrames := c2, m_rxFrames := c3,
        m_rxRejectedFrames := c4, m_rxDroppedFrames := c5, m_hwErrors := c6,
        m_errorSend := es, m_errorReceive := er, txLog := tx, upLog := up } =
      !(rt.started && it.started) := rfl

theorem excl_fold (l : ISDNQ921) :
    (!(l.m_retransTimer.started && l.m_idleTimer.started)) = timersExclusive l := rfl

theorem excl_sendLoop (e : Env) (fs : List ISDNFrame) :
    ∀ l : ISDNQ921, timersExclusive l = true → timersExclusive (sendLoop e l fs).2 = true := by
  induction fs with
  | nil => intro l h; exact h
  | cons f rest ih =>
    intro l h
    simp only [sendLoop]
    apply ih
    rw [excl_sendFrame]
    split_ifs
    · exact excl_timer _ _ _ _ _
    · exact h

theorem excl_sendOutgoingData (e : Env) (l : ISDNQ921) (retrans : Bool)
    (h : timersExclusive l = true) :
    timersExclusive (sendOutgoingData e l retrans).2 = true := by
  unfold sendOutgoingData
  by_cases hb : (l.m_remoteBusy || l.m_window.empty) = true
  · simp only [hb, if_true]; exact h
  · simp only [hb, if_false]
    cases hq : l.m_outFrames with
    | nil => exact h
    | cons f rest =>
      simp only [excl_mk, excl_fold]
      exact excl_sendLoop e _ l h

theorem excl_ackOutgoingFrames (e : Env) (l : ISDNQ921) (f : ISDNFrame)
    (h : timersExclusive l = true) :
    timersExclusive (ackOutgoingFrames e l f).2 = true := by
  unfold ackOutgoingFrames
  dsimp only
  split_ifs
  · exact excl_timer _ _ _ _ _
  · exact excl_timer _ _ _ _ _
  · exact excl_timer _ _ _ _ _
  · exact h

theorem excl_processDataFrame (e : Env) (l : ISDNQ921) (f : ISDNFrame) (ack : Bool)
    (h : timersExclusive l = true) :
    timersExclusive (processDataFrame e l f ack).2 = true := by
  unfold processDataFrame
  dsimp only
  split_ifs <;>
    simp only [excl_mk, excl_fold, excl_timer, excl_sendSFrame, excl_dropFrame,
      excl_sendOutgoingData, excl_ackOutgoingFrames, h]

theorem excl_ite (c : Prop) [Decidable c] (x y : ISDNQ921)
    (hx : timersExclusive x = true) (hy : timersExclusive y = true) :
    timersExclusive (if c then x else y) = true := by
  split_ifs
  · exact hx
  · exact hy

theorem excl_sendSFrame_of (e : Env) (l : ISDNQ921) (t : FrameType) (c p : Bool)
    (h : timersExclusive l = true) : timersExclusive (sendSFrame e l t c p).2 = true := by
  rw [excl_sendSFrame]; exact h

theorem excl_processSFrame (e : Env) (l : ISDNQ921) (f : ISDNFrame)
    (h : timersExclusive l = true) :
    timersExclusive (processSFrame e l f).2 = true := by
  unfold processSFrame
  by_cases h1 : l.m_state ≠ .Established
  · rw [if_pos h1]; exact h
  · rw [if_neg h1]
    by_cases h2 : f.m_type = .RR
    · rw [if_pos h2]
      lift_lets
      intro l1 l2 r sent l3 l4 l5 l6
      have k2 : timersExclusive l2 = true := excl_ackOutgoingFrames e l1 f h
      have k3 : timersExclusive l3 = true := excl_sendOutgoingData e l2 false k2
      have k4 : timersExclusive l4 = true :=
        excl_ite _ _ _ (excl_sendSFrame_of _ _ _ _ _ k3) k3
      have k5 : timersExclusive l5 = true :=
        excl_ite _ _ _ (excl_ite _ _ _ (excl_timer _ _ _ _ _) k4) k3
      exact excl_ite _ _ _ (excl_timer _ _ _ _ _) k5
    · rw [if_neg h2]
      by_cases h3 : f.m_type = .REJ
      · rw [if_pos h3]
        lift_lets
        intro l1 l2 rspPF m1 m2 r m3 m4 m5
        have k2 : timersExclusive l2 = true := excl_ackOutgoingFrames e l1 f h
        have j1 : timersExclusive m1 = true := k2
        have j2 : timersExclusive m2 = true :=
          excl_ite _ _ _ (excl_sendSFrame_of _ _ _ _ _ j1) j1
        have j3 : timersExclusive m3 = true :=
          excl_ite _ _ _ (excl_timer _ _ _ _ _) j2
        have j4 : timersExclusive m4 = true := k2
        have j5 : timersExclusive m5 = true :=
          excl_ite _ _ _ (excl_sendSFrame_of _ _ _ _ _ j4) j4
        show timersExclusive (Prod.snd (ite _ _ _)) = true
        rw [apply_ite Prod.snd]
        exact excl_ite _ _ _ j3 j5
      · rw [if_neg h3]
        by_cases h4 : f.m_type = .RNR
        · rw [if_pos h4]
          lift_lets
          intro l1 l2 l3 l4
          have k2 : timersExclusive l2 = true := excl_ackOutgoingFrames e l1 f h
          have k3 : timersExclusive l3 = true :=
            excl_ite _ _ _ (excl_ite _ _ _ (excl_sendSFrame_of _ _ _ _ _ k2) k2) k2
          exact excl_ite _ _ _ (excl_timer _ _ _ _ _) k3
        · rw [if_neg h4]; exact h

theorem excl_processUFrame (e : Env) (l : ISDNQ921) (f : ISDNFrame) (s : State) (c : Bool) :
    timersExclusive (processUFrame e l f s c).2 = timersExclusive l := by
  unfold processUFrame
  dsimp only
  split <;> (try split) <;> (try split_ifs) <;>
    simp only [excl_mk, excl_fold, excl_sendUFrame, excl_dropFrame]

theorem excl_acceptFrame (l : ISDNQ921) (f : ISDNFrame) :
    timersExclusive (acceptFrame l f).2.2 = timersExclusive l := by
  unfold acceptFrame
  dsimp only
  split_ifs <;> simp only [excl_mk, excl_fold, excl_dropFrame]

theorem excl_applyState (e : Env) (l : ISDNQ921) (s : State) (c : Bool) :
    timersExclusive (applyState e l s c) = true := by
  unfold applyState
  cases s <;>
    simp only [excl_timer, excl_upcall, excl_changeState, excl_reset]

theorem excl_multipleFrame (e : Env) (l : ISDNQ921) (a b : Bool)
    (h : timersExclusive l = true) :
    timersExclusive (multipleFrame e l a b).2 = true := by
  unfold multipleFrame
  dsimp only
  split_ifs <;> simp only [excl_timer, excl_upcall, h]

theorem excl_sendData (e : Env) (l : ISDNQ921) (d : DataBlock) (ack : Bool)
    (h : timersExclusive l = true) :
    timersExclusive (sendData e l d ack).2 = true := by
  unfold sendData
  dsimp only
  split_ifs <;>
    simp only [excl_mk, excl_fold, excl_sendFrame, excl_sendOutgoingData, h]

theorem excl_cleanup (e : Env) (l : ISDNQ921) :
    timersExclusive (cleanup e l) = true := by
  unfold cleanup
  simp only [excl_changeState, excl_reset]

theorem excl_timerTick (e : Env) (l : ISDNQ921) (when : Nat)
    (h : timersExclusive l = true) :
    timersExclusive (timerTick e l when) = true := by
  unfold timerTick
  lift_lets
  intro s0 l1 l2 l3 t l4 l5 l6 r s1 l7 l8
  have k1 : timersExclusive l1 = true := excl_ite _ _ _ (excl_timer _ _ _ _ _) h
  have k3 : timersExclusive l3 = true := by
    show timersExclusive (upcall (changeState (reset e l1) _) _) = true
    rw [excl_upcall, excl_changeState]
    exact excl_reset _ _
  have k0 : timersExclusive { s0 with m_timerRecovery := false } = true :=
    excl_timer e l false true when
  exact excl_ite _ _ _ h (excl_ite _ _ _ k0 (excl_ite _ _ _ h (excl_ite _ _ _ k1
    (excl_ite _ _ _ (excl_ite _ _ _ (excl_multipleFrame e l3 true false k3) k3)
      (excl_ite _ _ _ (excl_timer _ _ _ _ _) (excl_timer _ _ _ _ _))))))

theorem excl_notify (e : Env) (l : ISDNQ921) (ev : Notification)
    (h : timersExclusive l = true) :
    timersExclusive (notify e l ev).2 = true := by
  unfold notify
  dsimp only
  split_ifs <;>
    simp only [excl_mk, excl_fold, excl_upcall, excl_changeState, excl_reset,
      excl_multipleFrame, h]

end ISDNQ921

namespace ISDNQ921

theorem excl_receivedPacket (e : Env) (l : ISDNQ921) (packet : DataBlock)
    (h : timersExclusive l = true) :
    timersExclusive (receivedPacket e l packet).2 = true := by
  by_cases hlen : packet.length = 0
  · simp only [receivedPacket, hlen, if_true]; exact h
  · cases hparse : ISDNFrame.parse packet (some l.m_network) with
    | none => simp only [receivedPacket, hlen, if_false, hparse]; exact h
    | some f =>
      have h0 : timersExclusive { l with m_errorReceive := false } = true := h
      have hA : timersExclusive (acceptFrame { l with m_errorReceive := false } f).2.2 = true := by
        rw [excl_acceptFrame]; exact h0
      by_cases hacc0 : (acceptFrame { l with m_errorReceive := false } f).1.1 = true
      · obtain ⟨hv, hsapi, htei, hseq, hcr, hxid, hnr, hdl⟩ := acceptFrame_accepted _ f hacc0
        have htype := ISDNFrame.parse_error_type packet _ f hparse hv
        have hacc : (acceptFrame l f).1.1 = true := by
          rw [acceptFrame_ok l f htype.symm (by rw [htype]; exact hv) hsapi htei hseq hcr hxid
            hnr hdl]
        have h1 : timersExclusive
            { l with m_errorReceive := false, m_rxFrames := inc32 l.m_rxFrames } = true := h
        rw [receivedPacket_accepted e l packet f hparse hacc]
        split_ifs
        · rw [excl_upcall]; exact excl_processDataFrame e _ f _ h1
        · exact excl_processDataFrame e _ f _ h1
        · exact excl_processSFrame e _ f h1
        · exact excl_applyState _ _ _ _
        · rw [excl_processUFrame]; exact h1
      · have hacc1 : (acceptFrame { l with m_errorReceive := false } f).1.1 = false := by
          simpa using hacc0
        cases hrej : (acceptFrame { l with m_errorReceive := false } f).1.2
        · simp only [receivedPacket, hlen, if_false, hparse, hacc1, hrej, Bool.not_false, if_true]
          generalize (acceptFrame { l with m_errorReceive := false } f).2.2 = l1 at hA ⊢
          generalize (acceptFrame { l with m_errorReceive := false } f).2.1 = f1
          split_ifs
          · show timersExclusive (sendSFrame e l1 .REJ true true).2 = true
            rw [excl_sendSFrame]; exact hA
          · show timersExclusive (sendSFrame e l1 .RR false f1.m_poll).2 = true
            rw [excl_sendSFrame]; exact hA
          · exact hA
        · simp only [receivedPacket, hlen, if_false, hparse, hacc1, hrej, Bool.not_false, if_true,
            Bool.not_true, Bool.false_eq_true]
          exact excl_timer _ _ _ _ _

/-- Each call on a link keeps the timers exclusive. -/
theorem excl_apply (l : ISDNQ921) (c : LinkCall) (h : timersExclusive l = true) :
    timersExclusive (c.apply l) = true := by
  cases c with
  | multipleFrame e a b => exact excl_multipleFrame e l a b h
  | sendData e d a => exact excl_sendData e l d a h
  | receivedPacket e p => exact excl_receivedPacket e l p h
  | timerTick e w => exact excl_timerTick e l w h
  | notify e ev => exact excl_notify e l ev h
  | cleanup e => exact excl_cleanup e l

theorem excl_runCalls (calls : List LinkCall) :
    ∀ l : ISDNQ921, timersExclusive l = true → timersExclusive (runCalls l calls) = true := by
  induction calls with
  | nil => intro l h; exact h
  | cons c rest ih => intro l h; exact ih _ (excl_apply l c h)

/-- C29: timer exclusivity. In every state reached from a freshly constructed
link (any configuration) by any sequence of `multipleFrame`, `sendData`,
`receivedPacket`, `timerTick`, `notify` and `cleanup` calls, whatever the
interface and the clock do, at most one of T200 and T203 is running; and
`timerTick` on a Released link returns the link unchanged, timers and transmit
log included. -/
theorem timers_exclusive (p : Params) (calls : List LinkCall) :
    timersExclusive (runCalls (new p) calls) = true ∧
    ¬ ((runCalls (new p) calls).m_retransTimer.started = true ∧
       (runCalls (new p) calls).m_idleTimer.started = true) ∧
    (∀ (e : Env) (l : ISDNQ921) (when : Nat), l.m_state = .Released → timerTick e l when = l) := by
  have h := excl_runCalls calls (new p) (by simp [timersExclusive, new, SignallingTimer.started])
  refine ⟨h, ?_, ?_⟩
  · intro hc
    simp [timersExclusive, hc.1, hc.2] at h
  · intro e l when hst
    simp [timerTick, hst]

theorem timers_exclusive_witness :
    timerTick quietEnv (new defaultParams) 9000 = new defaultParams :=
  (timers_exclusive defaultParams []).2.2 quietEnv (new defaultParams) 9000 (by decide)

end ISDNQ921

/-! ## Acknowledgment, queue order, reset; passive link; tick loop -/

namespace ISDNQ921

/-- `reset` leaves the idle timer T203 as it was. -/
theorem reset_idleTimer (e : Env) (l : ISDNQ921) :
    (reset e l).m_idleTimer = l.m_idleTimer := by
  rw [reset_eq]

/-- `timer(false,true)` stops the idle timer T203 when it is running. -/
theorem timer_idle_running (e : Env) (l : ISDNQ921) (time : Nat)
    (h : l.m_idleTimer.started = true) :
    (timer e l false true time).m_idleTimer.started = false := by
  rw [timer_idle]
  simp only [h, if_true]
  simp [SignallingTimer.stop, SignallingTimer.started]

/-- `timer(false,false)` leaves the idle timer T203 as it was. -/
theorem timer_stop_idleTimer (e : Env) (l : ISDNQ921) (time : Nat) :
    (timer e l false false time).m_idleTimer = l.m_idleTimer := by
  rw [timer_stop]

/-- C27 fails in the code: on `ackedOnceLink` (Established, V(S) = 7, queue
holding the unacknowledged frames N(S) = 1..6) the RR response with N(R) = 0
(octets 00 01 01 00) is accepted, V(A) being still 0, and the acknowledging
loop, finding no queued frame with N(S) = 0, removes all six frames although
their N(S) lie in [0, 7). -/
theorem RR_discards_unacknowledged_frames :
    ackedOnceLink.m_state = .Established ∧
    ackedOnceLink.m_vs = 7 ∧ ackedOnceLink.m_va = 0 ∧
    ackedOnceLink.m_outFrames.map (fun f => f.m_ns) = [1, 2, 3, 4, 5, 6] ∧
    ISDNFrame.parse [0x00, 0x01, 0x01, 0x00] (some ackedOnceLink.m_network) =
      some (ISDNFrame.build .RR false true 0 0 false 0xFF 0 []) ∧
    (acceptFrame ackedOnceLink (ISDNFrame.build .RR false true 0 0 false 0xFF 0 [])).1 =
      (true, false) ∧
    (receivedPacket quietEnv ackedOnceLink [0x00, 0x01, 0x01, 0x00]).2.m_state =
      .Established ∧
    (receivedPacket quietEnv ackedOnceLink [0x00, 0x01, 0x01, 0x00]).2.m_vs = 7 ∧
    (receivedPacket quietEnv ackedOnceLink [0x00, 0x01, 0x01, 0x00]).2.m_outFrames = [] := by
  decide

/-- C28 fails in the code: on `rejectedLink` the REJ with N(R) = 1 has rewound
V(S) to 1 while the queue still holds the frames N(S) = 1, 2, so the last
N(S) is not (V(S) - 1) mod 128 = 0; the next `sendData` is accepted, numbers
its frame N(S) = 1 and queues it behind them, so the queue reads 1, 2, 1 and a
second, different frame with N(S) = 1 is transmitted. -/
theorem REJ_breaks_queue_order :
    ISDNFrame.parse [0x00, 0x01, 0x09, 0x02] (some (establishedLink defaultParams).m_network) =
      some (ISDNFrame.build .REJ false true 0 0 false 0xFF 1 []) ∧
    rejectedLink.m_state = .Established ∧
    rejectedLink.m_vs = 1 ∧
    rejectedLink.m_outFrames.map (fun f => f.m_ns) = [1, 2] ∧
    (sendData quietEnv rejectedLink [9] true).1 = true ∧
    (sendData quietEnv rejectedLink [9] true).2.m_vs = 2 ∧
    (sendData quietEnv rejectedLink [9] true).2.m_outFrames.map (fun f => f.m_ns) = [1, 2, 1] ∧
    (sendData quietEnv rejectedLink [9] true).2.txLog.drop 4 =
      [[0x00, 0x01, 0x02, 0x00, 0x02], [0x00, 0x01, 0x04, 0x00, 0x03],
       [0x00, 0x01, 0x02, 0x00, 0x09]] := by
  decide

/-- C30 fails in the code: on the Established link of Scenario 1 T203 is
running; it is still running after `reset()` and after `cleanup()`, which
leaves the link Released; `timer(false,true)` stops it and `timer(false,false)`
leaves it running. -/
theorem reset_leaves_T203_running :
    (establishedLink defaultParams).m_idleTimer.started = true ∧
    (establishedLink defaultParams).m_retransTimer.started = false ∧
    (reset quietEnv (establishedLink defaultParams)).m_idleTimer.started = true ∧
    (cleanup quietEnv (establishedLink defaultParams)).m_state = .Released ∧
    (cleanup quietEnv (establishedLink defaultParams)).m_idleTimer.started = true ∧
    (timer quietEnv (establishedLink defaultParams) false true 0).m_idleTimer.started = false ∧
    (timer quietEnv (establishedLink defaultParams) false false 0).m_idleTimer.started =
      true := by
  decide

end ISDNQ921

namespace ISDNQ921Pasive

/-- C26 fails in the code: the first data frame received by a newly
constructed passive link, the UI command with payload 2a (octets 02 01 03 2a),
is accepted (nothing is counted as dropped) but not delivered to Layer 3,
because a UI frame carries N(S) = 0xFF, the value `m_lastFrame` is constructed
with; after an I frame, of two different UI frames in a row only the first is
delivered. -/
theorem first_UI_frame_suppressed :
    (new ISDNQ921.defaultParams 4000 ISDNQ921.quietEnv).m_lastFrame = 255 ∧
    (ISDNFrame.parse [0x02, 0x01, 0x03, 0x2a]
        (some (new ISDNQ921.defaultParams 4000 ISDNQ921.quietEnv).m_network)).map
      (fun f => (f.m_type, f.m_category, f.m_ns, f.getData)) =
        some (.UI, .Data, 255, [0x2a]) ∧
    (receivedPacket ISDNQ921.quietEnv (new ISDNQ921.defaultParams 4000 ISDNQ921.quietEnv)
      [0x02, 0x01, 0x03, 0x2a]).1 = true ∧
    (receivedPacket ISDNQ921.quietEnv (new ISDNQ921.defaultParams 4000 ISDNQ921.quietEnv)
      [0x02, 0x01, 0x03, 0x2a]).2.m_rxDroppedFrames = 0 ∧
    (receivedPacket ISDNQ921.quietEnv (new ISDNQ921.defaultParams 4000 ISDNQ921.quietEnv)
      [0x02, 0x01, 0x03, 0x2a]).2.upLog = [] ∧
    (receivedPacket ISDNQ921.quietEnv
      (receivedPacket ISDNQ921.quietEnv
        (receivedPacket ISDNQ921.quietEnv (new ISDNQ921.defaultParams 4000 ISDNQ921.quietEnv)
          [0x02, 0x01, 0x00, 0x00, 0x2a]).2
        [0x02, 0x01, 0x03, 0x2b]).2
      [0x02, 0x01, 0x03, 0x2c]).2.upLog =
      [.receiveData [0x2a] true, .receiveData [0x2b] false] := by
  decide

end ISDNQ921Pasive

namespace SignallingEngine

/-- No registry operation touches `m_listChanged`. -/
theorem listChanged_remove (w : SigWorld) (E : Nat) (c : Option Nat) (F : Nat) :
    ((remove w E c).engines F).m_listChanged = (w.engines F).m_listChanged := by
  unfold remove
  cases c with
  | none => rfl
  | some c =>
    dsimp only
    split_ifs
    · rfl
    · simp only [SigWorld.setComponents, SigWorld.setEngine]
      split_ifs <;> rfl

theorem listChanged_detach (w : SigWorld) (c : Nat) (F : Nat) :
    ((SignallingComponent.detach w c).engines F).m_listChanged =
      (w.engines F).m_listChanged := by
  unfold SignallingComponent.detach
  split
  · show ((remove w _ (some c)).engines F).m_listChanged = _
    exact listChanged_remove _ _ _ _
  · rfl

theorem listChanged_insert (w : SigWorld) (E : Nat) (c : Option Nat) (F : Nat) :
    ((insert w E c).engines F).m_listChanged = (w.engines F).m_listChanged := by
  unfold insert
  cases c with
  | none => rfl
  | some c =>
    dsimp only
    split_ifs
    · rfl
    · simp only [SigWorld.setComponents, SigWorld.setEngine]
      split_ifs <;> exact listChanged_detach _ _ _

theorem listChanged_removeName (w : SigWorld) (E : Nat) (name : String) (F : Nat) :
    ((removeName w E name).2.engines F).m_listChanged = (w.engines F).m_listChanged := by
  unfold removeName
  split_ifs
  · rfl
  · split
    · rfl
    · simp only [SigWorld.setComponents, SigWorld.setEngine]
      split_ifs <;> rfl

/-- C25 fails in the code: engine 0 holds the components 1 and 2 and the tick
handler of component 1 inserts component 3 in the engine; the pass of
`timerTick` does not stop after component 1 but goes on to tick 2 and the new
component 3, and `m_listChanged` is still false at the end. -/
theorem tick_pass_ignores_insertion :
    (SigWorld.twoComponents.engines 0).m_components = [1, 2] ∧
    ((SigWorld.insertingTick 1 SigWorld.twoComponents).engines 0).m_components = [1, 2, 3] ∧
    (timerTick SigWorld.insertingTick SigWorld.twoComponents 0 10).map
      (fun r => (r.2, (r.1.engines 0).m_components, (r.1.engines 0).m_listChanged)) =
      some ([1, 2, 3], [1, 2, 3], false) := by
  decide

end SignallingEngine

namespace SS7Route

/-- C22 as stated fails: two networks 1 and 2 that both report priority 3,
attached in that order to a new route, are listed 2, 1, and a transmission
that the first network tried accepts goes to network 2; the same with
priority 0. -/
theorem tie_order_counterexample :
    (attach (fun _ _ _ => 3) (attach (fun _ _ _ => 3) { m_packed := 0, m_networks := [] }
      (some 1) 0) (some 2) 0).m_networks = [some 2, some 1] ∧
    (transmitMSU (fun _ _ => 0)
      (attach (fun _ _ _ => 3) (attach (fun _ _ _ => 3) { m_packed := 0, m_networks := [] }
        (some 1) 0) (some 2) 0)).2 = [2] ∧
    (attach (fun _ _ _ => 0) (attach (fun _ _ _ => 0) { m_packed := 0, m_networks := [] }
      (some 1) 0) (some 2) 0).m_networks = [some 2, some 1] := by
  decide

end SS7Route

/-! ## SS7Route -/

namespace SS7Route

theorem detachLoop_eq_erase (n : Nat) (l : List (Option Nat)) :
    detachLoop n l = l.erase (some n) := by
  induction l with
  | nil => rfl
  | cons p rest ih =>
    by_cases h : p = some n
    · simp [detachLoop, h]
    · simp [detachLoop, h, List.erase_cons_tail, ih]

theorem detachLoop_map_some (n : Nat) (ns : List Nat) :
    detachLoop n (ns.map some) = (ns.erase n).map some := by
  induction ns with
  | nil => rfl
  | cons m rest ih =>
    by_cases h : m = n
    · simp [detachLoop, h]
    · simp [detachLoop, h, List.erase_cons_tail, ih]

theorem insertLoop_map_some (f : Nat → Nat) (n : Nat) (ns : List Nat) :
    insertLoop f (f n) n (ns.map some) =
      (List.orderedInsert (fun a b => f a ≤ f b) n ns).map some := by
  induction ns with
  | nil => rfl
  | cons m rest ih =>
    by_cases h : f n ≤ f m
    · simp [insertLoop, h, List.orderedInsert]
    · simp [insertLoop, h, List.orderedInsert, ih]

/-- One call keeps the list a duplicate-free list of networks in ascending
priority order, and attaches or detaches the network it names. -/
theorem applyCall_sorted (prio : Nat → Nat → Nat → Nat) (type : Nat) (r : SS7Route)
    (c : RouteCall) (ns : List Nat) (m : Nat → Bool)
    (hfixed : ∀ n, prio n type r.m_packed ≠ noRoute)
    (hl : r.m_networks = ns.map some) (hnd : ns.Nodup)
    (hs : ns.Pairwise (fun a b => prio a type r.m_packed ≤ prio b type r.m_packed))
    (hm : ∀ n, n ∈ ns ↔ m n = true) :
    ∃ ns2 : List Nat,
      (applyCall prio type r c).m_packed = r.m_packed ∧
      (applyCall prio type r c).m_networks = ns2.map some ∧ ns2.Nodup ∧
      ns2.Pairwise (fun a b => prio a type r.m_packed ≤ prio b type r.m_packed) ∧
      ∀ n, n ∈ ns2 ↔ attachedStep n (m n) c = true := by
  cases c with
  | detach network =>
    cases network with
    | none => exact ⟨ns, rfl, hl, hnd, hs, fun n => by simpa [attachedStep] using hm n⟩
    | some x =>
      refine ⟨ns.erase x, rfl, ?_, hnd.erase x, hs.sublist (List.erase_sublist x ns), ?_⟩
      · simp [applyCall, detach, hl, detachLoop_map_some]
      · intro n
        rw [hnd.mem_erase_iff]
        by_cases hx : x = n
        · simp [attachedStep, hx]
        · simp [attachedStep, hx, hm n, Ne.symm hx]
  | attach network =>
    cases network with
    | none => exact ⟨ns, rfl, hl, hnd, hs, fun n => by simpa [attachedStep] using hm n⟩
    | some x =>
      have hmem : ∀ n, (n = x ∨ n ∈ ns.erase x) ↔ attachedStep n (m n) (.attach (some x)) = true := by
        intro n
        rw [hnd.mem_erase_iff]
        by_cases hx : x = n
        · simp [attachedStep, hx]
        · simp [attachedStep, hx, hm n, Ne.symm hx]
      have hx_not : x ∉ ns.erase x := hnd.not_mem_erase
      have hs2 := hs.sublist (List.erase_sublist x ns)
      have hz : ¬ (0 = noRoute) := by decide
      by_cases h0 : prio x type r.m_packed = 0
      · refine ⟨x :: ns.erase x, ?_, ?_, List.nodup_cons.mpr ⟨hx_not, hnd.erase x⟩, ?_, ?_⟩
        · simp [applyCall, attach, h0, hz, detach]
        · simp [applyCall, attach, h0, hz, detach, hl, detachLoop_map_some]
        · refine List.pairwise_cons.mpr ⟨?_, hs2⟩
          intro b _
          rw [h0]; exact Nat.zero_le _
        · intro n
          rw [List.mem_cons]
          exact hmem n
      · refine ⟨List.orderedInsert
          (fun a b => prio a type r.m_packed ≤ prio b type r.m_packed) x (ns.erase x),
          ?_, ?_, ?_, ?_, ?_⟩
        · simp [applyCall, attach, hfixed x, h0, detach]
        · simp only [applyCall, attach, hfixed x, h0, detach, hl, detachLoop_map_some, if_false]
          exact insertLoop_map_some (fun q => prio q type r.m_packed) x (ns.erase x)
        · exact (List.perm_orderedInsert _ x (ns.erase x)).nodup_iff.mpr
            (List.nodup_cons.mpr ⟨hx_not, hnd.erase x⟩)
        · haveI : IsTotal Nat (fun a b => prio a type r.m_packed ≤ prio b type r.m_packed) :=
            ⟨fun a b => le_total _ _⟩
          haveI : IsTrans Nat (fun a b => prio a type r.m_packed ≤ prio b type r.m_packed) :=
            ⟨fun _ _ _ h1 h2 => le_trans h1 h2⟩
          exact List.Sorted.orderedInsert x (ns.erase x) hs2
        · intro n
          rw [List.mem_orderedInsert]
          exact hmem n

/-- A sequence of calls keeps the list a duplicate-free list of networks in
ascending priority order, holding the networks attached. -/
theorem runCalls_sorted (prio : Nat → Nat → Nat → Nat) (type : Nat) (calls : List RouteCall) :
    ∀ (r : SS7Route) (ns : List Nat) (m : Nat → Bool),
      (∀ n, prio n type r.m_packed ≠ noRoute) →
      r.m_networks = ns.map some → ns.Nodup →
      ns.Pairwise (fun a b => prio a type r.m_packed ≤ prio b type r.m_packed) →
      (∀ n, n ∈ ns ↔ m n = true) →
      ∃ ns2 : List Nat,
        (runCalls prio type r calls).m_networks = ns2.map some ∧ ns2.Nodup ∧
        ns2.Pairwise (fun a b => prio a type r.m_packed ≤ prio b type r.m_packed) ∧
        ∀ n, n ∈ ns2 ↔ calls.foldl (attachedStep n) (m n) = true := by
  induction calls with
  | nil => intro r ns m _ hl hnd hs hm; exact ⟨ns, hl, hnd, hs, hm⟩
  | cons c rest ih =>
    intro r ns m hfixed hl hnd hs hm
    obtain ⟨ns1, hp, hl1, hnd1, hs1, hm1⟩ := applyCall_sorted prio type r c ns m hfixed hl hnd hs hm
    have := ih (applyCall prio type r c) ns1 (fun n => attachedStep n (m n) c)
      (by rw [hp]; exact hfixed) hl1 hnd1 (by rw [hp]; exact hs1) hm1
    rw [hp] at this
    exact this

end SS7Route

namespace SS7Route

/-- Where the loop of `attach` puts the network: behind null pointers and
networks of lower priority only. -/
theorem insertLoop_split (f : Nat → Nat) (p n : Nat) (l : List (Option Nat)) :
    ∃ pre post, l = pre ++ post ∧ insertLoop f p n l = pre ++ some n :: post ∧
      ∀ x ∈ pre, x = none ∨ ∃ q, x = some q ∧ f q < p := by
  induction l with
  | nil => exact ⟨[], [], rfl, rfl, by simp⟩
  | cons a rest ih =>
    obtain ⟨pre, post, h1, h2, h3⟩ := ih
    cases a with
    | none =>
      refine ⟨none :: pre, post, by simp [h1], by simp [insertLoop, h2], ?_⟩
      intro x hx
      rcases List.mem_cons.mp hx with h | h
      · exact Or.inl h
      · exact h3 x h
    | some q =>
      by_cases hq : p ≤ f q
      · exact ⟨[], some q :: rest, rfl, by simp [insertLoop, hq], by simp⟩
      · refine ⟨some q :: pre, post, by simp [h1], by simp [insertLoop, hq, h2], ?_⟩
        intro x hx
        rcases List.mem_cons.mp hx with h | h
        · exact Or.inr ⟨q, h, by omega⟩
        · exact h3 x h

/-- Outcome of the loop of `transmitMSU`: either every network answered -1 and
all were tried, or the networks up to the first one with another answer were
tried and that answer is the result. -/
theorem transmitLoop_spec (send : Nat → Nat → Int) (l : List (Option Nat)) :
    ∀ calls : List Nat,
      ((transmitLoop send calls l).1 = -1 ∧
        (transmitLoop send calls l).2 = calls ++ l.reduceOption ∧
        ∀ pre n post, l.reduceOption = pre ++ n :: post →
          send (calls.length + pre.length) n = -1) ∨
      (∃ pre n post, l.reduceOption = pre ++ n :: post ∧
        (transmitLoop send calls l).2 = calls ++ pre ++ [n] ∧
        (transmitLoop send calls l).1 = send (calls.length + pre.length) n ∧
        (transmitLoop send calls l).1 ≠ -1 ∧
        ∀ pre1 k post1, pre = pre1 ++ k :: post1 →
          send (calls.length + pre1.length) k = -1) := by
  induction l with
  | nil =>
    intro calls
    left
    refine ⟨rfl, by simp [transmitLoop], ?_⟩
    intro pre n post h
    simp at h
  | cons a rest ih =>
    intro calls
    cases a with
    | none =>
      simp only [transmitLoop, List.reduceOption_cons_of_none]
      exact ih calls
    | some x =>
      simp only [transmitLoop, List.reduceOption_cons_of_some]
      by_cases hx : send calls.length x = -1
      · simp only [hx, ne_eq, not_true_eq_false, if_false]
        rcases ih (calls ++ [x]) with ⟨h1, h2, h3⟩ | ⟨pre, n, post, h1, h2, h3, h4, h5⟩
        · left
          refine ⟨h1, by rw [h2]; simp, ?_⟩
          intro pre n post h
          cases pre with
          | nil =>
            simp at h
            rw [← h.1]; simpa using hx
          | cons y pre1 =>
            simp at h
            have := h3 pre1 n post h.2
            have e1 : calls.length + (y :: pre1).length = (calls ++ [x]).length + pre1.length := by
              simp only [List.length_append, List.length_cons, List.length_nil]; omega
            rw [e1]; exact this
        · right
          refine ⟨x :: pre, n, post, by simp [h1], by rw [h2]; simp, ?_, h4, ?_⟩
          · have e1 : calls.length + (x :: pre).length = (calls ++ [x]).length + pre.length := by
              simp only [List.length_append, List.length_cons, List.length_nil]; omega
            rw [h3, e1]
          · intro pre1 k post1 h
            cases pre1 with
            | nil =>
              simp at h
              rw [← h.1]; simpa using hx
            | cons y pre2 =>
              simp at h
              have := h5 pre2 k post1 h.2
              have e1 : calls.length + (y :: pre2).length =
                  (calls ++ [x]).length + pre2.length := by
                simp only [List.length_append, List.length_cons, List.length_nil]; omega
              rw [e1]; exact this
      · simp only [ne_eq, hx, not_false_eq_true, if_true]
        right
        exact ⟨[], x, rest.reduceOption, rfl, by simp, by simp, by simp [hx], by simp⟩

end SS7Route

namespace SS7Route

theorem reduceOption_map_some (ns : List Nat) : (ns.map some).reduceOption = ns := by
  induction ns with
  | nil => rfl
  | cons a rest ih => simp [List.reduceOption_cons_of_some, ih]

/-- The networks tried by `transmitMSU` are an initial part of the list. -/
theorem transmitMSU_sublist (send : Nat → Nat → Int) (r : SS7Route) :
    (transmitMSU send r).2.Sublist (networks r) := by
  unfold transmitMSU networks
  rcases transmitLoop_spec send r.m_networks [] with ⟨_, h2, _⟩ | ⟨pre, n, post, h1, h2, _⟩
  · rw [h2]; simp
  · rw [h2, h1]
    simp only [List.nil_append]
    exact List.Sublist.append_left (List.Sublist.cons₂ n (List.nil_sublist post)) pre

/-- C21: `SS7Route` keeps its networks in ascending priority order without
duplicates. If every network reports a fixed priority other than the no-route
value for the destination of the route, then after any sequence of `attach`
and `detach` calls on a new route the list holds no null pointer and no
network twice, holds a network (exactly once, then) iff the last call naming
it was an `attach`, the priorities are non-decreasing from head to tail,
and so are those of the networks `transmitMSU` tries, in the order it tries
them. Attaching a network that reports the no-route value leaves any route
unchanged. -/
theorem route_sorted_without_duplicates (prio : Nat → Nat → Nat → Nat) (type packed : Nat)
    (calls : List RouteCall) (hfixed : ∀ n, prio n type packed ≠ noRoute) :
    (∀ p ∈ (runCalls prio type { m_packed := packed, m_networks := [] } calls).m_networks,
      p ≠ none) ∧
    (runCalls prio type { m_packed := packed, m_networks := [] } calls).m_networks.Nodup ∧
    (∀ n, some n ∈ (runCalls prio type { m_packed := packed, m_networks := [] } calls).m_networks
      ↔ attachedAfter calls n = true) ∧
    (networks (runCalls prio type { m_packed := packed, m_networks := [] } calls)).Pairwise
      (fun a b => prio a type packed ≤ prio b type packed) ∧
    (∀ send : Nat → Nat → Int,
      (transmitMSU send
        (runCalls prio type { m_packed := packed, m_networks := [] } calls)).2.Pairwise
        (fun a b => prio a type packed ≤ prio b type packed)) ∧
    (∀ (prio2 : Nat → Nat → Nat → Nat) (r : SS7Route) (n t : Nat),
      prio2 n t r.m_packed = noRoute → attach prio2 r (some n) t = r) := by
  obtain ⟨ns, hl, hnd, hs, hm⟩ := runCalls_sorted prio type calls
    { m_packed := packed, m_networks := [] } [] (fun _ => false) hfixed rfl List.nodup_nil
    List.Pairwise.nil (by simp)
  have hnets : networks (runCalls prio type { m_packed := packed, m_networks := [] } calls)
      = ns := by
    unfold networks
    rw [hl, reduceOption_map_some]
  refine ⟨?_, ?_, ?_, ?_, ?_, ?_⟩
  · rw [hl]
    intro p hp
    obtain ⟨a, _, rfl⟩ := List.mem_map.mp hp
    simp
  · rw [hl]
    exact hnd.map (Option.some_injective Nat)
  · intro n
    have hmem : some n ∈ ns.map some ↔ n ∈ ns :=
      List.mem_map_of_injective (Option.some_injective Nat)
    rw [hl, hmem]
    exact hm n
  · rw [hnets]; exact hs
  · intro send
    have := transmitMSU_sublist send
      (runCalls prio type { m_packed := packed, m_networks := [] } calls)
    rw [hnets] at this
    exact hs.sublist this
  · intro prio2 r n t h
    simp [attach, h]

theorem route_sorted_without_duplicates_witness :
    (transmitMSU (fun _ _ => -1)
      (runCalls scenarioPriority 0 { m_packed := 0, m_networks := [] }
        [.attach (some 1), .attach (some 2), .attach (some 3)])).2.Pairwise
      (fun a b => scenarioPriority a 0 0 ≤ scenarioPriority b 0 0) ∧
    (transmitMSU (fun _ _ => -1)
      (runCalls scenarioPriority 0 { m_packed := 0, m_networks := [] }
        [.attach (some 1), .attach (some 2), .attach (some 3)])).2.map
      (fun n => scenarioPriority n 0 0) = [1, 3, 5] :=
  ⟨(route_sorted_without_duplicates scenarioPriority 0 0
      [.attach (some 1), .attach (some 2), .attach (some 3)]
      (fun n => by unfold scenarioPriority; split_ifs <;> decide)).2.2.2.2.1 (fun _ _ => -1),
   by decide⟩

/-- C22 (amended): `SS7Route.attach` puts a network before the networks of
equal priority. When a network `n2` is attached to a route that holds another
network `n1` reporting the same priority for the destination (priority 0
included, the no-route value excluded), `n2` precedes `n1` in the list
afterwards: the list is `pre ++ n2 :: post` with `n1` in `post` and neither in
`pre`, so `transmitMSU` tries equal-priority networks latest attached
first. -/
theorem attach_before_equal_priority (prio : Nat → Nat → Nat → Nat) (type : Nat)
    (r : SS7Route) (n1 n2 : Nat) (hne : n1 ≠ n2) (hmem : some n1 ∈ r.m_networks)
    (heq : prio n2 type r.m_packed = prio n1 type r.m_packed)
    (hroute : prio n2 type r.m_packed ≠ noRoute) :
    ∃ pre post, (attach prio r (some n2) type).m_networks = pre ++ some n2 :: post ∧
      some n1 ∈ post ∧ some n1 ∉ pre ∧ some n2 ∉ pre := by
  have hne2 : (some n1 : Option Nat) ≠ some n2 := fun h => hne (Option.some.inj h)
  have hmem2 : some n1 ∈ detachLoop n2 r.m_networks := by
    rw [detachLoop_eq_erase]
    exact (List.mem_erase_of_ne hne2).mpr hmem
  have hz : ¬ (0 = noRoute) := by decide
  by_cases h0 : prio n2 type r.m_packed = 0
  · refine ⟨[], detachLoop n2 r.m_networks, ?_, hmem2, by simp, by simp⟩
    simp [attach, h0, hz, detach]
  · obtain ⟨pre, post, h1, h2, h3⟩ := insertLoop_split
      (fun q => prio q type r.m_packed) (prio n2 type r.m_packed) n2 (detachLoop n2 r.m_networks)
    have hL : (attach prio r (some n2) type).m_networks = pre ++ some n2 :: post := by
      simp only [attach, hroute, h0, detach, if_false]
      exact h2
    have hpre1 : some n1 ∉ pre := by
      intro hc
      rcases h3 _ hc with h | ⟨q, hq, hlt⟩
      · cases h
      · cases hq
        rw [heq] at hlt
        exact Nat.lt_irrefl _ hlt
    have hpre2 : some n2 ∉ pre := by
      intro hc
      rcases h3 _ hc with h | ⟨q, hq, hlt⟩
      · cases h
      · cases hq
        exact Nat.lt_irrefl _ hlt
    have hpost : some n1 ∈ post := by
      rw [h1] at hmem2
      rcases List.mem_append.mp hmem2 with h | h
      · exact absurd h hpre1
      · exact h
    exact ⟨pre, post, hL, hpost, hpre1, hpre2⟩

theorem attach_before_equal_priority_witness :
    ∃ pre post,
      (attach scenarioPriority { m_packed := 0, m_networks := [some 2, some 4, some 1] }
        (some 3) 0).m_networks = pre ++ some 3 :: post ∧
      some 4 ∈ post ∧ some 4 ∉ pre ∧ some 3 ∉ pre :=
  attach_before_equal_priority scenarioPriority 0
    { m_packed := 0, m_networks := [some 2, some 4, some 1] } 4 3 (by decide) (by decide)
    (by decide) (by decide)

/-- C23: `SS7Route::transmitMSU` failover. The result is -1 iff every network
of the list answers -1 (in particular when the list holds none), and then all
of them were tried, in list order; otherwise the networks tried are those up
to and including the first whose `transmitMSU` answers another value, each
once and in list order, the result is that answer, every network before it
answered -1 and no network after it is tried. -/
theorem transmitMSU_failover (send : Nat → Nat → Int) (r : SS7Route) :
    ((transmitMSU send r).1 = -1 ↔
      ∀ pre n post, networks r = pre ++ n :: post → send pre.length n = -1) ∧
    ((transmitMSU send r).1 = -1 → (transmitMSU send r).2 = networks r) ∧
    ((transmitMSU send r).1 ≠ -1 →
      ∃ pre n post, networks r = pre ++ n :: post ∧
        (transmitMSU send r).2 = pre ++ [n] ∧
        (transmitMSU send r).1 = send pre.length n ∧
        ∀ pre1 k post1, pre = pre1 ++ k :: post1 → send pre1.length k = -1) := by
  unfold transmitMSU networks
  rcases transmitLoop_spec send r.m_networks [] with
    ⟨h1, h2, h3⟩ | ⟨pre, n, post, h1, h2, h3, h4, h5⟩
  · simp only [List.length_nil, Nat.zero_add, List.nil_append] at h2 h3
    refine ⟨⟨fun _ => h3, fun _ => h1⟩, fun _ => h2, fun hc => absurd h1 hc⟩
  · simp only [List.length_nil, Nat.zero_add, List.nil_append] at h2 h3 h5
    refine ⟨⟨fun hc => absurd hc h4, fun hall => ?_⟩, fun hc => absurd hc h4,
      fun _ => ⟨pre, n, post, h1, h2, h3, h5⟩⟩
    exact absurd (h3.trans (hall pre n post h1)) h4

theorem transmitMSU_failover_witness :
    (transmitMSU (fun _ _ => -1)
      { m_packed := 0, m_networks := [some 2, some 3, some 1] }).2 =
      networks { m_packed := 0, m_networks := [some 2, some 3, some 1] } :=
  (transmitMSU_failover (fun _ _ => -1)
    { m_packed := 0, m_networks := [some 2, some 3, some 1] }).2.1 (by decide)

end SS7Route

/-! ## SignallingEngine membership -/

namespace SignallingEngine

theorem remove_engine (w : SigWorld) (E c i : Nat) :
    ((remove w E (some c)).components i).m_engine =
      if (w.components c).m_engine = some E ∧ i = c then none
      else (w.components i).m_engine := by
  unfold remove
  by_cases h : (w.components c).m_engine = some E
  · by_cases hi : i = c <;> simp [h, hi, SigWorld.setEngine, SigWorld.setComponents]
  · simp [h]

theorem remove_list (w : SigWorld) (E c F : Nat) :
    ((remove w E (some c)).engines F).m_components =
      if (w.components c).m_engine = some E ∧ F = E then (w.engines F).m_components.erase c
      else (w.engines F).m_components := by
  unfold remove
  by_cases h : (w.components c).m_engine = some E
  · by_cases hF : F = E <;> simp [h, hF, SigWorld.setEngine, SigWorld.setComponents]
  · simp [h]

theorem detach_engine (w : SigWorld) (c i : Nat) :
    ((SignallingComponent.detach w c).components i).m_engine =
      if i = c then none else (w.components i).m_engine := by
  unfold SignallingComponent.detach
  cases h : (w.components c).m_engine with
  | none =>
    by_cases hi : i = c
    · simp [hi, h]
    · simp [hi]
  | some E =>
    by_cases hi : i = c
    · simp [hi, SigWorld.setEngine]
    · simp [hi, SigWorld.setEngine, remove_engine]

theorem detach_list (w : SigWorld) (c F : Nat) :
    ((SignallingComponent.detach w c).engines F).m_components =
      if (w.components c).m_engine = some F then (w.engines F).m_components.erase c
      else (w.engines F).m_components := by
  unfold SignallingComponent.detach
  cases h : (w.components c).m_engine with
  | none => simp
  | some E =>
    simp only [SigWorld.setEngine, remove_list, h, true_and, Option.some.injEq]
    by_cases hF : F = E
    · simp [hF]
    · simp [hF, Ne.symm hF]

theorem insert_engine (w : SigWorld) (E c i : Nat) :
    ((insert w E (some c)).components i).m_engine =
      if i = c then some E else (w.components i).m_engine := by
  unfold insert
  by_cases h : (w.components c).m_engine = some E
  · by_cases hi : i = c
    · simp [h, hi]
    · simp [h, hi]
  · by_cases hi : i = c
    · simp [h, hi, SigWorld.setEngine, SigWorld.setComponents]
    · simp [h, hi, SigWorld.setEngine, SigWorld.setComponents, detach_engine]

theorem insert_list (w : SigWorld) (E c F : Nat) :
    ((insert w E (some c)).engines F).m_components =
      if (w.components c).m_engine = some E then (w.engines F).m_components
      else if F = E then (w.engines F).m_components ++ [c]
      else if (w.components c).m_engine = some F then (w.engines F).m_components.erase c
      else (w.engines F).m_components := by
  unfold insert
  by_cases h : (w.components c).m_engine = some E
  · simp [h]
  · by_cases hF : F = E
    · subst hF
      simp [h, SigWorld.setEngine, SigWorld.setComponents, detach_list]
    · simp [h, hF, SigWorld.setEngine, SigWorld.setComponents, detach_list]

theorem removeName_found (w : SigWorld) (E : Nat) (name : String) (c : Nat)
    (hn : name ≠ "") (hf : find w E name = some c) (i F : Nat) :
    (((removeName w E name).2.components i).m_engine =
      if i = c then none else (w.components i).m_engine) ∧
    (((removeName w E name).2.engines F).m_components =
      if F = E then (w.engines F).m_components.erase c else (w.engines F).m_components) := by
  unfold removeName
  simp only [hn, if_false, hf]
  by_cases hi : i = c <;> by_cases hF : F = E <;>
    simp [hi, hF, SigWorld.setEngine, SigWorld.setComponents]

theorem removeName_not_found (w : SigWorld) (E : Nat) (name : String)
    (h : name = "" ∨ find w E name = none) : removeName w E name = (false, w) := by
  unfold removeName
  rcases h with h | h
  · simp [h]
  · by_cases hn : name = ""
    · simp [hn]
    · simp [hn, h]

end SignallingEngine

namespace SignallingEngine

/-- Taking a component out of the list of its owner and clearing its
back-reference keeps the membership invariant. -/
theorem consistent_take (w w2 : SigWorld) (E c : Nat) (h : w.consistent)
    (hown : (w.components c).m_engine = some E)
    (he : ∀ i, (w2.components i).m_engine = if i = c then none else (w.components i).m_engine)
    (hl : ∀ F, (w2.engines F).m_components =
      if F = E then (w.engines F).m_components.erase c else (w.engines F).m_components) :
    w2.consistent := by
  obtain ⟨h1, h2⟩ := h
  constructor
  · intro i F
    rw [he, hl]
    by_cases hF : F = E
    · subst hF
      rw [if_pos rfl, (h2 F).mem_erase_iff, h1]
      by_cases hi : i = c
      · simp [hi]
      · simp [hi]
    · rw [if_neg hF, h1]
      by_cases hi : i = c
      · subst hi
        rw [if_pos rfl, hown]
        simp [Ne.symm hF]
      · rw [if_neg hi]
  · intro F
    rw [hl]
    split_ifs
    · exact (h2 F).erase c
    · exact h2 F

theorem consistent_remove (w : SigWorld) (E : Nat) (c : Option Nat) (h : w.consistent) :
    (remove w E c).consistent := by
  cases c with
  | none => exact h
  | some c =>
    by_cases hown : (w.components c).m_engine = some E
    · refine consistent_take w _ E c h hown ?_ ?_
      · intro i; rw [remove_engine]; simp [hown]
      · intro F; rw [remove_list]; simp [hown]
    · have : remove w E (some c) = w := by simp [remove, hown]
      rw [this]; exact h

theorem consistent_detach (w : SigWorld) (c : Nat) (h : w.consistent) :
    (SignallingComponent.detach w c).consistent := by
  cases hown : (w.components c).m_engine with
  | none =>
    have : SignallingComponent.detach w c = w := by simp [SignallingComponent.detach, hown]
    rw [this]; exact h
  | some E =>
    refine consistent_take w _ E c h hown ?_ ?_
    · intro i; rw [detach_engine]
    · intro F
      rw [detach_list, hown]
      by_cases hF : F = E
      · simp [hF]
      · simp [hF, Ne.symm hF]

theorem consistent_insert (w : SigWorld) (E : Nat) (c : Option Nat) (h : w.consistent) :
    (insert w E c).consistent := by
  cases c with
  | none => exact h
  | some c =>
    by_cases hown : (w.components c).m_engine = some E
    · have : insert w E (some c) = w := by simp [insert, hown]
      rw [this]; exact h
    · obtain ⟨h1, h2⟩ := h
      have hc : c ∉ (w.engines E).m_components := fun hm => hown ((h1 c E).mp hm)
      constructor
      · intro i F
        rw [insert_engine, insert_list, if_neg hown]
        by_cases hF : F = E
        · subst hF
          rw [if_pos rfl, List.mem_append, List.mem_singleton, h1]
          by_cases hi : i = c
          · simp [hi]
          · simp [hi]
        · rw [if_neg hF]
          by_cases hi : i = c
          · subst hi
            rw [if_pos rfl]
            by_cases hcF : (w.components i).m_engine = some F
            · rw [if_pos hcF]
              simp [Ne.symm hF, (h2 F).mem_erase_iff]
            · rw [if_neg hcF, h1]
              simp [Ne.symm hF, hcF]
          · rw [if_neg hi]
            by_cases hcF : (w.components c).m_engine = some F
            · rw [if_pos hcF, (h2 F).mem_erase_iff, h1]
              simp [hi]
            · rw [if_neg hcF, h1]
      · intro F
        rw [insert_list, if_neg hown]
        split_ifs with hF hcF
        · subst hF
          exact List.Nodup.append (h2 F) (List.nodup_singleton c) (by simpa using hc)
        · exact (h2 F).erase c
        · exact h2 F

theorem consistent_removeName (w : SigWorld) (E : Nat) (name : String) (h : w.consistent) :
    (removeName w E name).2.consistent := by
  by_cases hn : name = ""
  · rw [removeName_not_found w E name (Or.inl hn)]; exact h
  · cases hf : find w E name with
    | none => rw [removeName_not_found w E name (Or.inr hf)]; exact h
    | some c =>
      have hmem : c ∈ (w.engines E).m_components := List.mem_of_find?_eq_some hf
      have hown : (w.components c).m_engine = some E := (h.1 c E).mp hmem
      exact consistent_take w _ E c h hown
        (fun i => (removeName_found w E name c hn hf i E).1)
        (fun F => (removeName_found w E name c hn hf c F).2)

theorem consistent_applyCall (w : SigWorld) (call : EngineCall) (h : w.consistent) :
    (w.applyCall call).consistent := by
  cases call with
  | insert E c => exact consistent_insert w E c h
  | remove E c => exact consistent_remove w E c h
  | removeName E name => exact consistent_removeName w E name h
  | detach c => exact consistent_detach w c h

theorem consistent_runCalls (calls : List EngineCall) :
    ∀ w : SigWorld, w.consistent → (w.runCalls calls).consistent := by
  induction calls with
  | nil => intro w h; exact h
  | cons c rest ih => intro w h; exact ih _ (consistent_applyCall w c h)

/-- C24: engine membership invariant. From engines and components that
satisfy it (newly constructed ones do), after any sequence of
`SignallingEngine::insert`, `remove(component)`, `remove(name)` and
`SignallingComponent::detach` calls a component is in the list of engine `E`
iff its back-reference is `E`, no list holds a component twice and no component
is in the lists of two engines; `insert` of a component the engine owns changes
nothing, and `insert` of a component owned by another engine takes it out of
the list of that engine, appends it at the tail of this one and makes this
engine its owner, every other list staying as it was. -/
theorem engine_membership_invariant (w : SigWorld) (calls : List EngineCall)
    (h : w.consistent) :
    (∀ c E, c ∈ ((w.runCalls calls).engines E).m_components ↔
      ((w.runCalls calls).components c).m_engine = some E) ∧
    (∀ E, ((w.runCalls calls).engines E).m_components.Nodup) ∧
    (∀ c E F, c ∈ ((w.runCalls calls).engines E).m_components →
      c ∈ ((w.runCalls calls).engines F).m_components → E = F) ∧
    (∀ c E, (w.components c).m_engine = some E →
      (insert w E (some c)).components = w.components ∧
      (insert w E (some c)).engines = w.engines) ∧
    (∀ c E F, (w.components c).m_engine = some F → F ≠ E →
      ((insert w E (some c)).engines F).m_components = (w.engines F).m_components.erase c ∧
      c ∉ ((insert w E (some c)).engines F).m_components ∧
      ((insert w E (some c)).engines E).m_components = (w.engines E).m_components ++ [c] ∧
      ((insert w E (some c)).components c).m_engine = some E ∧
      ∀ G, G ≠ E → G ≠ F →
        ((insert w E (some c)).engines G).m_components = (w.engines G).m_components) := by
  have hc := consistent_runCalls calls w h
  refine ⟨hc.1, hc.2, ?_, ?_, ?_⟩
  · intro c E F hE hF
    have h1 := (hc.1 c E).mp hE
    have h2 := (hc.1 c F).mp hF
    rw [h1] at h2
    exact Option.some.inj h2
  · intro c E hown
    simp [insert, hown]
  · intro c E F hown hne
    have hown2 : ¬ (w.components c).m_engine = some E := by
      rw [hown]; intro hh; exact hne (Option.some.inj hh)
    refine ⟨?_, ?_, ?_, ?_, ?_⟩
    · rw [insert_list, if_neg hown2, if_neg hne, if_pos hown]
    · rw [insert_list, if_neg hown2, if_neg hne, if_pos hown]
      exact (h.2 F).not_mem_erase
    · rw [insert_list, if_neg hown2, if_pos rfl]
    · rw [insert_engine, if_pos rfl]
    · intro G hG1 hG2
      have hown3 : ¬ (w.components c).m_engine = some G := by
        rw [hown]; intro hh; exact hG2 (Option.some.inj hh).symm
      rw [insert_list, if_neg hown2, if_neg hG1, if_neg hown3]

theorem engine_membership_invariant_witness :
    ((SigWorld.initial.runCalls
      [.insert 0 (some 1), .insert 0 (some 2), .insert 1 (some 1), .remove 0 (some 2),
       .insert 1 (some 1)]).engines 1).m_components.Nodup :=
  (engine_membership_invariant SigWorld.initial
    [.insert 0 (some 1), .insert 0 (some 2), .insert 1 (some 1), .remove 0 (some 2),
     .insert 1 (some 1)]
    ⟨fun c E => by simp [SigWorld.initial, SignallingEngine.new],
     fun E => by simp [SigWorld.initial, SignallingEngine.new]⟩).2.1 1

end SignallingEngine
